import Mathlib

/-!
# Tachyon runtime support: tagged boxes, object layouts, byte marshaling, foreign calls

A shallow embedding of `source/d8/gc-generated.cc` and, from
`source/codegen/d8-tachyon-exts.cc`, of the marshaling helpers, of
`getBlockAddr`, of `getFuncAddr` and of the bridge `callTachyonFFI`.

* `pint` and `box` are `intptr_t`: a signed native word of `W` bytes.  They
  are modelled as `Int`, every arithmetic or bitwise result being reduced to
  the signed range of `8 * W` bits (two's complement).
* `ref` and `rptr` are `int8_t*`: an address, modelled as `Nat` below
  `256 ^ W`.
* The heap is byte addressed; a word occupies `W` consecutive bytes, least
  significant byte first (the x86 targets of the code generator).
* A fatal diagnostic followed by `exit(1)` is an `Except.error`; native code
  called through the bridge is a parameter, and the calls made are recorded.
-/

namespace Tachyon

/-! ## Native words -/

/-- Number of distinct values of a native word of `W` bytes. -/
def wordMod (W : Nat) : Nat := 256 ^ W

/-- Bit pattern (unsigned reading) of a signed native integer. -/
def toBits (W : Nat) (x : Int) : Nat := (x % (wordMod W : Int)).toNat

/-- Signed reading (`intptr_t`) of a bit pattern. -/
def toPint (W : Nat) (n : Nat) : Int :=
  if n % wordMod W < wordMod W / 2 then ((n % wordMod W : Nat) : Int)
  else ((n % wordMod W : Nat) : Int) - (wordMod W : Int)

/-- Reduction of a mathematical integer to the `intptr_t` range. -/
def wrapPint (W : Nat) (x : Int) : Int := toPint W (toBits W x)

/-- The values an `intptr_t` can hold. -/
def isPint (W : Nat) (x : Int) : Prop :=
  -((wordMod W / 2 : Nat) : Int) ≤ x ∧ x < ((wordMod W / 2 : Nat) : Int)

instance (W : Nat) (x : Int) : Decidable (isPint W x) := by
  unfold isPint; infer_instance

/-- The values a pointer can hold. -/
def isAddr (W : Nat) (a : Nat) : Prop := a < wordMod W

instance (W : Nat) (a : Nat) : Decidable (isAddr W a) := by
  unfold isAddr; infer_instance

/-- Addition `a + b` on `pint`. -/
def pintAdd (W : Nat) (a b : Int) : Int := wrapPint W (a + b)

/-- Multiplication `a * b` on `pint`. -/
def pintMul (W : Nat) (a b : Int) : Int := wrapPint W (a * b)

/-- Bitwise `a & b` on `pint`. -/
def pintAnd (W : Nat) (a b : Int) : Int := toPint W (toBits W a &&& toBits W b)

/-- Bitwise `a | b` on `pint`. -/
def pintOr (W : Nat) (a b : Int) : Int := toPint W (toBits W a ||| toBits W b)

/-- The cast `(ref)x` of a native integer to a pointer. -/
def castRef (W : Nat) (x : Int) : Nat := toBits W x

/-- The cast `(pint)p` of a pointer to a native integer. -/
def castPint (W : Nat) (p : Nat) : Int := toPint W p

/-- Pointer arithmetic `ptr + offset` on a byte pointer. -/
def ptrAdd (W : Nat) (ptr : Nat) (offset : Int) : Nat :=
  (((ptr : Int) + offset) % (wordMod W : Int)).toNat

/-! ## Tagged value codec (`gc-generated.cc`, lines 9-22) -/

/-- Embeds `ref unboxRef(box boxVal) { return (ref)(boxVal & ~7); }` -/
def unboxRef (W : Nat) (boxVal : Int) : Nat :=
  castRef W (pintAnd W boxVal (~~~(7 : Int)))

/-- Embeds `box boxRef(ref refVal, pint tagVal) { return (box)((pint)refVal | tagVal); }` -/
def boxRef (W : Nat) (refVal : Nat) (tagVal : Int) : Int :=
  pintOr W (castPint W refVal) tagVal

/-- Embeds `pint getRefTag(box boxVal) { return (boxVal & 7); }` -/
def getRefTag (W : Nat) (boxVal : Int) : Int :=
  pintAnd W boxVal 7

/-! ## Byte-addressed heap -/

/-- The heap: the byte stored at every address. -/
abbrev Mem := Nat → Nat

/-- The `k` bytes starting at address `a`, read as one little-endian number. -/
def loadBytes (m : Mem) (a : Nat) : Nat → Nat
  | 0 => 0
  | k + 1 => m a % 256 + 256 * loadBytes m (a + 1) k

/-- The heap after the low `k` bytes of `n` are written from address `a` on. -/
def storeBytes (m : Mem) (a n : Nat) : Nat → Mem
  | 0 => m
  | k + 1 => storeBytes (fun x => if x = a then n % 256 else m x) (a + 1) (n / 256) k

/-- The read `*((pint*)p)`, also used for `box`. -/
def loadPint (W : Nat) (m : Mem) (p : Nat) : Int := toPint W (loadBytes m p W)

/-- The write `*((pint*)p) = val`, also used for `box`. -/
def storePint (W : Nat) (m : Mem) (p : Nat) (val : Int) : Mem :=
  storeBytes m p (toBits W val) W

/-- The read `*((rptr*)p)`. -/
def loadPtr (W : Nat) (m : Mem) (p : Nat) : Nat := loadBytes m p W

/-- The write `*((rptr*)p) = val`. -/
def storePtr (W : Nat) (m : Mem) (p : Nat) (val : Nat) : Mem :=
  storeBytes m p val W

/-- The heap holding the byte 0 at every address. -/
def zeroHeap : Mem := fun _ => 0

/-- The heap holding the byte 1 at every address. -/
def onesHeap : Mem := fun _ => 1

/-! ## Object layout accessors (`gc-generated.cc`, lines 24-554) -/

/-- Embeds `pint get_hashtbl_size(box obj)` (line 28). -/
def get_hashtbl_size (W : Nat) (m : Mem) (obj : Int) : Int :=
  let offset : Int := 0
  let offset := pintAdd W offset 4
  let ptr := unboxRef W obj
  loadPint W m (ptrAdd W ptr offset)

/-- Embeds `void set_hashtbl_size(box obj, pint val)` (line 36). -/
def set_hashtbl_size (W : Nat) (m : Mem) (obj : Int) (val : Int) : Mem :=
  let offset : Int := 0
  let offset := pintAdd W offset 4
  let ptr := unboxRef W obj
  storePint W m (ptrAdd W ptr offset) val

/-- Embeds `box get_hashtbl_tbl_key(box obj, pint idx0)` (line 44). -/
def get_hashtbl_tbl_key (W : Nat) (m : Mem) (obj : Int) (idx0 : Int) : Int :=
  let offset : Int := 0
  let offset := pintAdd W offset 8
  let offset := pintAdd W offset (pintMul W 8 idx0)
  let offset := pintAdd W offset 0
  let ptr := unboxRef W obj
  loadPint W m (ptrAdd W ptr offset)

/-- Embeds `void set_hashtbl_tbl_key(box obj, pint idx0, box val)` (line 54). -/
def set_hashtbl_tbl_key (W : Nat) (m : Mem) (obj : Int) (idx0 : Int) (val : Int) : Mem :=
  let offset : Int := 0
  let offset := pintAdd W offset 8
  let offset := pintAdd W offset (pintMul W 8 idx0)
  let offset := pintAdd W offset 0
  let ptr := unboxRef W obj
  storePint W m (ptrAdd W ptr offset) val

/-- Embeds `box get_hashtbl_tbl_val(box obj, pint idx0)` (line 64). -/
def get_hashtbl_tbl_val (W : Nat) (m : Mem) (obj : Int) (idx0 : Int) : Int :=
  let offset : Int := 0
  let offset := pintAdd W offset 8
  let offset := pintAdd W offset (pintMul W 8 idx0)
  let offset := pintAdd W offset 4
  let ptr := unboxRef W obj
  loadPint W m (ptrAdd W ptr offset)

/-- Embeds `void set_hashtbl_tbl_val(box obj, pint idx0, box val)` (line 74). -/
def set_hashtbl_tbl_val (W : Nat) (m : Mem) (obj : Int) (idx0 : Int) (val : Int) : Mem :=
  let offset : Int := 0
  let offset := pintAdd W offset 8
  let offset := pintAdd W offset (pintMul W 8 idx0)
  let offset := pintAdd W offset 4
  let ptr := unboxRef W obj
  storePint W m (ptrAdd W ptr offset) val

/-- Embeds `pint comp_size_hashtbl(pint size)` (line 84). -/
def comp_size_hashtbl (W : Nat) (size : Int) : Int :=
  let baseSize : Int := 8
  let elemSize : Int := 8
  let objSize : Int := pintAdd W baseSize (pintMul W elemSize size)
  objSize

/-- Embeds `pint sizeof_hashtbl(box obj)` (line 92). -/
def sizeof_hashtbl (W : Nat) (m : Mem) (obj : Int) : Int :=
  let size : Int := get_hashtbl_size W m obj
  comp_size_hashtbl W size

/-- Embeds `void visit_hashtbl(box obj)` (line 98): the body is empty, so the heap is returned
as it was and no reference is reported. -/
def visit_hashtbl (m : Mem) (_obj : Int) : Mem × List Int :=
  (m, [])

/-- Embeds `box get_obj_proto(box obj)` (line 106). -/
def get_obj_proto (W : Nat) (m : Mem) (obj : Int) : Int :=
  let offset : Int := 0
  let offset := pintAdd W offset 4
  let ptr := unboxRef W obj
  loadPint W m (ptrAdd W ptr offset)

/-- Embeds `void set_obj_proto(box obj, box val)` (line 114). -/
def set_obj_proto (W : Nat) (m : Mem) (obj : Int) (val : Int) : Mem :=
  let offset : Int := 0
  let offset := pintAdd W offset 4
  let ptr := unboxRef W obj
  storePint W m (ptrAdd W ptr offset) val

/-- Embeds `box get_obj_tbl(box obj)` (line 122). -/
def get_obj_tbl (W : Nat) (m : Mem) (obj : Int) : Int :=
  let offset : Int := 0
  let offset := pintAdd W offset 8
  let ptr := unboxRef W obj
  loadPint W m (ptrAdd W ptr offset)

/-- Embeds `void set_obj_tbl(box obj, box val)` (line 130). -/
def set_obj_tbl (W : Nat) (m : Mem) (obj : Int) (val : Int) : Mem :=
  let offset : Int := 0
  let offset := pintAdd W offset 8
  let ptr := unboxRef W obj
  storePint W m (ptrAdd W ptr offset) val

/-- Embeds `pint comp_size_obj()` (line 138). -/
def comp_size_obj (W : Nat) : Int :=
  let baseSize : Int := 12
  let elemSize : Int := 4
  let size : Int := 1
  let objSize : Int := pintAdd W baseSize (pintMul W elemSize size)
  objSize

/-- Embeds `pint sizeof_obj(box obj)` (line 147). -/
def sizeof_obj (W : Nat) (_obj : Int) : Int :=
  comp_size_obj W

/-- Embeds `void visit_obj(box obj)` (line 152): the body is empty, so the heap is returned
as it was and no reference is reported. -/
def visit_obj (m : Mem) (_obj : Int) : Mem × List Int :=
  (m, [])

/-- Embeds `pint get_arrtbl_size(box obj)` (line 160). -/
def get_arrtbl_size (W : Nat) (m : Mem) (obj : Int) : Int :=
  let offset : Int := 0
  let offset := pintAdd W offset 4
  let ptr := unboxRef W obj
  loadPint W m (ptrAdd W ptr offset)

/-- Embeds `void set_arrtbl_size(box obj, pint val)` (line 168). -/
def set_arrtbl_size (W : Nat) (m : Mem) (obj : Int) (val : Int) : Mem :=
  let offset : Int := 0
  let offset := pintAdd W offset 4
  let ptr := unboxRef W obj
  storePint W m (ptrAdd W ptr offset) val

/-- Embeds `box get_arrtbl_tbl(box obj, pint idx0)` (line 176). -/
def get_arrtbl_tbl (W : Nat) (m : Mem) (obj : Int) (idx0 : Int) : Int :=
  let offset : Int := 0
  let offset := pintAdd W offset 8
  let offset := pintAdd W offset (pintMul W 4 idx0)
  let ptr := unboxRef W obj
  loadPint W m (ptrAdd W ptr offset)

/-- Embeds `void set_arrtbl_tbl(box obj, pint idx0, box val)` (line 185). -/
def set_arrtbl_tbl (W : Nat) (m : Mem) (obj : Int) (idx0 : Int) (val : Int) : Mem :=
  let offset : Int := 0
  let offset := pintAdd W offset 8
  let offset := pintAdd W offset (pintMul W 4 idx0)
  let ptr := unboxRef W obj
  storePint W m (ptrAdd W ptr offset) val

/-- Embeds `pint comp_size_arrtbl(pint size)` (line 194). -/
def comp_size_arrtbl (W : Nat) (size : Int) : Int :=
  let baseSize : Int := 8
  let elemSize : Int := 4
  let objSize : Int := pintAdd W baseSize (pintMul W elemSize size)
  objSize

/-- Embeds `pint sizeof_arrtbl(box obj)` (line 202). -/
def sizeof_arrtbl (W : Nat) (m : Mem) (obj : Int) : Int :=
  let size : Int := get_arrtbl_size W m obj
  comp_size_arrtbl W size

/-- Embeds `void visit_arrtbl(box obj)` (line 208): the body is empty, so the heap is returned
as it was and no reference is reported. -/
def visit_arrtbl (m : Mem) (_obj : Int) : Mem × List Int :=
  (m, [])

/-- Embeds `box get_arr_proto(box obj)` (line 216). -/
def get_arr_proto (W : Nat) (m : Mem) (obj : Int) : Int :=
  let offset : Int := 0
  let offset := pintAdd W offset 4
  let ptr := unboxRef W obj
  loadPint W m (ptrAdd W ptr offset)

/-- Embeds `void set_arr_proto(box obj, box val)` (line 224). -/
def set_arr_proto (W : Nat) (m : Mem) (obj : Int) (val : Int) : Mem :=
  let offset : Int := 0
  let offset := pintAdd W offset 4
  let ptr := unboxRef W obj
  storePint W m (ptrAdd W ptr offset) val

/-- Embeds `box get_arr_tbl(box obj)` (line 232). -/
def get_arr_tbl (W : Nat) (m : Mem) (obj : Int) : Int :=
  let offset : Int := 0
  let offset := pintAdd W offset 8
  let ptr := unboxRef W obj
  loadPint W m (ptrAdd W ptr offset)

/-- Embeds `void set_arr_tbl(box obj, box val)` (line 240). -/
def set_arr_tbl (W : Nat) (m : Mem) (obj : Int) (val : Int) : Mem :=
  let offset : Int := 0
  let offset := pintAdd W offset 8
  let ptr := unboxRef W obj
  storePint W m (ptrAdd W ptr offset) val

/-- Embeds `box get_arr_arr(box obj)` (line 248). -/
def get_arr_arr (W : Nat) (m : Mem) (obj : Int) : Int :=
  let offset : Int := 0
  let offset := pintAdd W offset 16
  let ptr := unboxRef W obj
  loadPint W m (ptrAdd W ptr offset)

/-- Embeds `void set_arr_arr(box obj, box val)` (line 256). -/
def set_arr_arr (W : Nat) (m : Mem) (obj : Int) (val : Int) : Mem :=
  let offset : Int := 0
  let offset := pintAdd W offset 16
  let ptr := unboxRef W obj
  storePint W m (ptrAdd W ptr offset) val

/-- Embeds `pint comp_size_arr()` (line 264). -/
def comp_size_arr (W : Nat) : Int :=
  let baseSize : Int := 20
  let elemSize : Int := 4
  let size : Int := 1
  let objSize : Int := pintAdd W baseSize (pintMul W elemSize size)
  objSize

/-- Embeds `pint sizeof_arr(box obj)` (line 273). -/
def sizeof_arr (W : Nat) (_obj : Int) : Int :=
  comp_size_arr W

/-- Embeds `void visit_arr(box obj)` (line 278): the body is empty, so the heap is returned
as it was and no reference is reported. -/
def visit_arr (m : Mem) (_obj : Int) : Mem × List Int :=
  (m, [])

/-- Embeds `pint get_str_size(box obj)` (line 286). -/
def get_str_size (W : Nat) (m : Mem) (obj : Int) : Int :=
  let offset : Int := 0
  let offset := pintAdd W offset 8
  let ptr := unboxRef W obj
  loadPint W m (ptrAdd W ptr offset)

/-- Embeds `void set_str_size(box obj, pint val)` (line 294). -/
def set_str_size (W : Nat) (m : Mem) (obj : Int) (val : Int) : Mem :=
  let offset : Int := 0
  let offset := pintAdd W offset 8
  let ptr := unboxRef W obj
  storePint W m (ptrAdd W ptr offset) val

/-- Embeds `pint comp_size_str(pint size)` (line 302). -/
def comp_size_str (W : Nat) (size : Int) : Int :=
  let baseSize : Int := 12
  let elemSize : Int := 2
  let objSize : Int := pintAdd W baseSize (pintMul W elemSize size)
  objSize

/-- Embeds `pint sizeof_str(box obj)` (line 310). -/
def sizeof_str (W : Nat) (m : Mem) (obj : Int) : Int :=
  let size : Int := get_str_size W m obj
  comp_size_str W size

/-- Embeds `void visit_str(box obj)` (line 316): the body is empty, so the heap is returned
as it was and no reference is reported. -/
def visit_str (m : Mem) (_obj : Int) : Mem × List Int :=
  (m, [])

/-- Embeds `pint get_strtbl_size(box obj)` (line 324). -/
def get_strtbl_size (W : Nat) (m : Mem) (obj : Int) : Int :=
  let offset : Int := 0
  let offset := pintAdd W offset 8
  let ptr := unboxRef W obj
  loadPint W m (ptrAdd W ptr offset)

/-- Embeds `void set_strtbl_size(box obj, pint val)` (line 332). -/
def set_strtbl_size (W : Nat) (m : Mem) (obj : Int) (val : Int) : Mem :=
  let offset : Int := 0
  let offset := pintAdd W offset 8
  let ptr := unboxRef W obj
  storePint W m (ptrAdd W ptr offset) val

/-- Embeds `box get_strtbl_tbl(box obj, pint idx0)` (line 340). -/
def get_strtbl_tbl (W : Nat) (m : Mem) (obj : Int) (idx0 : Int) : Int :=
  let offset : Int := 0
  let offset := pintAdd W offset 12
  let offset := pintAdd W offset (pintMul W 4 idx0)
  let ptr := unboxRef W obj
  loadPint W m (ptrAdd W ptr offset)

/-- Embeds `void set_strtbl_tbl(box obj, pint idx0, box val)` (line 349). -/
def set_strtbl_tbl (W : Nat) (m : Mem) (obj : Int) (idx0 : Int) (val : Int) : Mem :=
  let offset : Int := 0
  let offset := pintAdd W offset 12
  let offset := pintAdd W offset (pintMul W 4 idx0)
  let ptr := unboxRef W obj
  storePint W m (ptrAdd W ptr offset) val

/-- Embeds `pint comp_size_strtbl(pint size)` (line 358). -/
def comp_size_strtbl (W : Nat) (size : Int) : Int :=
  let baseSize : Int := 12
  let elemSize : Int := 4
  let objSize : Int := pintAdd W baseSize (pintMul W elemSize size)
  objSize

/-- Embeds `pint sizeof_strtbl(box obj)` (line 366). -/
def sizeof_strtbl (W : Nat) (m : Mem) (obj : Int) : Int :=
  let size : Int := get_strtbl_size W m obj
  comp_size_strtbl W size

/-- Embeds `void visit_strtbl(box obj)` (line 372): the body is empty, so the heap is returned
as it was and no reference is reported. -/
def visit_strtbl (m : Mem) (_obj : Int) : Mem × List Int :=
  (m, [])

/-- Embeds `box get_clos_proto(box obj)` (line 380). -/
def get_clos_proto (W : Nat) (m : Mem) (obj : Int) : Int :=
  let offset : Int := 0
  let offset := pintAdd W offset 4
  let ptr := unboxRef W obj
  loadPint W m (ptrAdd W ptr offset)

/-- Embeds `void set_clos_proto(box obj, box val)` (line 388). -/
def set_clos_proto (W : Nat) (m : Mem) (obj : Int) (val : Int) : Mem :=
  let offset : Int := 0
  let offset := pintAdd W offset 4
  let ptr := unboxRef W obj
  storePint W m (ptrAdd W ptr offset) val

/-- Embeds `box get_clos_tbl(box obj)` (line 396). -/
def get_clos_tbl (W : Nat) (m : Mem) (obj : Int) : Int :=
  let offset : Int := 0
  let offset := pintAdd W offset 8
  let ptr := unboxRef W obj
  loadPint W m (ptrAdd W ptr offset)

/-- Embeds `void set_clos_tbl(box obj, box val)` (line 404). -/
def set_clos_tbl (W : Nat) (m : Mem) (obj : Int) (val : Int) : Mem :=
  let offset : Int := 0
  let offset := pintAdd W offset 8
  let ptr := unboxRef W obj
  storePint W m (ptrAdd W ptr offset) val

/-- Embeds `rptr get_clos_funcptr(box obj)` (line 412). -/
def get_clos_funcptr (W : Nat) (m : Mem) (obj : Int) : Nat :=
  let offset : Int := 0
  let offset := pintAdd W offset 16
  let ptr := unboxRef W obj
  loadPtr W m (ptrAdd W ptr offset)

/-- Embeds `void set_clos_funcptr(box obj, rptr val)` (line 420). -/
def set_clos_funcptr (W : Nat) (m : Mem) (obj : Int) (val : Nat) : Mem :=
  let offset : Int := 0
  let offset := pintAdd W offset 16
  let ptr := unboxRef W obj
  storePtr W m (ptrAdd W ptr offset) val

/-- Embeds `pint get_clos_size(box obj)` (line 428). -/
def get_clos_size (W : Nat) (m : Mem) (obj : Int) : Int :=
  let offset : Int := 0
  let offset := pintAdd W offset 20
  let ptr := unboxRef W obj
  loadPint W m (ptrAdd W ptr offset)

/-- Embeds `void set_clos_size(box obj, pint val)` (line 436). -/
def set_clos_size (W : Nat) (m : Mem) (obj : Int) (val : Int) : Mem :=
  let offset : Int := 0
  let offset := pintAdd W offset 20
  let ptr := unboxRef W obj
  storePint W m (ptrAdd W ptr offset) val

/-- Embeds `box get_clos_cells(box obj, pint idx0)` (line 444). -/
def get_clos_cells (W : Nat) (m : Mem) (obj : Int) (idx0 : Int) : Int :=
  let offset : Int := 0
  let offset := pintAdd W offset 24
  let offset := pintAdd W offset (pintMul W 4 idx0)
  let ptr := unboxRef W obj
  loadPint W m (ptrAdd W ptr offset)

/-- Embeds `void set_clos_cells(box obj, pint idx0, box val)` (line 453). -/
def set_clos_cells (W : Nat) (m : Mem) (obj : Int) (idx0 : Int) (val : Int) : Mem :=
  let offset : Int := 0
  let offset := pintAdd W offset 24
  let offset := pintAdd W offset (pintMul W 4 idx0)
  let ptr := unboxRef W obj
  storePint W m (ptrAdd W ptr offset) val

/-- Embeds `pint comp_size_clos(pint size)` (line 462). -/
def comp_size_clos (W : Nat) (size : Int) : Int :=
  let baseSize : Int := 24
  let elemSize : Int := 4
  let objSize : Int := pintAdd W baseSize (pintMul W elemSize size)
  objSize

/-- Embeds `pint sizeof_clos(box obj)` (line 470). -/
def sizeof_clos (W : Nat) (m : Mem) (obj : Int) : Int :=
  let size : Int := get_clos_size W m obj
  comp_size_clos W size

/-- Embeds `void visit_clos(box obj)` (line 476): the body is empty, so the heap is returned
as it was and no reference is reported. -/
def visit_clos (m : Mem) (_obj : Int) : Mem × List Int :=
  (m, [])

/-- Embeds `box get_cell_val(box obj)` (line 484). -/
def get_cell_val (W : Nat) (m : Mem) (obj : Int) : Int :=
  let offset : Int := 0
  let offset := pintAdd W offset 4
  let ptr := unboxRef W obj
  loadPint W m (ptrAdd W ptr offset)

/-- Embeds `void set_cell_val(box obj, box val)` (line 492). -/
def set_cell_val (W : Nat) (m : Mem) (obj : Int) (val : Int) : Mem :=
  let offset : Int := 0
  let offset := pintAdd W offset 4
  let ptr := unboxRef W obj
  storePint W m (ptrAdd W ptr offset) val

/-- Embeds `pint comp_size_cell()` (line 500). -/
def comp_size_cell (W : Nat) : Int :=
  let baseSize : Int := 4
  let elemSize : Int := 4
  let size : Int := 1
  let objSize : Int := pintAdd W baseSize (pintMul W elemSize size)
  objSize

/-- Embeds `pint sizeof_cell(box obj)` (line 509). -/
def sizeof_cell (W : Nat) (_obj : Int) : Int :=
  comp_size_cell W

/-- Embeds `void visit_cell(box obj)` (line 514): the body is empty, so the heap is returned
as it was and no reference is reported. -/
def visit_cell (m : Mem) (_obj : Int) : Mem × List Int :=
  (m, [])

/-- Embeds `rptr get_memblock_ptr(box obj)` (line 522). -/
def get_memblock_ptr (W : Nat) (m : Mem) (obj : Int) : Nat :=
  let offset : Int := 0
  let offset := pintAdd W offset 4
  let ptr := unboxRef W obj
  loadPtr W m (ptrAdd W ptr offset)

/-- Embeds `void set_memblock_ptr(box obj, rptr val)` (line 530). -/
def set_memblock_ptr (W : Nat) (m : Mem) (obj : Int) (val : Nat) : Mem :=
  let offset : Int := 0
  let offset := pintAdd W offset 4
  let ptr := unboxRef W obj
  storePtr W m (ptrAdd W ptr offset) val

/-- Embeds `pint comp_size_memblock()` (line 538). -/
def comp_size_memblock (W : Nat) : Int :=
  let baseSize : Int := 8
  let elemSize : Int := 4
  let size : Int := 1
  let objSize : Int := pintAdd W baseSize (pintMul W elemSize size)
  objSize

/-- Embeds `pint sizeof_memblock(box obj)` (line 547). -/
def sizeof_memblock (W : Nat) (_obj : Int) : Int :=
  comp_size_memblock W

/-- Embeds `void visit_memblock(box obj)` (line 552): the body is empty, so the heap is returned
as it was and no reference is reported. -/
def visit_memblock (m : Mem) (_obj : Int) : Mem × List Int :=
  (m, [])

/-! ## Raw value and byte-sequence marshaling (`d8-tachyon-exts.cc`, lines 331-389)

The script value handed to `arrayToVal` is an array-like object.  It is
modelled by the list of its elements at the indices `0, 1, ...`, each an
integer-valued number: `jsObj->Has(i)` holds exactly for `i` below the
length, and `jsObj->Get(i)` is the `i`-th element. -/

/-- Fatal diagnostics: the message is printed and the process ends with `exit(1)`. -/
inductive FatalError
  /-- "Error in arrayToVal -- array does not match value size" (line 346). -/
  | arrayDoesNotMatchValueSize
  /-- "Error in arrayToVal -- value outside of byte range" (line 356). -/
  | valueOutsideOfByteRange
  /-- "Error in getBlockAddress -- 1 or 2 argument expected" (line 395). -/
  | getBlockAddrArgumentCount
  /-- "Error in getBlockAddress -- index is past end of block" (line 418). -/
  | indexPastEndOfBlock
  /-- "Error in getFuncAddr -- 1 argument expected" (line 451). -/
  | getFuncAddrArgumentCount
  /-- "C function not found: ..." with the name looked up (line 475). -/
  | cFunctionNotFound (fName : String)
  /-- "Error in callTachyonFFI -- 4 or more argument expected" (line 504). -/
  | callTachyonFFIArgumentCount
  /-- "Error in callTachyonFFI -- missing argument type string" (line 536). -/
  | missingArgumentTypeString
  /-- "Error in callTachyonFFI -- integer arguments should be number values" (line 557). -/
  | integerArgumentsShouldBeNumbers
  /-- "Error in callTachyonFFI -- pointer arguments should be byte arrays" (line 572). -/
  | pointerArgumentsShouldBeByteArrays
  /-- "Error in callTachyonFFI -- unsupported argument type: ..." (line 580). -/
  | unsupportedArgumentType (argTypeStr : String)
  /-- "Error in callTachyonFFI -- unsupported argument count: ..." (line 657). -/
  | unsupportedArgumentCount (numArgs : Nat)
  /-- "Error in callTachyonFFI -- unsupported return type: ..." (line 682). -/
  | unsupportedReturnType (retTypeStr : String)
  deriving DecidableEq, Repr

/-- The conversion `Value::Int32Value()` of an integer-valued number: the
number is reduced modulo `2 ^ 32` to the signed 32-bit range. -/
def Int32Value (jsVal : Int) : Int :=
  (jsVal + 2147483648) % 4294967296 - 2147483648

/-- The value whose in-memory bytes, lowest address first, are `bytes`. -/
def ofBytes : List Nat → Nat
  | [] => 0
  | b :: bs => b + 256 * ofBytes bs

/-- The loop of `arrayToVal` (lines 340-361) from index `i` on, with `k`
iterations left: the bytes stored at `(uint8_t*)(&val) + i` and after. -/
def arrayToValLoop (jsObj : List Int) : Nat → Nat → Except FatalError (List Nat)
  | 0, _ => .ok []
  | k + 1, i =>
    match jsObj[i]? with
    | none => .error .arrayDoesNotMatchValueSize
    | some jsVal =>
      let intVal := Int32Value jsVal
      if intVal < 0 ∨ intVal > 255 then .error .valueOutsideOfByteRange
      else
        match arrayToValLoop jsObj k (i + 1) with
        | .error e => .error e
        | .ok bytes => .ok (intVal.toNat :: bytes)

/-- Embeds `template <class T> T arrayToVal(const v8::Value* arrayVal)` (line 332);
`size` is `sizeof(T)`. -/
def arrayToVal (size : Nat) (arrayVal : List Int) : Except FatalError Nat :=
  match arrayToValLoop arrayVal size 0 with
  | .error e => .error e
  | .ok bytes => .ok (ofBytes bytes)

/-- Embeds `template <class T> v8::Handle<v8::Value> valToArray(T val)` (line 367);
`size` is `sizeof(val)`.  Element `i` is the byte at `((uint8_t*)&val) + i`. -/
def valToArray (size : Nat) (val : Nat) : List Int :=
  (List.range size).map (fun i => ((val / 256 ^ i % 256 : Nat) : Int))

/-- The `k` low bytes of `v`, lowest first: the in-memory bytes of a `k`-byte value. -/
def bytesOf (v : Nat) : Nat → List Nat
  | 0 => []
  | k + 1 => v % 256 :: bytesOf (v / 256) k

/-! ## Host functions on blocks and symbols (`d8-tachyon-exts.cc`, lines 391-480)

The arguments of a host function are typed by the shape the function relies
on: a block is the object whose indexed elements are an external byte array, an
index is an integer-valued number, a name or a type tag is a script string.
The code reads a script string through `*Utf8Value`, a NUL-terminated buffer,
and compares it with `strcmp`. -/

/-- The C string in the buffer `*Utf8Value` of a script string: its characters
up to the first NUL character. -/
def cString (s : String) : List Char :=
  s.toList.takeWhile (fun ch => ch != Char.ofNat 0)

/-- The test `strcmp(a, b) == 0` on two buffers. -/
def strcmpIsZero (a b : String) : Prop := cString a = cString b

instance (a b : String) : Decidable (strcmpIsZero a b) := by
  unfold strcmpIsZero; infer_instance

/-- The script string made of `s`, a NUL character and the letter x. -/
def nulSuffixed (s : String) : String := s.push (Char.ofNat 0) ++ "x"

/-- The `int` type of the host functions: 32 bits on every target. -/
def isInt32 (x : Int) : Prop := isPint 4 x

instance (x : Int) : Decidable (isInt32 x) := by
  unfold isInt32; infer_instance

/-- Embeds `int sum2Ints(int v1, int v2) { return v1 + v2; }` (line 440). -/
def sum2Ints (v1 v2 : Int) : Int := wrapPint 4 (v1 + v2)

/-- The addresses of the six native functions `getFuncAddr` knows. -/
structure NativeSymbols where
  /-- Address of `malloc`. -/
  malloc : Nat
  /-- Address of `free`. -/
  free : Nat
  /-- Address of `exit`. -/
  exit : Nat
  /-- Address of `printInt`. -/
  printInt : Nat
  /-- Address of `printStr`. -/
  printStr : Nat
  /-- Address of `sum2Ints`. -/
  sum2Ints : Nat
  deriving DecidableEq, Repr

/-- No function lies at the address `NULL`. -/
def NativeSymbols.nonNull (syms : NativeSymbols) : Prop :=
  syms.malloc ≠ 0 ∧ syms.free ≠ 0 ∧ syms.exit ≠ 0 ∧ syms.printInt ≠ 0 ∧
    syms.printStr ≠ 0 ∧ syms.sum2Ints ≠ 0

instance (syms : NativeSymbols) : Decidable syms.nonNull := by
  unfold NativeSymbols.nonNull; infer_instance

/-- Embeds `v8::Handle<v8::Value> getFuncAddr(const v8::Arguments& args)` (line 447). -/
def getFuncAddr (W : Nat) (syms : NativeSymbols) (args : List String) :
    Except FatalError (List Int) :=
  if args.length ≠ 1 then .error .getFuncAddrArgumentCount
  else
    let fName := args.getD 0 ""
    let address : Nat := 0
    let address :=
      if strcmpIsZero fName "malloc" then syms.malloc
      else if strcmpIsZero fName "free" then syms.free
      else if strcmpIsZero fName "exit" then syms.exit
      else if strcmpIsZero fName "printInt" then syms.printInt
      else if strcmpIsZero fName "printStr" then syms.printStr
      else if strcmpIsZero fName "sum2Ints" then syms.sum2Ints
      else address
    if address = 0 then .error (.cFunctionNotFound fName)
    else .ok (valToArray W address)

/-! ## The foreign call bridge (`d8-tachyon-exts.cc`, lines 482-689) -/

/-- A script value given or returned across the bridge: a number
(`IsNumber()`, integer-valued), an array of integer-valued numbers
(`IsArray()`), or a value that is neither. -/
inductive JSValue
  | number (n : Int)
  | array (elems : List Int)
  | string (s : String)
  | undefined
  deriving DecidableEq, Repr

/-- The union `TachVal` (line 483), by the member written last.  Both members
start at the same address; `int` has 4 bytes and a pointer at least 4. -/
inductive TachVal
  | intVal (v : Int)
  | ptrVal (p : Nat)
  deriving DecidableEq, Repr

/-- Reading the member `intVal`: after a pointer was written these are its four
low-address bytes. -/
def TachVal.readIntVal : TachVal → Int
  | .intVal v => v
  | .ptrVal p => toPint 4 p

/-- Reading the member `ptrVal` of a union of `W`-byte pointers: after an `int`
was written the four low-address bytes are those of the `int`, and the bytes
above them still hold `high`, the content the union had before. -/
def TachVal.readPtrVal (W : Nat) (high : Nat) : TachVal → Nat
  | .ptrVal p => p
  | .intVal v => (toBits 4 v + 4294967296 * high) % wordMod W

/-- A call of native code: the function address and the arguments handed over,
the context pointer first. -/
structure NativeCall where
  /-- The function pointer `funcPtr`. -/
  funcPtr : Nat
  /-- The first argument, `ctxPtr`. -/
  ctxPtr : Nat
  /-- The further arguments, each an `int`. -/
  args : List Int
  deriving DecidableEq, Repr

/-- What a run of `callTachyonFFI` does: the native calls made, in order, and
then either the value returned to the script or the fatal diagnostic. -/
structure FFIOutcome where
  /-- The native calls performed. -/
  calls : List NativeCall
  /-- The returned value, or the diagnostic before `exit(1)`. -/
  result : Except FatalError JSValue

/-- The body of the argument loop of `callTachyonFFI` (lines 547-582) for one
argument value `arg` with the type string `argTypeStr`: the `TachVal` written. -/
def marshalArg (W : Nat) (argTypeStr : String) (arg : JSValue) : Except FatalError TachVal :=
  if strcmpIsZero argTypeStr "int" then
    match arg with
    | .number n => .ok (.intVal (Int32Value n))
    | _ => .error .integerArgumentsShouldBeNumbers
  else if strcmpIsZero argTypeStr "void*" ∨ strcmpIsZero argTypeStr "char*" then
    match arg with
    | .array elems =>
      match arrayToVal W elems with
      | .error e => .error e
      | .ok ptrVal => .ok (.ptrVal ptrVal)
    | _ => .error .pointerArgumentsShouldBeByteArrays
  else .error (.unsupportedArgumentType argTypeStr)

/-- The argument loop of `callTachyonFFI` (lines 528-583) from index `i` on:
`rest` are the argument values `args[i + MIN_ARG_COUNT]` and after. -/
def marshalArgs (W : Nat) (argTypeArray : List String) :
    List JSValue → Nat → Except FatalError (List TachVal)
  | [], _ => .ok []
  | arg :: rest, i =>
    match argTypeArray[i]? with
    | none => .error .missingArgumentTypeString
    | some argTypeStr =>
      match marshalArg W argTypeStr arg with
      | .error e => .error e
      | .ok tachArg =>
        match marshalArgs W argTypeArray rest (i + 1) with
        | .error e => .error e
        | .ok tachArgs => .ok (tachArg :: tachArgs)

/-- The expression `tachArgs[i].intVal`. -/
def intValAt (tachArgs : List TachVal) (i : Nat) : Int :=
  (tachArgs.getD i (.intVal 0)).readIntVal

/-- The `switch (numArgs)` of `callTachyonFFI` (lines 589-659): the arguments
handed over after the context pointer, or nothing in the `default` case. -/
def switchNumArgs (tachArgs : List TachVal) : Nat → Option (List Int)
  | 0 => some []
  | 1 => some [intValAt tachArgs 0]
  | 2 => some [intValAt tachArgs 0, intValAt tachArgs 1]
  | 3 => some [intValAt tachArgs 0, intValAt tachArgs 1, intValAt tachArgs 2]
  | 4 => some [intValAt tachArgs 0, intValAt tachArgs 1, intValAt tachArgs 2,
      intValAt tachArgs 3]
  | 5 => some [intValAt tachArgs 0, intValAt tachArgs 1, intValAt tachArgs 2,
      intValAt tachArgs 3, intValAt tachArgs 4]
  | 6 => some [intValAt tachArgs 0, intValAt tachArgs 1, intValAt tachArgs 2,
      intValAt tachArgs 3, intValAt tachArgs 4, intValAt tachArgs 5]
  | _ => none

/-- Embeds `v8::Handle<v8::Value> callTachyonFFI(const v8::Arguments& args)` (line 498).
The arguments are the type array, the return type string, the function
pointer array, the context pointer array and then `rest`.  `native` gives the
`int` a native call returns; `high` is the content of the local `retVal` above
its member `intVal` before the call. -/
def callTachyonFFI (W : Nat) (native : NativeCall → Int) (high : Nat)
    (argTypeArray : List String) (retTypeStr : String)
    (funcPtrArray ctxPtrArray : List Int) (rest : List JSValue) : FFIOutcome :=
  let MIN_ARG_COUNT := 4
  let argsLength := MIN_ARG_COUNT + rest.length
  if argsLength < MIN_ARG_COUNT then ⟨[], .error .callTachyonFFIArgumentCount⟩
  else
    match arrayToVal W funcPtrArray with
    | .error e => ⟨[], .error e⟩
    | .ok funcPtr =>
      match arrayToVal W ctxPtrArray with
      | .error e => ⟨[], .error e⟩
      | .ok ctxPtr =>
        let numArgs := argsLength - MIN_ARG_COUNT
        match marshalArgs W argTypeArray rest 0 with
        | .error e => ⟨[], .error e⟩
        | .ok tachArgs =>
          match switchNumArgs tachArgs numArgs with
          | none => ⟨[], .error (.unsupportedArgumentCount numArgs)⟩
          | some passed =>
            let call : NativeCall := ⟨funcPtr, ctxPtr, passed⟩
            let retVal := TachVal.intVal (native call)
            if strcmpIsZero retTypeStr "int" then
              ⟨[call], .ok (.number retVal.readIntVal)⟩
            else if strcmpIsZero retTypeStr "void*" ∨ strcmpIsZero retTypeStr "char*" then
              ⟨[call], .ok (.array (valToArray W (retVal.readPtrVal W high)))⟩
            else ⟨[call], .error (.unsupportedReturnType retTypeStr)⟩

/-- The entry of `sum2Ints` when it is reached through a `TACHYON_FPTR`.  Under
the C calling conventions of the x86 targets a callee takes its parameters from
the leading argument slots: `v1` is the context pointer read as an `int`, `v2`
is the first further argument (0 stands for a slot that was not filled). -/
def sum2IntsEntry (call : NativeCall) : Int :=
  sum2Ints (toPint 4 call.ctxPtr) (call.args.getD 0 0)

/-- The end-to-end scenario: the address of `sum2Ints` is resolved with
`getFuncAddr` and passed to `callTachyonFFI` with an all-zero context pointer,
the argument types `["int", "int"]`, the return type `"int"` and the values 5
and 7. -/
def sum2IntsScenario (W : Nat) (syms : NativeSymbols) (native : NativeCall → Int)
    (high : Nat) : FFIOutcome :=
  match getFuncAddr W syms ["sum2Ints"] with
  | .error e => ⟨[], .error e⟩
  | .ok funcPtrArray =>
    callTachyonFFI W native high ["int", "int"] "int" funcPtrArray (List.replicate W 0)
      [.number 5, .number 7]

/-- A sample layout of the native functions in a 32-bit address space. -/
def sampleSymbols : NativeSymbols :=
  ⟨134520832, 134520896, 134520960, 134521024, 134521088, 134521152⟩

/-- A sample native world on `sampleSymbols`: the function at the address of
`sum2Ints` is `sum2Ints`; every other call returns 0. -/
def sampleNative (call : NativeCall) : Int :=
  if call.funcPtr = sampleSymbols.sum2Ints then sum2IntsEntry call else 0

/-- A sample native world in which every function returns the sum of its `int`
arguments, as an `int`: the function `sum3(ctx, a, b, c) = a + b + c` of the
bridge test is of this kind. -/
def sumNative (call : NativeCall) : Int := wrapPint 4 call.args.sum

/-- An argument value fits its type string: a number for `"int"`, a decodable
byte array for `"void*"` and `"char*"`. -/
def wellTypedArg (W : Nat) (argTypeStr : String) : JSValue → Prop
  | .number _ => argTypeStr = "int"
  | .array elems => (argTypeStr = "void*" ∨ argTypeStr = "char*") ∧
      ∃ p, arrayToVal W elems = .ok p
  | _ => False

/-- Every argument value has a type string and fits it. -/
def wellTypedArgs (W : Nat) (argTypeArray : List String) (rest : List JSValue) : Prop :=
  ∀ (i : Nat) (arg : JSValue), rest[i]? = some arg →
    ∃ t, argTypeArray[i]? = some t ∧ wellTypedArg W t arg

/-! ## Native-word lemmas -/

theorem wordMod_pos (W : Nat) : 0 < wordMod W := Nat.pow_pos (by decide)

theorem wordMod_eq_two_pow (W : Nat) : wordMod W = 2 ^ (8 * W) := by
  unfold wordMod
  rw [Nat.pow_mul]

theorem wordMod_succ (W : Nat) : wordMod (W + 1) = 256 * wordMod W := by
  unfold wordMod
  rw [Nat.pow_succ, Nat.mul_comm]

theorem wordMod_half (W : Nat) (hW : 0 < W) : 2 * (wordMod W / 2) = wordMod W := by
  obtain ⟨k, rfl⟩ : ∃ k, W = k + 1 := ⟨W - 1, by omega⟩
  rw [wordMod_succ]
  omega

theorem wordMod_ge (W : Nat) (hW : 0 < W) : 256 ≤ wordMod W := by
  obtain ⟨k, rfl⟩ : ∃ k, W = k + 1 := ⟨W - 1, by omega⟩
  rw [wordMod_succ]
  have := wordMod_pos k
  omega

theorem toBits_lt (W : Nat) (x : Int) : toBits W x < wordMod W := by
  unfold toBits
  have hpos : (0 : Int) < (wordMod W : Int) := by exact_mod_cast wordMod_pos W
  have h1 := Int.emod_nonneg x (ne_of_gt hpos)
  have h2 := Int.emod_lt_of_pos x hpos
  omega

theorem toBits_cast (W : Nat) (x : Int) : ((toBits W x : Nat) : Int) = x % (wordMod W : Int) := by
  unfold toBits
  have hpos : (0 : Int) < (wordMod W : Int) := by exact_mod_cast wordMod_pos W
  exact Int.toNat_of_nonneg (Int.emod_nonneg x (ne_of_gt hpos))

theorem toBits_natCast (W : Nat) (n : Nat) : toBits W (n : Int) = n % wordMod W := by
  have h := toBits_cast W (n : Int)
  have : ((n : Int) % (wordMod W : Int)) = ((n % wordMod W : Nat) : Int) := by
    exact_mod_cast rfl
  rw [this] at h
  exact_mod_cast h

theorem toPint_emod (W : Nat) (n : Nat) :
    toPint W n % (wordMod W : Int) = ((n % wordMod W : Nat) : Int) := by
  have hlt : n % wordMod W < wordMod W := Nat.mod_lt _ (wordMod_pos W)
  have hpos : (0 : Int) < (wordMod W : Int) := by exact_mod_cast wordMod_pos W
  unfold toPint
  split
  · exact Int.emod_eq_of_lt (by omega) (by exact_mod_cast hlt)
  · rw [Int.sub_emod, Int.emod_self, Int.sub_zero, Int.emod_emod]
    exact Int.emod_eq_of_lt (by omega) (by exact_mod_cast hlt)

theorem toBits_toPint (W : Nat) (n : Nat) : toBits W (toPint W n) = n % wordMod W := by
  have h := toBits_cast W (toPint W n)
  rw [toPint_emod] at h
  exact_mod_cast h

theorem toBits_eq_of_emod_eq (W : Nat) (x y : Int)
    (h : x % (wordMod W : Int) = y % (wordMod W : Int)) : toBits W x = toBits W y := by
  unfold toBits
  rw [h]

theorem wrapPint_emod (W : Nat) (x : Int) :
    wrapPint W x % (wordMod W : Int) = x % (wordMod W : Int) := by
  unfold wrapPint
  rw [toPint_emod, Nat.mod_eq_of_lt (toBits_lt W x), toBits_cast]

theorem toPint_toBits (W : Nat) (hW : 0 < W) (v : Int) (hv : isPint W v) :
    toPint W (toBits W v) = v := by
  have hhalf := wordMod_half W hW
  have hb := toBits_cast W v
  have hlt := toBits_lt W v
  obtain ⟨h1, h2⟩ := hv
  unfold toPint
  rw [Nat.mod_eq_of_lt hlt]
  by_cases hneg : 0 ≤ v
  · have he : v % (wordMod W : Int) = v := Int.emod_eq_of_lt hneg (by omega)
    rw [he] at hb
    rw [if_pos (by omega)]
    exact hb
  · have he : v % (wordMod W : Int) = v + wordMod W := by
      rw [← Int.add_mul_emod_self_left v (wordMod W : Int) 1, Int.mul_one]
      exact Int.emod_eq_of_lt (by omega) (by omega)
    rw [he] at hb
    rw [if_neg (by omega)]
    omega

theorem wrapPint_of_isPint (W : Nat) (hW : 0 < W) (v : Int) (hv : isPint W v) :
    wrapPint W v = v := toPint_toBits W hW v hv

theorem ptrAdd_wrapPint (W : Nat) (p : Nat) (x : Int) :
    ptrAdd W p (wrapPint W x) = ptrAdd W p x := by
  unfold ptrAdd
  rw [Int.add_emod, wrapPint_emod, ← Int.add_emod]

theorem wrapPint_add_left (W : Nat) (x y : Int) :
    wrapPint W (wrapPint W x + y) = wrapPint W (x + y) := by
  unfold wrapPint
  congr 1
  apply toBits_eq_of_emod_eq
  rw [Int.add_emod, ← wrapPint, wrapPint_emod, ← Int.add_emod]

theorem wrapPint_add_right (W : Nat) (x y : Int) :
    wrapPint W (x + wrapPint W y) = wrapPint W (x + y) := by
  rw [Int.add_comm, wrapPint_add_left, Int.add_comm]

/-! ## Bit-level lemmas for the codec -/

theorem testBit_tagMask (n i : Nat) (hn : 3 ≤ n) :
    (2 ^ n - 8).testBit i = (decide (3 ≤ i) && decide (i < n)) := by
  have h8 : 2 ^ n - 8 = (2 ^ (n - 3) - 1) <<< 3 := by
    have hp : 2 ^ n = 2 ^ (n - 3) * 8 := by
      rw [show (8 : Nat) = 2 ^ 3 from rfl, ← Nat.pow_add]
      congr 1
      omega
    rw [Nat.shiftLeft_eq, hp, Nat.sub_mul]
  rw [h8, Nat.testBit_shiftLeft, Nat.testBit_two_pow_sub_one]
  by_cases h3 : 3 ≤ i
  · have : (decide (i - 3 < n - 3)) = decide (i < n) := by
      apply decide_eq_decide.mpr
      omega
    simp [h3, this]
  · simp [h3]

theorem and_tagMask (n x : Nat) (hn : 3 ≤ n) (hx : x < 2 ^ n) :
    x &&& (2 ^ n - 8) = 8 * (x / 8) := by
  apply Nat.eq_of_testBit_eq
  intro i
  have hr : 8 * (x / 8) = (x >>> 3) <<< 3 := by
    rw [Nat.shiftLeft_eq, Nat.shiftRight_eq_div_pow]
    omega
  rw [Nat.testBit_and, testBit_tagMask n i hn, hr, Nat.testBit_shiftLeft,
    Nat.testBit_shiftRight]
  by_cases h3 : 3 ≤ i
  · have e : 3 + (i - 3) = i := by omega
    by_cases hi : i < n
    · simp [h3, hi, e]
    · have hxi : x.testBit i = false :=
        Nat.testBit_lt_two_pow (Nat.lt_of_lt_of_le hx (Nat.pow_le_pow_right (by decide) (by omega)))
      simp [h3, hi, e, hxi]
  · simp [h3]

theorem or_tag (k t : Nat) (ht : t < 8) : 8 * k ||| t = 8 * k + t :=
  (Nat.mul_add_lt_is_or (show t < 2 ^ 3 from ht) k).symm

theorem toBits_neg_eight (W : Nat) (hW : 0 < W) : toBits W (~~~(7 : Int)) = wordMod W - 8 := by
  have hge := wordMod_ge W hW
  have hb := toBits_cast W (~~~(7 : Int))
  have h8 : (~~~(7 : Int)) = -8 := by decide
  rw [h8] at hb ⊢
  have he : (-8 : Int) % (wordMod W : Int) = -8 + wordMod W := by
    rw [← Int.add_mul_emod_self_left (-8) (wordMod W : Int) 1, Int.mul_one]
    exact Int.emod_eq_of_lt (by omega) (by omega)
  rw [he] at hb
  omega

theorem toBits_of_nonneg_lt (W : Nat) (t : Int) (h0 : 0 ≤ t) (h1 : t < wordMod W) :
    toBits W t = t.toNat := by
  unfold toBits
  rw [Int.emod_eq_of_lt h0 h1]

/-- On bit patterns, `unboxRef` clears the three low bits. -/
theorem unboxRef_eq (W : Nat) (hW : 0 < W) (b : Int) :
    unboxRef W b = 8 * (toBits W b / 8) := by
  have hlt := toBits_lt W b
  have hpow := wordMod_eq_two_pow W
  unfold unboxRef castRef pintAnd
  rw [toBits_toPint, toBits_neg_eight W hW, hpow, and_tagMask (8 * W) _ (by omega) (by omega)]
  apply Nat.mod_eq_of_lt
  omega

/-- On bit patterns, `getRefTag` keeps the three low bits. -/
theorem getRefTag_eq (W : Nat) (hW : 0 < W) (b : Int) :
    getRefTag W b = ((toBits W b % 8 : Nat) : Int) := by
  have hge := wordMod_ge W hW
  have hhalf := wordMod_half W hW
  unfold getRefTag pintAnd
  rw [toBits_of_nonneg_lt W 7 (by decide) (by omega)]
  have h7 : (7 : Int).toNat = 2 ^ 3 - 1 := by decide
  rw [h7, Nat.and_pow_two_sub_one_eq_mod]
  have hm : toBits W b % 2 ^ 3 < 8 := Nat.mod_lt _ (by decide)
  unfold toPint
  rw [Nat.mod_eq_of_lt (by omega), if_pos (by omega)]

/-- On bit patterns, `boxRef` of an aligned address adds the tag. -/
theorem toBits_boxRef (W : Nat) (hW : 0 < W) (a : Nat) (t : Int)
    (ha : isAddr W a) (hal : a % 8 = 0) (ht0 : 0 ≤ t) (ht7 : t ≤ 7) :
    toBits W (boxRef W a t) = a + t.toNat := by
  have hge := wordMod_ge W hW
  have hpow := wordMod_eq_two_pow W
  unfold isAddr at ha
  unfold boxRef pintOr castPint
  rw [toBits_toPint, toBits_toPint, Nat.mod_eq_of_lt ha,
    toBits_of_nonneg_lt W t ht0 (by omega)]
  have hk : a = 8 * (a / 8) := by omega
  have htn : t.toNat < 8 := by omega
  have hor : a ||| t.toNat = a + t.toNat := by
    rw [hk, or_tag _ _ htn]
  rw [hor]
  apply Nat.mod_eq_of_lt
  have hdvd : 8 ∣ wordMod W := by
    obtain ⟨k, rfl⟩ : ∃ k, W = k + 1 := ⟨W - 1, by omega⟩
    rw [wordMod_succ]
    exact Dvd.intro_left _ (by omega : 32 * wordMod k * 8 = 256 * wordMod k)
  omega


/-! ## Heap lemmas -/

theorem storeBytes_outside (k : Nat) (m : Mem) (a n x : Nat) (hx : x < a ∨ a + k ≤ x) :
    storeBytes m a n k x = m x := by
  induction k generalizing m a n with
  | zero => rfl
  | succ k ih =>
    unfold storeBytes
    rw [ih _ _ _ (by omega)]
    have hne : x ≠ a := by omega
    simp [hne]

theorem loadBytes_congr (k : Nat) (m m2 : Mem) (a : Nat)
    (h : ∀ x, a ≤ x → x < a + k → m x = m2 x) : loadBytes m a k = loadBytes m2 a k := by
  induction k generalizing a with
  | zero => rfl
  | succ k ih =>
    unfold loadBytes
    rw [h a (by omega) (by omega), ih (a + 1) (fun x h1 h2 => h x (by omega) (by omega))]

theorem loadBytes_lt (k : Nat) (m : Mem) (a : Nat) : loadBytes m a k < 256 ^ k := by
  induction k generalizing a with
  | zero => simp [loadBytes]
  | succ k ih =>
    unfold loadBytes
    have h1 := ih (a + 1)
    have h2 : m a % 256 < 256 := Nat.mod_lt _ (by decide)
    rw [Nat.pow_succ]
    omega

theorem loadBytes_storeBytes (k : Nat) (m : Mem) (a n : Nat) :
    loadBytes (storeBytes m a n k) a k = n % 256 ^ k := by
  induction k generalizing m a n with
  | zero => simp [loadBytes, Nat.mod_one]
  | succ k ih =>
    unfold loadBytes storeBytes
    rw [ih, storeBytes_outside k _ (a + 1) (n / 256) a (by omega)]
    simp only [if_true]
    rw [Nat.mod_mod, Nat.pow_succ, Nat.mul_comm (256 ^ k) 256, Nat.mod_mul]

theorem loadPint_storePint (W : Nat) (hW : 0 < W) (m : Mem) (p : Nat) (v : Int)
    (hv : isPint W v) : loadPint W (storePint W m p v) p = v := by
  unfold loadPint storePint
  rw [loadBytes_storeBytes]
  have h : toBits W v % 256 ^ W = toBits W v := Nat.mod_eq_of_lt (toBits_lt W v)
  rw [h]
  exact toPint_toBits W hW v hv

theorem loadPtr_storePtr (W : Nat) (m : Mem) (p : Nat) (v : Nat) (hv : isAddr W v) :
    loadPtr W (storePtr W m p v) p = v := by
  unfold loadPtr storePtr
  rw [loadBytes_storeBytes]
  exact Nat.mod_eq_of_lt hv


/-! ## Offsets and sizes modulo the word size -/

theorem wrapPint_modEq (W : Nat) (x : Int) : wrapPint W x ≡ x [ZMOD (wordMod W : Int)] :=
  wrapPint_emod W x

theorem pintAdd_modEq (W : Nat) (a b c d : Int) (h1 : a ≡ c [ZMOD (wordMod W : Int)])
    (h2 : b ≡ d [ZMOD (wordMod W : Int)]) : pintAdd W a b ≡ c + d [ZMOD (wordMod W : Int)] :=
  (wrapPint_modEq W (a + b)).trans (Int.ModEq.add h1 h2)

theorem pintMul_modEq (W : Nat) (a b c d : Int) (h1 : a ≡ c [ZMOD (wordMod W : Int)])
    (h2 : b ≡ d [ZMOD (wordMod W : Int)]) : pintMul W a b ≡ c * d [ZMOD (wordMod W : Int)] :=
  (wrapPint_modEq W (a * b)).trans (Int.ModEq.mul h1 h2)

theorem ptrAdd_congr (W : Nat) (p : Nat) (x y : Int) (h : x ≡ y [ZMOD (wordMod W : Int)]) :
    ptrAdd W p x = ptrAdd W p y := by
  unfold ptrAdd
  have : (p : Int) + x ≡ (p : Int) + y [ZMOD (wordMod W : Int)] := Int.ModEq.add rfl h
  rw [this]

theorem ptrAdd_exact (W : Nat) (p : Nat) (off : Int) (h0 : 0 ≤ (p : Int) + off)
    (h1 : (p : Int) + off < (wordMod W : Int)) : ((ptrAdd W p off : Nat) : Int) = p + off := by
  unfold ptrAdd
  rw [Int.emod_eq_of_lt h0 h1]
  exact Int.toNat_of_nonneg h0

/-- The offset of element `idx0` of a tail with a sub-field, as the accessors compute it. -/
theorem tail_offset3 (W : Nat) (p : Nat) (b s idx0 f : Int) :
    ptrAdd W p (pintAdd W (pintAdd W (pintAdd W 0 b) (pintMul W s idx0)) f)
      = ptrAdd W p (b + s * idx0 + f) := by
  apply ptrAdd_congr
  have h := pintAdd_modEq W _ _ _ _
    (pintAdd_modEq W _ _ _ _ (pintAdd_modEq W 0 b 0 b rfl rfl) (pintMul_modEq W s idx0 s idx0 rfl rfl))
    (show f ≡ f [ZMOD (wordMod W : Int)] from rfl)
  rw [Int.zero_add] at h
  exact h

/-- The offset of element `idx0` of a tail without sub-field, as the accessors compute it. -/
theorem tail_offset2 (W : Nat) (p : Nat) (b s idx0 : Int) :
    ptrAdd W p (pintAdd W (pintAdd W 0 b) (pintMul W s idx0)) = ptrAdd W p (b + s * idx0) := by
  apply ptrAdd_congr
  have h := pintAdd_modEq W _ _ _ _ (pintAdd_modEq W 0 b 0 b rfl rfl)
    (pintMul_modEq W s idx0 s idx0 rfl rfl)
  rw [Int.zero_add] at h
  exact h

theorem pintAdd_pintMul (W : Nat) (a b c : Int) :
    pintAdd W a (pintMul W b c) = wrapPint W (a + b * c) := by
  unfold pintAdd pintMul
  exact wrapPint_add_right W a (b * c)

theorem isPint_small (W : Nat) (hW : 0 < W) (x : Int) (h0 : -128 ≤ x) (h1 : x < 128) :
    isPint W x := by
  have h := wordMod_ge W hW
  have h2 := wordMod_half W hW
  unfold isPint
  omega

/-! ## Marshaling lemmas -/

theorem ofBytes_bytesOf (k v : Nat) : ofBytes (bytesOf v k) = v % 256 ^ k := by
  induction k generalizing v with
  | zero => simp [bytesOf, ofBytes, Nat.mod_one]
  | succ k ih =>
    unfold bytesOf ofBytes
    rw [ih, Nat.pow_succ, Nat.mul_comm (256 ^ k) 256, Nat.mod_mul]

theorem Int32Value_of_byte (b : Nat) (hb : b < 256) : Int32Value (b : Int) = (b : Int) := by
  unfold Int32Value
  omega

theorem valToArray_getElem (size val i : Nat) (hi : i < size) :
    (valToArray size val)[i]? = some ((val / 256 ^ i % 256 : Nat) : Int) := by
  unfold valToArray
  rw [List.getElem?_map, List.getElem?_range hi]
  rfl

theorem arrayToValLoop_valToArray (size val : Nat) (k i : Nat) (h : i + k ≤ size) :
    arrayToValLoop (valToArray size val) k i = .ok (bytesOf (val / 256 ^ i) k) := by
  induction k generalizing i with
  | zero => rfl
  | succ k ih =>
    have hb : val / 256 ^ i % 256 < 256 := Nat.mod_lt _ (by decide)
    unfold arrayToValLoop
    rw [valToArray_getElem size val i (by omega)]
    simp only [Int32Value_of_byte _ hb]
    rw [if_neg (by omega), ih (i + 1) (by omega)]
    simp only [bytesOf, Int.toNat_ofNat, Nat.pow_succ, Nat.div_div_eq_div_mul]

theorem arrayToValLoop_short (jsObj : List Int) (k i : Nat) (h1 : i ≤ jsObj.length)
    (h2 : jsObj.length < i + k) : ∃ e, arrayToValLoop jsObj k i = .error e := by
  induction k generalizing i with
  | zero => omega
  | succ k ih =>
    unfold arrayToValLoop
    cases hget : jsObj[i]? with
    | none => exact ⟨_, rfl⟩
    | some jsVal =>
      have hi : i < jsObj.length := by
        rcases List.getElem?_eq_some_iff.mp hget with ⟨h, _⟩
        exact h
      simp only []
      split
      · exact ⟨_, rfl⟩
      · obtain ⟨e, he⟩ := ih (i + 1) (by omega) (by omega)
        rw [he]
        exact ⟨_, rfl⟩

/-- Every array with fewer than `size` elements is rejected. -/
theorem arrayToVal_short (size : Nat) (arrayVal : List Int) (h : arrayVal.length < size) :
    ∃ e, arrayToVal size arrayVal = .error e := by
  obtain ⟨e, he⟩ := arrayToValLoop_short arrayVal size 0 (by omega) (by omega)
  unfold arrayToVal
  rw [he]
  exact ⟨_, rfl⟩

theorem ofBytes_lt (bytes : List Nat) (h : ∀ b ∈ bytes, b < 256) :
    ofBytes bytes < 256 ^ bytes.length := by
  induction bytes with
  | nil => simp [ofBytes]
  | cons b bs ih =>
    have hb : b < 256 := h b (List.mem_cons_self b bs)
    have hbs := ih (fun x hx => h x (List.mem_cons_of_mem b hx))
    simp only [ofBytes, List.length_cons, Nat.pow_succ]
    omega

theorem ofBytes_byte (bytes : List Nat) (h : ∀ b ∈ bytes, b < 256) (j b : Nat)
    (hj : bytes[j]? = some b) : ofBytes bytes / 256 ^ j % 256 = b := by
  induction bytes generalizing j with
  | nil => simp at hj
  | cons c cs ih =>
    have hc : c < 256 := h c (List.mem_cons_self c cs)
    cases j with
    | zero =>
      simp only [List.getElem?_cons_zero, Option.some.injEq] at hj
      simp only [ofBytes, Nat.pow_zero, Nat.div_one]
      omega
    | succ j =>
      simp only [List.getElem?_cons_succ] at hj
      have hrec := ih (fun x hx => h x (List.mem_cons_of_mem c hx)) j hj
      have hdiv : (c + 256 * ofBytes cs) / 256 = ofBytes cs := by omega
      simp only [ofBytes, Nat.pow_succ]
      rw [Nat.mul_comm (256 ^ j) 256, ← Nat.div_div_eq_div_mul, hdiv]
      exact hrec

theorem arrayToValLoop_rejects (jsObj : List Int) (k i j : Nat) (e : Int) (hij : i ≤ j)
    (hjk : j < i + k) (hget : jsObj[j]? = some e)
    (hout : Int32Value e < 0 ∨ Int32Value e > 255) :
    ∃ err, arrayToValLoop jsObj k i = .error err := by
  induction k generalizing i with
  | zero => omega
  | succ k ih =>
    unfold arrayToValLoop
    cases hi : jsObj[i]? with
    | none => exact ⟨_, rfl⟩
    | some x =>
      simp only []
      by_cases hx : Int32Value x < 0 ∨ Int32Value x > 255
      · rw [if_pos hx]
        exact ⟨_, rfl⟩
      · rw [if_neg hx]
        have hne : i ≠ j := by
          intro heq
          subst heq
          rw [hget] at hi
          cases hi
          exact hx hout
        obtain ⟨err, herr⟩ := ih (i + 1) (by omega) (by omega)
        rw [herr]
        exact ⟨_, rfl⟩

theorem arrayToValLoop_accepts (jsObj : List Int) (k i : Nat)
    (h : ∀ j, i ≤ j → j < i + k →
      ∃ e, jsObj[j]? = some e ∧ 0 ≤ Int32Value e ∧ Int32Value e ≤ 255) :
    ∃ bytes, arrayToValLoop jsObj k i = .ok bytes ∧ bytes.length = k ∧
      (∀ b ∈ bytes, b < 256) ∧
      ∀ j, j < k → ∃ e, jsObj[i + j]? = some e ∧ bytes[j]? = some (Int32Value e).toNat := by
  induction k generalizing i with
  | zero => exact ⟨[], rfl, rfl, by simp, fun j hj => by omega⟩
  | succ k ih =>
    obtain ⟨e, hget, h0, h255⟩ := h i (by omega) (by omega)
    obtain ⟨bytes, hrun, hlen, hlt, hbytes⟩ :=
      ih (i + 1) (fun j h1 h2 => h j (by omega) (by omega))
    refine ⟨(Int32Value e).toNat :: bytes, ?_, by simp [hlen], ?_, ?_⟩
    · unfold arrayToValLoop
      rw [hget]
      simp only []
      rw [if_neg (by omega), hrun]
    · intro b hb
      rcases List.mem_cons.mp hb with hb | hb
      · rw [hb]
        omega
      · exact hlt b hb
    · intro j hj
      cases j with
      | zero => exact ⟨e, by simpa using hget, by simp⟩
      | succ j =>
        obtain ⟨x, hx1, hx2⟩ := hbytes j (by omega)
        refine ⟨x, ?_, by simpa using hx2⟩
        rw [← hx1]
        congr 1
        omega

/-- An array holding an element whose 32-bit conversion is outside `0..255` at an
index below `size` is rejected. -/
theorem arrayToVal_rejects (size : Nat) (arrayVal : List Int) (j : Nat) (e : Int)
    (hj : j < size) (hget : arrayVal[j]? = some e)
    (hout : Int32Value e < 0 ∨ Int32Value e > 255) :
    ∃ err, arrayToVal size arrayVal = .error err := by
  obtain ⟨err, herr⟩ := arrayToValLoop_rejects arrayVal size 0 j e (by omega) (by omega) hget hout
  unfold arrayToVal
  rw [herr]
  exact ⟨_, rfl⟩

/-- An array whose elements at the indices below `size` all convert to `0..255`
is decoded to the value whose `j`-th in-memory byte is the conversion of
element `j`. -/
theorem arrayToVal_accepts (size : Nat) (arrayVal : List Int)
    (h : ∀ j, j < size →
      ∃ e, arrayVal[j]? = some e ∧ 0 ≤ Int32Value e ∧ Int32Value e ≤ 255) :
    ∃ val, arrayToVal size arrayVal = .ok val ∧ val < 256 ^ size ∧
      ∀ j, j < size →
        ∃ e, arrayVal[j]? = some e ∧ val / 256 ^ j % 256 = (Int32Value e).toNat := by
  obtain ⟨bytes, hrun, hlen, hlt, hbytes⟩ :=
    arrayToValLoop_accepts arrayVal size 0 (fun j _ h2 => h j (by omega))
  refine ⟨ofBytes bytes, ?_, ?_, ?_⟩
  · unfold arrayToVal
    rw [hrun]
  · rw [← hlen]
    exact ofBytes_lt bytes hlt
  · intro j hj
    obtain ⟨e, he1, he2⟩ := hbytes j hj
    refine ⟨e, by simpa using he1, ofBytes_byte bytes hlt j _ he2⟩

/-! ## The tagged value codec -/

/-- C1: for every address `a` that is a multiple of 8 and every tag `t` with
`0 ≤ t ≤ 7`, `unboxRef(boxRef(a, t))` equals `a`. -/
theorem unboxRef_boxRef (W : Nat) (a : Nat) (t : Int) (hW : 0 < W) (ha : isAddr W a)
    (hal : a % 8 = 0) (ht0 : 0 ≤ t) (ht7 : t ≤ 7) :
    unboxRef W (boxRef W a t) = a := by
  rw [unboxRef_eq W hW, toBits_boxRef W hW a t ha hal ht0 ht7]
  omega

theorem unboxRef_boxRef_witness :
    (0 < 4 ∧ isAddr 4 4096 ∧ 4096 % 8 = 0 ∧ (0 : Int) ≤ 5 ∧ (5 : Int) ≤ 7) ∧
      unboxRef 4 (boxRef 4 4096 5) = 4096 :=
  ⟨by decide, unboxRef_boxRef 4 4096 5 (by decide) (by decide) (by decide) (by decide)
    (by decide)⟩

/-- C2: for every address `a` that is a multiple of 8 and every tag `t` with
`0 ≤ t ≤ 7`, `getRefTag(boxRef(a, t))` equals `t`. -/
theorem getRefTag_boxRef (W : Nat) (a : Nat) (t : Int) (hW : 0 < W) (ha : isAddr W a)
    (hal : a % 8 = 0) (ht0 : 0 ≤ t) (ht7 : t ≤ 7) :
    getRefTag W (boxRef W a t) = t := by
  rw [getRefTag_eq W hW, toBits_boxRef W hW a t ha hal ht0 ht7]
  omega

theorem getRefTag_boxRef_witness :
    (0 < 8 ∧ isAddr 8 4294967304 ∧ 4294967304 % 8 = 0 ∧ (0 : Int) ≤ 7 ∧ (7 : Int) ≤ 7) ∧
      getRefTag 8 (boxRef 8 4294967304 7) = 7 :=
  ⟨by decide, getRefTag_boxRef 8 4294967304 7 (by decide) (by decide) (by decide) (by decide)
    (by decide)⟩

/-! ## Object layouts -/

/-- C3: for every object kind and every fixed header field of that kind, reading
the field with its getter in the heap produced by its setter returns the value
written, for every box `obj`, every heap `m`, every word-sized integer `v` (the
`pint` and `box` fields) and every word-sized pointer `p` (the `rptr` fields). -/
theorem fixed_field_get_set (W : Nat) (m : Mem) (obj v : Int) (p : Nat) (hW : 0 < W)
    (hv : isPint W v) (hp : isAddr W p) :
    get_hashtbl_size W (set_hashtbl_size W m obj v) obj = v ∧
    get_obj_proto W (set_obj_proto W m obj v) obj = v ∧
    get_obj_tbl W (set_obj_tbl W m obj v) obj = v ∧
    get_arrtbl_size W (set_arrtbl_size W m obj v) obj = v ∧
    get_arr_proto W (set_arr_proto W m obj v) obj = v ∧
    get_arr_tbl W (set_arr_tbl W m obj v) obj = v ∧
    get_arr_arr W (set_arr_arr W m obj v) obj = v ∧
    get_str_size W (set_str_size W m obj v) obj = v ∧
    get_strtbl_size W (set_strtbl_size W m obj v) obj = v ∧
    get_clos_proto W (set_clos_proto W m obj v) obj = v ∧
    get_clos_tbl W (set_clos_tbl W m obj v) obj = v ∧
    get_clos_funcptr W (set_clos_funcptr W m obj p) obj = p ∧
    get_clos_size W (set_clos_size W m obj v) obj = v ∧
    get_cell_val W (set_cell_val W m obj v) obj = v ∧
    get_memblock_ptr W (set_memblock_ptr W m obj p) obj = p := by
  refine ⟨?_, ?_, ?_, ?_, ?_, ?_, ?_, ?_, ?_, ?_, ?_, ?_, ?_, ?_, ?_⟩
  · exact loadPint_storePint W hW _ _ v hv
  · exact loadPint_storePint W hW _ _ v hv
  · exact loadPint_storePint W hW _ _ v hv
  · exact loadPint_storePint W hW _ _ v hv
  · exact loadPint_storePint W hW _ _ v hv
  · exact loadPint_storePint W hW _ _ v hv
  · exact loadPint_storePint W hW _ _ v hv
  · exact loadPint_storePint W hW _ _ v hv
  · exact loadPint_storePint W hW _ _ v hv
  · exact loadPint_storePint W hW _ _ v hv
  · exact loadPint_storePint W hW _ _ v hv
  · exact loadPtr_storePtr W _ _ p hp
  · exact loadPint_storePint W hW _ _ v hv
  · exact loadPint_storePint W hW _ _ v hv
  · exact loadPtr_storePtr W _ _ p hp

theorem fixed_field_get_set_witness :
    (0 < 4 ∧ isPint 4 (-5) ∧ isAddr 4 4096) ∧
    get_hashtbl_size 4 (set_hashtbl_size 4 zeroHeap 19 (-5)) 19 = -5 ∧
    get_obj_proto 4 (set_obj_proto 4 zeroHeap 19 (-5)) 19 = -5 ∧
    get_obj_tbl 4 (set_obj_tbl 4 zeroHeap 19 (-5)) 19 = -5 ∧
    get_arrtbl_size 4 (set_arrtbl_size 4 zeroHeap 19 (-5)) 19 = -5 ∧
    get_arr_proto 4 (set_arr_proto 4 zeroHeap 19 (-5)) 19 = -5 ∧
    get_arr_tbl 4 (set_arr_tbl 4 zeroHeap 19 (-5)) 19 = -5 ∧
    get_arr_arr 4 (set_arr_arr 4 zeroHeap 19 (-5)) 19 = -5 ∧
    get_str_size 4 (set_str_size 4 zeroHeap 19 (-5)) 19 = -5 ∧
    get_strtbl_size 4 (set_strtbl_size 4 zeroHeap 19 (-5)) 19 = -5 ∧
    get_clos_proto 4 (set_clos_proto 4 zeroHeap 19 (-5)) 19 = -5 ∧
    get_clos_tbl 4 (set_clos_tbl 4 zeroHeap 19 (-5)) 19 = -5 ∧
    get_clos_funcptr 4 (set_clos_funcptr 4 zeroHeap 19 4096) 19 = 4096 ∧
    get_clos_size 4 (set_clos_size 4 zeroHeap 19 (-5)) 19 = -5 ∧
    get_cell_val 4 (set_cell_val 4 zeroHeap 19 (-5)) 19 = -5 ∧
    get_memblock_ptr 4 (set_memblock_ptr 4 zeroHeap 19 4096) 19 = 4096 :=
  ⟨by decide, fixed_field_get_set 4 zeroHeap 19 (-5) 4096 (by decide) (by decide)
    (by decide)⟩

/-- C4: for every variable-tail accessor pair (hashtbl `tbl_key`, hashtbl
`tbl_val`, arrtbl `tbl`, strtbl `tbl`, clos `cells`), every box `obj`, every index
`i` with `0 ≤ i < ` stored count of `obj`, and every box `v`, reading element `i`
with the getter in the heap produced by the setter returns `v`. -/
theorem tail_get_set (W : Nat) (m : Mem) (obj i v : Int) (hW : 0 < W) (hv : isPint W v) :
    (0 ≤ i → i < get_hashtbl_size W m obj →
      get_hashtbl_tbl_key W (set_hashtbl_tbl_key W m obj i v) obj i = v) ∧
    (0 ≤ i → i < get_hashtbl_size W m obj →
      get_hashtbl_tbl_val W (set_hashtbl_tbl_val W m obj i v) obj i = v) ∧
    (0 ≤ i → i < get_arrtbl_size W m obj →
      get_arrtbl_tbl W (set_arrtbl_tbl W m obj i v) obj i = v) ∧
    (0 ≤ i → i < get_strtbl_size W m obj →
      get_strtbl_tbl W (set_strtbl_tbl W m obj i v) obj i = v) ∧
    (0 ≤ i → i < get_clos_size W m obj →
      get_clos_cells W (set_clos_cells W m obj i v) obj i = v) := by
  refine ⟨?_, ?_, ?_, ?_, ?_⟩ <;> intro _ _ <;> exact loadPint_storePint W hW _ _ v hv

theorem tail_get_set_witness :
    (0 < 4 ∧ isPint 4 (-5) ∧ (0 : Int) ≤ 2 ∧
      2 < get_hashtbl_size 4 onesHeap 19 ∧ 2 < get_arrtbl_size 4 onesHeap 19 ∧
      2 < get_strtbl_size 4 onesHeap 19 ∧ 2 < get_clos_size 4 onesHeap 19) ∧
    get_hashtbl_tbl_key 4 (set_hashtbl_tbl_key 4 onesHeap 19 2 (-5)) 19 2 = -5 ∧
    get_hashtbl_tbl_val 4 (set_hashtbl_tbl_val 4 onesHeap 19 2 (-5)) 19 2 = -5 ∧
    get_arrtbl_tbl 4 (set_arrtbl_tbl 4 onesHeap 19 2 (-5)) 19 2 = -5 ∧
    get_strtbl_tbl 4 (set_strtbl_tbl 4 onesHeap 19 2 (-5)) 19 2 = -5 ∧
    get_clos_cells 4 (set_clos_cells 4 onesHeap 19 2 (-5)) 19 2 = -5 :=
  have h := tail_get_set 4 onesHeap 19 2 (-5) (by decide) (by decide)
  ⟨by decide, h.1 (by decide) (by decide), h.2.1 (by decide) (by decide),
    h.2.2.1 (by decide) (by decide), h.2.2.2.1 (by decide) (by decide),
    h.2.2.2.2 (by decide) (by decide)⟩

/-- C5: for every variable-size kind and every box `obj` whose count field holds
`n` (as written by the kind's `set_<kind>_size`), `sizeof_<kind>(obj)` is
`baseSize + elementStride * n` reduced to the native word, with
`(baseSize, elementStride)` = (8, 8) for hashtbl, (8, 4) for arrtbl, (12, 2) for
str, (12, 4) for strtbl and (24, 4) for clos; it is exactly that sum whenever the
sum fits the native word, and it is `baseSize` when `n = 0`. -/
theorem sizeof_variable_formula (W : Nat) (m : Mem) (obj n : Int) (hW : 0 < W)
    (hn : isPint W n) :
    (sizeof_hashtbl W (set_hashtbl_size W m obj n) obj = wrapPint W (8 + 8 * n) ∧
    sizeof_arrtbl W (set_arrtbl_size W m obj n) obj = wrapPint W (8 + 4 * n) ∧
    sizeof_str W (set_str_size W m obj n) obj = wrapPint W (12 + 2 * n) ∧
    sizeof_strtbl W (set_strtbl_size W m obj n) obj = wrapPint W (12 + 4 * n) ∧
    sizeof_clos W (set_clos_size W m obj n) obj = wrapPint W (24 + 4 * n)) ∧
    ((isPint W (8 + 8 * n) → sizeof_hashtbl W (set_hashtbl_size W m obj n) obj = 8 + 8 * n) ∧
    (isPint W (8 + 4 * n) → sizeof_arrtbl W (set_arrtbl_size W m obj n) obj = 8 + 4 * n) ∧
    (isPint W (12 + 2 * n) → sizeof_str W (set_str_size W m obj n) obj = 12 + 2 * n) ∧
    (isPint W (12 + 4 * n) → sizeof_strtbl W (set_strtbl_size W m obj n) obj = 12 + 4 * n) ∧
    (isPint W (24 + 4 * n) → sizeof_clos W (set_clos_size W m obj n) obj = 24 + 4 * n)) ∧
    (sizeof_hashtbl W (set_hashtbl_size W m obj 0) obj = 8 ∧
    sizeof_arrtbl W (set_arrtbl_size W m obj 0) obj = 8 ∧
    sizeof_str W (set_str_size W m obj 0) obj = 12 ∧
    sizeof_strtbl W (set_strtbl_size W m obj 0) obj = 12 ∧
    sizeof_clos W (set_clos_size W m obj 0) obj = 24) := by
  have h0 : isPint W 0 := isPint_small W hW 0 (by omega) (by omega)
  have e1 : ∀ x : Int, isPint W x → get_hashtbl_size W (set_hashtbl_size W m obj x) obj = x :=
    fun x hx => loadPint_storePint W hW _ _ x hx
  have e2 : ∀ x : Int, isPint W x → get_arrtbl_size W (set_arrtbl_size W m obj x) obj = x :=
    fun x hx => loadPint_storePint W hW _ _ x hx
  have e3 : ∀ x : Int, isPint W x → get_str_size W (set_str_size W m obj x) obj = x :=
    fun x hx => loadPint_storePint W hW _ _ x hx
  have e4 : ∀ x : Int, isPint W x → get_strtbl_size W (set_strtbl_size W m obj x) obj = x :=
    fun x hx => loadPint_storePint W hW _ _ x hx
  have e5 : ∀ x : Int, isPint W x → get_clos_size W (set_clos_size W m obj x) obj = x :=
    fun x hx => loadPint_storePint W hW _ _ x hx
  have s1 : ∀ x : Int, isPint W x →
      sizeof_hashtbl W (set_hashtbl_size W m obj x) obj = wrapPint W (8 + 8 * x) := by
    intro x hx
    unfold sizeof_hashtbl comp_size_hashtbl
    simp only [e1 x hx, pintAdd_pintMul]
  have s2 : ∀ x : Int, isPint W x →
      sizeof_arrtbl W (set_arrtbl_size W m obj x) obj = wrapPint W (8 + 4 * x) := by
    intro x hx
    unfold sizeof_arrtbl comp_size_arrtbl
    simp only [e2 x hx, pintAdd_pintMul]
  have s3 : ∀ x : Int, isPint W x →
      sizeof_str W (set_str_size W m obj x) obj = wrapPint W (12 + 2 * x) := by
    intro x hx
    unfold sizeof_str comp_size_str
    simp only [e3 x hx, pintAdd_pintMul]
  have s4 : ∀ x : Int, isPint W x →
      sizeof_strtbl W (set_strtbl_size W m obj x) obj = wrapPint W (12 + 4 * x) := by
    intro x hx
    unfold sizeof_strtbl comp_size_strtbl
    simp only [e4 x hx, pintAdd_pintMul]
  have s5 : ∀ x : Int, isPint W x →
      sizeof_clos W (set_clos_size W m obj x) obj = wrapPint W (24 + 4 * x) := by
    intro x hx
    unfold sizeof_clos comp_size_clos
    simp only [e5 x hx, pintAdd_pintMul]
  refine ⟨⟨s1 n hn, s2 n hn, s3 n hn, s4 n hn, s5 n hn⟩, ⟨?_, ?_, ?_, ?_, ?_⟩,
    ⟨?_, ?_, ?_, ?_, ?_⟩⟩
  · intro h; rw [s1 n hn]; exact wrapPint_of_isPint W hW _ h
  · intro h; rw [s2 n hn]; exact wrapPint_of_isPint W hW _ h
  · intro h; rw [s3 n hn]; exact wrapPint_of_isPint W hW _ h
  · intro h; rw [s4 n hn]; exact wrapPint_of_isPint W hW _ h
  · intro h; rw [s5 n hn]; exact wrapPint_of_isPint W hW _ h
  · rw [s1 0 h0]; exact wrapPint_of_isPint W hW _ (isPint_small W hW _ (by omega) (by omega))
  · rw [s2 0 h0]; exact wrapPint_of_isPint W hW _ (isPint_small W hW _ (by omega) (by omega))
  · rw [s3 0 h0]; exact wrapPint_of_isPint W hW _ (isPint_small W hW _ (by omega) (by omega))
  · rw [s4 0 h0]; exact wrapPint_of_isPint W hW _ (isPint_small W hW _ (by omega) (by omega))
  · rw [s5 0 h0]; exact wrapPint_of_isPint W hW _ (isPint_small W hW _ (by omega) (by omega))

theorem sizeof_variable_formula_witness :
    (0 < 4 ∧ isPint 4 1000 ∧ isPint 4 (8 + 8 * 1000) ∧ isPint 4 (8 + 4 * 1000) ∧ isPint 4 (12 + 2 * 1000) ∧ isPint 4 (12 + 4 * 1000) ∧ isPint 4 (24 + 4 * 1000)) ∧
    (sizeof_hashtbl 4 (set_hashtbl_size 4 zeroHeap 19 1000) 19 = wrapPint 4 (8 + 8 * 1000) ∧
    sizeof_arrtbl 4 (set_arrtbl_size 4 zeroHeap 19 1000) 19 = wrapPint 4 (8 + 4 * 1000) ∧
    sizeof_str 4 (set_str_size 4 zeroHeap 19 1000) 19 = wrapPint 4 (12 + 2 * 1000) ∧
    sizeof_strtbl 4 (set_strtbl_size 4 zeroHeap 19 1000) 19 = wrapPint 4 (12 + 4 * 1000) ∧
    sizeof_clos 4 (set_clos_size 4 zeroHeap 19 1000) 19 = wrapPint 4 (24 + 4 * 1000)) ∧
    (sizeof_hashtbl 4 (set_hashtbl_size 4 zeroHeap 19 1000) 19 = 8 + 8 * 1000 ∧
    sizeof_arrtbl 4 (set_arrtbl_size 4 zeroHeap 19 1000) 19 = 8 + 4 * 1000 ∧
    sizeof_str 4 (set_str_size 4 zeroHeap 19 1000) 19 = 12 + 2 * 1000 ∧
    sizeof_strtbl 4 (set_strtbl_size 4 zeroHeap 19 1000) 19 = 12 + 4 * 1000 ∧
    sizeof_clos 4 (set_clos_size 4 zeroHeap 19 1000) 19 = 24 + 4 * 1000) ∧
    (sizeof_hashtbl 4 (set_hashtbl_size 4 zeroHeap 19 0) 19 = 8 ∧
    sizeof_arrtbl 4 (set_arrtbl_size 4 zeroHeap 19 0) 19 = 8 ∧
    sizeof_str 4 (set_str_size 4 zeroHeap 19 0) 19 = 12 ∧
    sizeof_strtbl 4 (set_strtbl_size 4 zeroHeap 19 0) 19 = 12 ∧
    sizeof_clos 4 (set_clos_size 4 zeroHeap 19 0) 19 = 24) :=
  have h := sizeof_variable_formula 4 zeroHeap 19 1000 (by decide) (by decide)
  ⟨by decide, h.1, ⟨h.2.1.1 (by decide), h.2.1.2.1 (by decide), h.2.1.2.2.1 (by decide),
    h.2.1.2.2.2.1 (by decide), h.2.1.2.2.2.2 (by decide)⟩, h.2.2⟩

/-- C6: for the kinds without a variable tail the size is base size + element
size * 1 and depends neither on the object nor on the heap: `sizeof_obj(obj)` is
16, `sizeof_arr(obj)` is 24, `sizeof_cell(obj)` is 8 and `sizeof_memblock(obj)` is
12, for every box `obj` and every heap (the functions do not read the heap). -/
theorem sizeof_fixed_kinds (W : Nat) (_m : Mem) (obj : Int) (hW : 0 < W) :
    sizeof_obj W obj = 12 + 4 * 1 ∧ sizeof_arr W obj = 20 + 4 * 1 ∧
    sizeof_cell W obj = 4 + 4 * 1 ∧ sizeof_memblock W obj = 8 + 4 * 1 ∧
    sizeof_obj W obj = 16 ∧ sizeof_arr W obj = 24 ∧
    sizeof_cell W obj = 8 ∧ sizeof_memblock W obj = 12 := by
  have a1 : sizeof_obj W obj = 16 := by
    unfold sizeof_obj comp_size_obj
    simp only [pintAdd_pintMul]
    exact wrapPint_of_isPint W hW _ (isPint_small W hW _ (by omega) (by omega))
  have a2 : sizeof_arr W obj = 24 := by
    unfold sizeof_arr comp_size_arr
    simp only [pintAdd_pintMul]
    exact wrapPint_of_isPint W hW _ (isPint_small W hW _ (by omega) (by omega))
  have a3 : sizeof_cell W obj = 8 := by
    unfold sizeof_cell comp_size_cell
    simp only [pintAdd_pintMul]
    exact wrapPint_of_isPint W hW _ (isPint_small W hW _ (by omega) (by omega))
  have a4 : sizeof_memblock W obj = 12 := by
    unfold sizeof_memblock comp_size_memblock
    simp only [pintAdd_pintMul]
    exact wrapPint_of_isPint W hW _ (isPint_small W hW _ (by omega) (by omega))
  exact ⟨a1, a2, a3, a4, a1, a2, a3, a4⟩

theorem sizeof_fixed_kinds_witness :
    0 < 4 ∧ sizeof_obj 4 19 = 16 ∧ sizeof_arr 4 19 = 24 ∧ sizeof_cell 4 19 = 8 ∧
      sizeof_memblock 4 19 = 12 :=
  have h := sizeof_fixed_kinds 4 zeroHeap 19 (by decide)
  ⟨by decide, h.2.2.2.2⟩

/-- C7: every tail accessor reads or writes exactly the word at byte address
`unboxRef(obj) + tailBaseOffset + elementStride * i + subFieldOffset`, for every
box `obj` and index `i`: hashtbl key at `unboxRef(obj)+8+8*i`, hashtbl value at
`unboxRef(obj)+8+8*i+4`, arrtbl element at `unboxRef(obj)+8+4*i`, strtbl element
at `unboxRef(obj)+12+4*i`, clos cell at `unboxRef(obj)+24+4*i`.  The sum is
pointer arithmetic (`ptrAdd`); it is the plain integer sum whenever that lies in
the address space. -/
theorem tail_accessor_address (W : Nat) (m : Mem) (obj i v : Int) :
    (get_hashtbl_tbl_key W m obj i = loadPint W m (ptrAdd W (unboxRef W obj) (8 + 8 * i + 0)) ∧
    set_hashtbl_tbl_key W m obj i v = storePint W m (ptrAdd W (unboxRef W obj) (8 + 8 * i + 0)) v ∧
    get_hashtbl_tbl_val W m obj i = loadPint W m (ptrAdd W (unboxRef W obj) (8 + 8 * i + 4)) ∧
    set_hashtbl_tbl_val W m obj i v = storePint W m (ptrAdd W (unboxRef W obj) (8 + 8 * i + 4)) v ∧
    get_arrtbl_tbl W m obj i = loadPint W m (ptrAdd W (unboxRef W obj) (8 + 4 * i)) ∧
    set_arrtbl_tbl W m obj i v = storePint W m (ptrAdd W (unboxRef W obj) (8 + 4 * i)) v ∧
    get_strtbl_tbl W m obj i = loadPint W m (ptrAdd W (unboxRef W obj) (12 + 4 * i)) ∧
    set_strtbl_tbl W m obj i v = storePint W m (ptrAdd W (unboxRef W obj) (12 + 4 * i)) v ∧
    get_clos_cells W m obj i = loadPint W m (ptrAdd W (unboxRef W obj) (24 + 4 * i)) ∧
    set_clos_cells W m obj i v = storePint W m (ptrAdd W (unboxRef W obj) (24 + 4 * i)) v) ∧
    (∀ off : Int, 0 ≤ (unboxRef W obj : Int) + off →
      (unboxRef W obj : Int) + off < (wordMod W : Int) →
      ((ptrAdd W (unboxRef W obj) off : Nat) : Int) = (unboxRef W obj : Int) + off) := by
  refine ⟨⟨?_, ?_, ?_, ?_, ?_, ?_, ?_, ?_, ?_, ?_⟩, fun off h0 h1 => ptrAdd_exact W _ off h0 h1⟩
  · unfold get_hashtbl_tbl_key; simp only [tail_offset3]
  · unfold set_hashtbl_tbl_key; simp only [tail_offset3]
  · unfold get_hashtbl_tbl_val; simp only [tail_offset3]
  · unfold set_hashtbl_tbl_val; simp only [tail_offset3]
  · unfold get_arrtbl_tbl; simp only [tail_offset2]
  · unfold set_arrtbl_tbl; simp only [tail_offset2]
  · unfold get_strtbl_tbl; simp only [tail_offset2]
  · unfold set_strtbl_tbl; simp only [tail_offset2]
  · unfold get_clos_cells; simp only [tail_offset2]
  · unfold set_clos_cells; simp only [tail_offset2]

theorem tail_accessor_address_witness :
    ((0 : Int) ≤ (unboxRef 4 19 : Int) + (8 + 8 * 2 + 4) ∧
      (unboxRef 4 19 : Int) + (8 + 8 * 2 + 4) < (wordMod 4 : Int)) ∧
    (get_hashtbl_tbl_key 4 zeroHeap 19 2 = loadPint 4 zeroHeap (ptrAdd 4 (unboxRef 4 19) (8 + 8 * 2 + 0)) ∧
    set_hashtbl_tbl_key 4 zeroHeap 19 2 7 = storePint 4 zeroHeap (ptrAdd 4 (unboxRef 4 19) (8 + 8 * 2 + 0)) 7 ∧
    get_hashtbl_tbl_val 4 zeroHeap 19 2 = loadPint 4 zeroHeap (ptrAdd 4 (unboxRef 4 19) (8 + 8 * 2 + 4)) ∧
    set_hashtbl_tbl_val 4 zeroHeap 19 2 7 = storePint 4 zeroHeap (ptrAdd 4 (unboxRef 4 19) (8 + 8 * 2 + 4)) 7 ∧
    get_arrtbl_tbl 4 zeroHeap 19 2 = loadPint 4 zeroHeap (ptrAdd 4 (unboxRef 4 19) (8 + 4 * 2)) ∧
    set_arrtbl_tbl 4 zeroHeap 19 2 7 = storePint 4 zeroHeap (ptrAdd 4 (unboxRef 4 19) (8 + 4 * 2)) 7 ∧
    get_strtbl_tbl 4 zeroHeap 19 2 = loadPint 4 zeroHeap (ptrAdd 4 (unboxRef 4 19) (12 + 4 * 2)) ∧
    set_strtbl_tbl 4 zeroHeap 19 2 7 = storePint 4 zeroHeap (ptrAdd 4 (unboxRef 4 19) (12 + 4 * 2)) 7 ∧
    get_clos_cells 4 zeroHeap 19 2 = loadPint 4 zeroHeap (ptrAdd 4 (unboxRef 4 19) (24 + 4 * 2)) ∧
    set_clos_cells 4 zeroHeap 19 2 7 = storePint 4 zeroHeap (ptrAdd 4 (unboxRef 4 19) (24 + 4 * 2)) 7) ∧
    ((ptrAdd 4 (unboxRef 4 19) (8 + 8 * 2 + 4) : Nat) : Int)
      = (unboxRef 4 19 : Int) + (8 + 8 * 2 + 4) :=
  have h := tail_accessor_address 4 zeroHeap 19 2 7
  ⟨by decide, h.1, h.2 (8 + 8 * 2 + 4) (by decide) (by decide)⟩

/-! ## Marshaling -/

/-- C8: for every native address `p`, `arrayToVal` applied to the byte sequence
produced by `valToArray(p)` succeeds and returns `p`. -/
theorem arrayToVal_valToArray (W : Nat) (p : Nat) (hp : isAddr W p) :
    arrayToVal W (valToArray W p) = .ok p := by
  unfold arrayToVal
  rw [arrayToValLoop_valToArray W p W 0 (by omega)]
  simp only [Nat.pow_zero, Nat.div_one, ofBytes_bytesOf]
  have hp2 : p < 256 ^ W := hp
  rw [Nat.mod_eq_of_lt hp2]

theorem arrayToVal_valToArray_witness :
    isAddr 4 3735928559 ∧ arrayToVal 4 (valToArray 4 3735928559) = .ok 3735928559 :=
  ⟨by decide, arrayToVal_valToArray 4 3735928559 (by decide)⟩

/-- C9 (what the code does): a five-element array is decoded as a four-byte value
without any diagnostic; the fifth element is ignored. -/
theorem arrayToVal_accepts_longer_array :
    arrayToVal 4 [1, 2, 3, 4, 5] = .ok 67305985 := by
  rfl

/-- C10 (what the code does): the element `4294967301 = 2 ^ 32 + 5`, which is
greater than 255, passes the byte-range test because `Int32Value` has already
reduced it to 5; it is stored as the byte 5. -/
theorem arrayToVal_truncates_large_element :
    arrayToVal 4 [4294967301, 0, 0, 0] = .ok 5 := by
  rfl

/-! ## Lemmas on the host functions and the bridge -/

theorem wordMod_four : wordMod 4 = 4294967296 := by decide

theorem Int32Value_of_isInt32 (a : Int) (h : isInt32 a) : Int32Value a = a := by
  unfold isInt32 isPint at h
  rw [wordMod_four] at h
  unfold Int32Value
  omega

theorem valToArray_zero (W : Nat) : valToArray W 0 = List.replicate W 0 := by
  unfold valToArray
  apply List.ext_getElem?
  intro i
  by_cases hi : i < W
  · rw [List.getElem?_map, List.getElem?_range hi, List.getElem?_replicate]
    simp [hi]
  · rw [List.getElem?_map, List.getElem?_replicate]
    simp [hi]
    omega

theorem decode_encode_mod (size val : Nat) :
    arrayToVal size (valToArray size val) = .ok (val % 256 ^ size) := by
  unfold arrayToVal
  rw [arrayToValLoop_valToArray size val size 0 (by omega)]
  simp only [Nat.pow_zero, Nat.div_one, ofBytes_bytesOf]

theorem decode_encode_addr (W p : Nat) (hp : isAddr W p) :
    arrayToVal W (valToArray W p) = .ok p := by
  rw [decode_encode_mod]
  have hp2 : p < 256 ^ W := hp
  rw [Nat.mod_eq_of_lt hp2]

theorem arrayToVal_zeros (W : Nat) : arrayToVal W (List.replicate W 0) = .ok 0 := by
  rw [← valToArray_zero]
  exact decode_encode_addr W 0 (Nat.pow_pos (by decide))

theorem valToArray_length (size val : Nat) : (valToArray size val).length = size := by
  unfold valToArray
  simp

theorem switchNumArgs_of_le (tachArgs : List TachVal) (h : tachArgs.length ≤ 6) :
    switchNumArgs tachArgs tachArgs.length = some (tachArgs.map TachVal.readIntVal) := by
  match tachArgs, h with
  | [], _ => rfl
  | [_], _ => rfl
  | [_, _], _ => rfl
  | [_, _, _], _ => rfl
  | [_, _, _, _], _ => rfl
  | [_, _, _, _, _], _ => rfl
  | [_, _, _, _, _, _], _ => rfl
  | _ :: _ :: _ :: _ :: _ :: _ :: _ :: _, h => simp at h

theorem switchNumArgs_of_gt (tachArgs : List TachVal) (n : Nat) (h : 7 ≤ n) :
    switchNumArgs tachArgs n = none := by
  match n, h with
  | n + 7, _ => rfl

theorem marshalArgs_length (W : Nat) (types : List String) (rest : List JSValue) (i : Nat)
    (tachArgs : List TachVal) (h : marshalArgs W types rest i = .ok tachArgs) :
    tachArgs.length = rest.length := by
  induction rest generalizing i tachArgs with
  | nil =>
    simp only [marshalArgs, Except.ok.injEq] at h
    subst h
    rfl
  | cons arg tl ih =>
    unfold marshalArgs at h
    split at h
    · cases h
    · split at h
      · cases h
      · split at h
        · cases h
        · rename_i tl2 htl
          cases h
          simp [ih _ _ htl]

theorem strcmpIsZero_self (a : String) : strcmpIsZero a a := rfl

theorem cString_of_no_nul (s : String) (h : Char.ofNat 0 ∉ s.toList) :
    cString s = s.toList := by
  unfold cString
  rw [List.takeWhile_eq_self_iff]
  intro ch hch
  have hne : ch ≠ Char.ofNat 0 := fun heq => h (heq ▸ hch)
  simpa using hne

/-- On strings without a NUL character `strcmp` tests equality. -/
theorem strcmpIsZero_iff_eq (a b : String) (ha : Char.ofNat 0 ∉ a.toList)
    (hb : Char.ofNat 0 ∉ b.toList) : strcmpIsZero a b ↔ a = b := by
  unfold strcmpIsZero
  rw [cString_of_no_nul a ha, cString_of_no_nul b hb]
  exact String.toList_inj

theorem ptr_tag_not_int (t : String)
    (h : strcmpIsZero t "void*" ∨ strcmpIsZero t "char*") : ¬ strcmpIsZero t "int" := by
  unfold strcmpIsZero at h ⊢
  intro hi
  rcases h with h1 | h1
  · rw [hi] at h1
    exact absurd h1 (by decide)
  · rw [hi] at h1
    exact absurd h1 (by decide)

theorem marshalArg_wellTyped (W : Nat) (t : String) (arg : JSValue)
    (h : wellTypedArg W t arg) : ∃ tachArg, marshalArg W t arg = .ok tachArg := by
  unfold marshalArg
  cases arg with
  | number n =>
    have ht2 : t = "int" := h
    subst ht2
    rw [if_pos (strcmpIsZero_self "int")]
    exact ⟨_, rfl⟩
  | array elems =>
    obtain ⟨hty, p, hp⟩ := h
    have hty2 : strcmpIsZero t "void*" ∨ strcmpIsZero t "char*" := by
      rcases hty with h1 | h1
      · exact Or.inl (h1 ▸ strcmpIsZero_self _)
      · exact Or.inr (h1 ▸ strcmpIsZero_self _)
    simp only [if_neg (ptr_tag_not_int t hty2), if_pos hty2, hp]
    exact ⟨_, rfl⟩
  | string s => exact absurd h (by simp [wellTypedArg])
  | undefined => exact absurd h (by simp [wellTypedArg])

theorem marshalArgs_wellTyped (W : Nat) (types : List String) (rest : List JSValue) (i : Nat)
    (h : ∀ (j : Nat) (arg : JSValue), rest[j]? = some arg →
      ∃ t, types[i + j]? = some t ∧ wellTypedArg W t arg) :
    ∃ tachArgs, marshalArgs W types rest i = .ok tachArgs := by
  induction rest generalizing i with
  | nil => exact ⟨[], rfl⟩
  | cons arg tl ih =>
    obtain ⟨t, ht, hwt⟩ := h 0 arg (by simp)
    obtain ⟨tl2, htl⟩ := ih (i + 1) (fun j a ha => by
      obtain ⟨t2, h1, h2⟩ := h (j + 1) a (by simpa using ha)
      exact ⟨t2, by rw [← h1]; congr 1; omega, h2⟩)
    obtain ⟨ta, hta⟩ := marshalArg_wellTyped W t arg hwt
    rw [Nat.add_zero] at ht
    unfold marshalArgs
    simp only [ht, hta, htl]
    exact ⟨_, rfl⟩

theorem marshalArgs_short (W : Nat) (types : List String) (rest : List JSValue) (i : Nat)
    (h1 : i ≤ types.length) (h2 : types.length < i + rest.length) :
    ∃ e, marshalArgs W types rest i = .error e := by
  induction rest generalizing i with
  | nil => simp at h2; omega
  | cons arg tl ih =>
    unfold marshalArgs
    cases ht : types[i]? with
    | none => exact ⟨_, rfl⟩
    | some t =>
      have hi : i < types.length := (List.getElem?_eq_some_iff.mp ht).1
      simp only []
      cases hta : marshalArg W t arg with
      | error e => exact ⟨_, rfl⟩
      | ok ta =>
        simp only []
        obtain ⟨e, he⟩ := ih (i + 1) (by omega) (by simp at h2; omega)
        rw [he]
        exact ⟨_, rfl⟩

theorem marshalArgs_take (W : Nat) (types : List String) (rest : List JSValue) (i n : Nat)
    (h : i + rest.length ≤ n) :
    marshalArgs W (types.take n) rest i = marshalArgs W types rest i := by
  induction rest generalizing i with
  | nil => rfl
  | cons arg tl ih =>
    simp only [List.length_cons] at h
    unfold marshalArgs
    rw [List.getElem?_take_of_lt (by omega : i < n), ih (i + 1) (by omega)]

theorem marshalArgs_bad (W : Nat) (types : List String) (rest : List JSValue) (i j : Nat)
    (t : String) (arg : JSValue) (harg : rest[j]? = some arg) (ht : types[i + j]? = some t)
    (hbad : ∃ e, marshalArg W t arg = .error e) :
    ∃ e, marshalArgs W types rest i = .error e := by
  induction rest generalizing i j with
  | nil => simp at harg
  | cons a tl ih =>
    unfold marshalArgs
    cases hti : types[i]? with
    | none => exact ⟨_, rfl⟩
    | some t2 =>
      simp only []
      cases hta : marshalArg W t2 a with
      | error e => exact ⟨_, rfl⟩
      | ok ta =>
        simp only []
        cases j with
        | zero =>
          simp only [List.getElem?_cons_zero, Option.some.injEq] at harg
          rw [Nat.add_zero, hti] at ht
          cases ht
          subst harg
          obtain ⟨e, he⟩ := hbad
          rw [he] at hta
          cases hta
        | succ j =>
          simp only [List.getElem?_cons_succ] at harg
          obtain ⟨e, he⟩ := ih (i + 1) j harg (by rw [← ht]; congr 1; omega)
          rw [he]
          exact ⟨_, rfl⟩

theorem marshalArg_int_not_number (W : Nat) (t : String) (arg : JSValue)
    (ht : strcmpIsZero t "int") (h : ∀ n, arg ≠ .number n) :
    marshalArg W t arg = .error .integerArgumentsShouldBeNumbers := by
  unfold marshalArg
  rw [if_pos ht]
  cases arg with
  | number n => exact absurd rfl (h n)
  | array elems => rfl
  | string s => rfl
  | undefined => rfl

theorem marshalArg_ptr_not_array (W : Nat) (t : String) (arg : JSValue)
    (ht : strcmpIsZero t "void*" ∨ strcmpIsZero t "char*") (h : ∀ elems, arg ≠ .array elems) :
    marshalArg W t arg = .error .pointerArgumentsShouldBeByteArrays := by
  unfold marshalArg
  rw [if_neg (ptr_tag_not_int t ht), if_pos ht]
  cases arg with
  | number n => rfl
  | array elems => exact absurd rfl (h elems)
  | string s => rfl
  | undefined => rfl

theorem marshalArg_unsupported (W : Nat) (t : String) (arg : JSValue)
    (h1 : ¬ strcmpIsZero t "int") (h2 : ¬ strcmpIsZero t "void*")
    (h3 : ¬ strcmpIsZero t "char*") :
    marshalArg W t arg = .error (.unsupportedArgumentType t) := by
  unfold marshalArg
  rw [if_neg h1, if_neg (by simp [h2, h3])]

theorem marshalArgs_ints (W : Nat) (types : List String) (as : List Int) (i : Nat)
    (h : ∀ j, j < as.length → types[i + j]? = some "int") :
    marshalArgs W types (as.map JSValue.number) i
      = .ok (as.map (fun a => TachVal.intVal (Int32Value a))) := by
  induction as generalizing i with
  | nil => rfl
  | cons a tl ih =>
    have h0 := h 0 (by simp)
    rw [Nat.add_zero] at h0
    have htl := ih (i + 1) (fun j hj => by
      rw [← h (j + 1) (by simpa using hj)]
      congr 1
      omega)
    simp only [List.map_cons]
    unfold marshalArgs
    simp only [h0, htl, marshalArg, if_pos (strcmpIsZero_self "int")]

/-- The bridge stops before any native call when the function pointer, the
context pointer or an argument cannot be marshalled. -/
theorem callTachyonFFI_marshal_error (W : Nat) (native : NativeCall → Int) (high : Nat)
    (types : List String) (retTy : String) (funcArr ctxArr : List Int) (rest : List JSValue)
    (e : FatalError) (hm : marshalArgs W types rest 0 = .error e) :
    ∃ e2, (callTachyonFFI W native high types retTy funcArr ctxArr rest).result = .error e2 ∧
      (callTachyonFFI W native high types retTy funcArr ctxArr rest).calls = [] := by
  unfold callTachyonFFI
  simp only [Nat.not_lt.mpr (Nat.le_add_right 4 rest.length), if_false]
  cases arrayToVal W funcArr with
  | error e1 => exact ⟨_, rfl, rfl⟩
  | ok f =>
    cases arrayToVal W ctxArr with
    | error e1 => exact ⟨_, rfl, rfl⟩
    | ok c =>
      simp [hm]

/-- The bridge on marshalled arguments, at most six: one native call, then the
return value by the return type string. -/
theorem callTachyonFFI_call (W : Nat) (native : NativeCall → Int) (high : Nat)
    (types : List String) (retTy : String) (funcArr ctxArr : List Int) (rest : List JSValue)
    (f c : Nat) (tachArgs : List TachVal) (hf : arrayToVal W funcArr = .ok f)
    (hc : arrayToVal W ctxArr = .ok c) (hm : marshalArgs W types rest 0 = .ok tachArgs)
    (hn : rest.length ≤ 6) :
    callTachyonFFI W native high types retTy funcArr ctxArr rest =
      if strcmpIsZero retTy "int" then
        ⟨[⟨f, c, tachArgs.map TachVal.readIntVal⟩],
          .ok (.number (native ⟨f, c, tachArgs.map TachVal.readIntVal⟩))⟩
      else if strcmpIsZero retTy "void*" ∨ strcmpIsZero retTy "char*" then
        ⟨[⟨f, c, tachArgs.map TachVal.readIntVal⟩],
          .ok (.array (valToArray W
            ((toBits 4 (native ⟨f, c, tachArgs.map TachVal.readIntVal⟩) + 4294967296 * high)
              % wordMod W)))⟩
      else ⟨[⟨f, c, tachArgs.map TachVal.readIntVal⟩], .error (.unsupportedReturnType retTy)⟩ := by
  have hlen := marshalArgs_length W types rest 0 tachArgs hm
  have hsw := switchNumArgs_of_le tachArgs (by omega)
  rw [hlen] at hsw
  unfold callTachyonFFI
  simp only [Nat.not_lt.mpr (Nat.le_add_right 4 rest.length), if_false, hf, hc, hm,
    Nat.add_sub_cancel_left, hsw, TachVal.readIntVal, TachVal.readPtrVal]

/-- The bridge on marshalled arguments, seven or more: no native call. -/
theorem callTachyonFFI_many (W : Nat) (native : NativeCall → Int) (high : Nat)
    (types : List String) (retTy : String) (funcArr ctxArr : List Int) (rest : List JSValue)
    (f c : Nat) (tachArgs : List TachVal) (hf : arrayToVal W funcArr = .ok f)
    (hc : arrayToVal W ctxArr = .ok c) (hm : marshalArgs W types rest 0 = .ok tachArgs)
    (hn : 7 ≤ rest.length) :
    callTachyonFFI W native high types retTy funcArr ctxArr rest =
      ⟨[], .error (.unsupportedArgumentCount rest.length)⟩ := by
  unfold callTachyonFFI
  simp only [Nat.not_lt.mpr (Nat.le_add_right 4 rest.length), if_false, hf, hc, hm,
    Nat.add_sub_cancel_left, switchNumArgs_of_gt tachArgs rest.length hn]

theorem wellTypedArgs_nil (W : Nat) (types : List String) : wellTypedArgs W types [] := by
  intro i arg h
  simp at h

theorem wellTypedArgs_cons (W : Nat) (t : String) (types : List String) (arg : JSValue)
    (rest : List JSValue) (h1 : wellTypedArg W t arg) (h2 : wellTypedArgs W types rest) :
    wellTypedArgs W (t :: types) (arg :: rest) := by
  intro i a h
  cases i with
  | zero =>
    simp only [List.getElem?_cons_zero, Option.some.injEq] at h
    subst h
    exact ⟨t, by simp, h1⟩
  | succ i =>
    simp only [List.getElem?_cons_succ] at h
    obtain ⟨t2, ht2, hw⟩ := h2 i a h
    exact ⟨t2, by simpa using ht2, hw⟩

theorem marshalArgs_of_wellTypedArgs (W : Nat) (types : List String) (rest : List JSValue)
    (h : wellTypedArgs W types rest) : ∃ tachArgs, marshalArgs W types rest 0 = .ok tachArgs :=
  marshalArgs_wellTyped W types rest 0 (fun j arg hj => by
    obtain ⟨t, ht, hw⟩ := h j arg hj
    exact ⟨t, by rw [Nat.zero_add]; exact ht, hw⟩)

theorem getFuncAddr_sum2Ints (W : Nat) (syms : NativeSymbols) (h : syms.sum2Ints ≠ 0) :
    getFuncAddr W syms ["sum2Ints"] = .ok (valToArray W syms.sum2Ints) := by
  have h1 : ¬ strcmpIsZero "sum2Ints" "malloc" := by decide
  have h2 : ¬ strcmpIsZero "sum2Ints" "free" := by decide
  have h3 : ¬ strcmpIsZero "sum2Ints" "exit" := by decide
  have h4 : ¬ strcmpIsZero "sum2Ints" "printInt" := by decide
  have h5 : ¬ strcmpIsZero "sum2Ints" "printStr" := by decide
  unfold getFuncAddr
  simp [h, h1, h2, h3, h4, h5, strcmpIsZero_self]

/-- The end-to-end scenario, step by step: `sum2Ints` is entered with the context
pointer 0 and the values 5 and 7 as its argument slots and returns `0 + 5`. -/
theorem sum2IntsScenario_eq (W : Nat) (syms : NativeSymbols) (native : NativeCall → Int)
    (high : Nat) (hnn : syms.sum2Ints ≠ 0) (haddr : isAddr W syms.sum2Ints)
    (hnat : ∀ call, call.funcPtr = syms.sum2Ints → native call = sum2IntsEntry call) :
    sum2IntsScenario W syms native high
      = ⟨[⟨syms.sum2Ints, 0, [5, 7]⟩], .ok (.number 5)⟩ := by
  unfold sum2IntsScenario
  rw [getFuncAddr_sum2Ints W syms hnn]
  simp only []
  have hm : marshalArgs W ["int", "int"] [.number 5, .number 7] 0
      = .ok [.intVal 5, .intVal 7] := by rfl
  rw [callTachyonFFI_call W native high _ _ _ _ _ syms.sum2Ints 0 _
    (decode_encode_addr W _ haddr) (arrayToVal_zeros W) hm (by decide)]
  have hcall : native ⟨syms.sum2Ints, 0, [5, 7]⟩ = 5 := by
    rw [hnat _ rfl]
    rfl
  simp only [if_pos (strcmpIsZero_self "int"), List.map, TachVal.readIntVal, hcall]

/-! ## Host functions on blocks and symbols -/

/-- C12 (counterexample): the name made of "malloc", a NUL character and the
letter x is none of the six names, and `getFuncAddr` resolves it to the address
of `malloc`. -/
theorem getFuncAddr_accepts_nul_suffixed_name :
    nulSuffixed "malloc" ∉ ["malloc", "free", "exit", "printInt", "printStr", "sum2Ints"] ∧
    getFuncAddr 4 sampleSymbols [nulSuffixed "malloc"]
      = .ok (valToArray 4 sampleSymbols.malloc) :=
  ⟨by decide, rfl⟩

/-- C12 (amended): `getFuncAddr` succeeds if and only if the given name, read as
a C string (its characters up to the first NUL character), is one of exactly
"malloc", "free", "exit", "printInt", "printStr", "sum2Ints"; every other name
(the empty string and names differing only in case included) is the fatal
lookup failure.  For a name without NUL character: if and only if the name is
one of the six. -/
theorem getFuncAddr_allowlist (W : Nat) (syms : NativeSymbols) (fName : String)
    (hsyms : syms.nonNull) :
    ((∃ arr, getFuncAddr W syms [fName] = .ok arr) ↔
      ∃ name ∈ ["malloc", "free", "exit", "printInt", "printStr", "sum2Ints"],
        strcmpIsZero fName name) ∧
    ((¬ ∃ name ∈ ["malloc", "free", "exit", "printInt", "printStr", "sum2Ints"],
        strcmpIsZero fName name) →
      getFuncAddr W syms [fName] = .error (.cFunctionNotFound fName)) ∧
    (Char.ofNat 0 ∉ fName.toList →
      ((∃ arr, getFuncAddr W syms [fName] = .ok arr) ↔
        fName ∈ ["malloc", "free", "exit", "printInt", "printStr", "sum2Ints"])) ∧
    getFuncAddr W syms [""] = .error (.cFunctionNotFound "") ∧
    getFuncAddr W syms ["Malloc"] = .error (.cFunctionNotFound "Malloc") ∧
    getFuncAddr W syms ["SUM2INTS"] = .error (.cFunctionNotFound "SUM2INTS") := by
  obtain ⟨h1, h2, h3, h4, h5, h6⟩ := hsyms
  have hbad : ∀ s : String,
      (¬ ∃ name ∈ ["malloc", "free", "exit", "printInt", "printStr", "sum2Ints"],
        strcmpIsZero s name) →
      getFuncAddr W syms [s] = .error (.cFunctionNotFound s) := by
    intro s hs
    have n1 : ¬ strcmpIsZero s "malloc" := fun h => hs ⟨_, by simp, h⟩
    have n2 : ¬ strcmpIsZero s "free" := fun h => hs ⟨_, by simp, h⟩
    have n3 : ¬ strcmpIsZero s "exit" := fun h => hs ⟨_, by simp, h⟩
    have n4 : ¬ strcmpIsZero s "printInt" := fun h => hs ⟨_, by simp, h⟩
    have n5 : ¬ strcmpIsZero s "printStr" := fun h => hs ⟨_, by simp, h⟩
    have n6 : ¬ strcmpIsZero s "sum2Ints" := fun h => hs ⟨_, by simp, h⟩
    unfold getFuncAddr
    simp [n1, n2, n3, n4, n5, n6]
  have hgood : (∃ name ∈ ["malloc", "free", "exit", "printInt", "printStr", "sum2Ints"],
        strcmpIsZero fName name) → ∃ arr, getFuncAddr W syms [fName] = .ok arr := by
    intro ⟨name, hmem, hs⟩
    unfold getFuncAddr
    by_cases c1 : strcmpIsZero fName "malloc"
    · simp [c1, h1]
    by_cases c2 : strcmpIsZero fName "free"
    · simp [c1, c2, h2]
    by_cases c3 : strcmpIsZero fName "exit"
    · simp [c1, c2, c3, h3]
    by_cases c4 : strcmpIsZero fName "printInt"
    · simp [c1, c2, c3, c4, h4]
    by_cases c5 : strcmpIsZero fName "printStr"
    · simp [c1, c2, c3, c4, c5, h5]
    by_cases c6 : strcmpIsZero fName "sum2Ints"
    · simp [c1, c2, c3, c4, c5, c6, h6]
    simp only [List.mem_cons, List.mem_singleton, List.not_mem_nil, or_false] at hmem
    rcases hmem with h | h | h | h | h | h <;> subst h <;> contradiction
  have hiff : (∃ arr, getFuncAddr W syms [fName] = .ok arr) ↔
      ∃ name ∈ ["malloc", "free", "exit", "printInt", "printStr", "sum2Ints"],
        strcmpIsZero fName name := by
    refine ⟨?_, hgood⟩
    intro ⟨arr, harr⟩
    by_contra hn
    rw [hbad fName hn] at harr
    cases harr
  refine ⟨hiff, hbad fName, ?_, hbad "" (by decide), hbad "Malloc" (by decide),
    hbad "SUM2INTS" (by decide)⟩
  intro hnul
  rw [hiff]
  constructor
  · intro ⟨name, hmem, hs⟩
    have hname : Char.ofNat 0 ∉ name.toList := by
      simp only [List.mem_cons, List.mem_singleton, List.not_mem_nil, or_false] at hmem
      rcases hmem with h | h | h | h | h | h <;> subst h <;> decide
    rw [(strcmpIsZero_iff_eq fName name hnul hname).mp hs]
    exact hmem
  · intro hmem
    exact ⟨fName, hmem, strcmpIsZero_self fName⟩

theorem getFuncAddr_allowlist_witness :
    (sampleSymbols.nonNull ∧ Char.ofNat 0 ∉ "printInt".toList) ∧
      ((∃ arr, getFuncAddr 4 sampleSymbols ["printInt"] = .ok arr) ↔
        "printInt" ∈ ["malloc", "free", "exit", "printInt", "printStr", "sum2Ints"]) ∧
      getFuncAddr 4 sampleSymbols ["Malloc"] = .error (.cFunctionNotFound "Malloc") :=
  have h := getFuncAddr_allowlist 4 sampleSymbols "printInt" (by decide)
  ⟨by decide, h.2.2.1 (by decide), h.2.2.2.2.1⟩

/-! ## The foreign call bridge -/

/-- C13: with well-typed arguments and decodable pointers, `callTachyonFFI` with
`n` declared arguments performs the native call if and only if `n ≤ 6`; for
every `n ≥ 7` it fails with the unsupported-argument-count error and the native
function is never invoked. -/
theorem callTachyonFFI_arity (W : Nat) (native : NativeCall → Int) (high : Nat)
    (types : List String) (retTy : String) (funcArr ctxArr : List Int) (rest : List JSValue)
    (f c : Nat) (hf : arrayToVal W funcArr = .ok f) (hc : arrayToVal W ctxArr = .ok c)
    (hwt : wellTypedArgs W types rest) :
    ((∃ passed, (callTachyonFFI W native high types retTy funcArr ctxArr rest).calls
        = [⟨f, c, passed⟩]) ↔ rest.length ≤ 6) ∧
    (7 ≤ rest.length →
      (callTachyonFFI W native high types retTy funcArr ctxArr rest).result
        = .error (.unsupportedArgumentCount rest.length) ∧
      (callTachyonFFI W native high types retTy funcArr ctxArr rest).calls = []) := by
  obtain ⟨tachArgs, hm⟩ := marshalArgs_of_wellTypedArgs W types rest hwt
  have hmany : 7 ≤ rest.length →
      (callTachyonFFI W native high types retTy funcArr ctxArr rest).result
        = .error (.unsupportedArgumentCount rest.length) ∧
      (callTachyonFFI W native high types retTy funcArr ctxArr rest).calls = [] := by
    intro hn
    rw [callTachyonFFI_many W native high types retTy funcArr ctxArr rest f c tachArgs hf hc hm hn]
    exact ⟨rfl, rfl⟩
  refine ⟨⟨?_, ?_⟩, hmany⟩
  · intro ⟨passed, hp⟩
    by_contra hn
    rw [(hmany (by omega)).2] at hp
    cases hp
  · intro hn
    rw [callTachyonFFI_call W native high types retTy funcArr ctxArr rest f c tachArgs hf hc hm hn]
    refine ⟨tachArgs.map TachVal.readIntVal, ?_⟩
    split
    · rfl
    · split <;> rfl

theorem callTachyonFFI_arity_witness :
    (arrayToVal 4 [64, 161, 4, 8] = .ok 134521152 ∧ arrayToVal 4 [0, 0, 0, 0] = .ok 0 ∧
      wellTypedArgs 4 ["int"] [.number 5]) ∧
    ((∃ passed, (callTachyonFFI 4 sampleNative 0 ["int"] "int" [64, 161, 4, 8] [0, 0, 0, 0]
        [.number 5]).calls = [⟨134521152, 0, passed⟩]) ↔ [JSValue.number 5].length ≤ 6) :=
  have hw : wellTypedArgs 4 ["int"] [.number 5] :=
    wellTypedArgs_cons 4 "int" [] (.number 5) [] rfl (wellTypedArgs_nil 4 [])
  ⟨⟨rfl, rfl, hw⟩,
    (callTachyonFFI_arity 4 sampleNative 0 ["int"] "int" [64, 161, 4, 8] [0, 0, 0, 0]
      [.number 5] 134521152 0 rfl rfl hw).1⟩

/-- C14 (counterexample): the type sequence has two entries and there is one
argument value, and the call does not fail: the native function is invoked with
that one value and its result is returned. -/
theorem callTachyonFFI_surplus_type_accepted :
    ["int", "int"].length ≠ [JSValue.number 5].length ∧
    (callTachyonFFI 4 sampleNative 0 ["int", "int"] "int" [64, 161, 4, 8] [0, 0, 0, 0]
      [.number 5]).result = .ok (.number 5) ∧
    (callTachyonFFI 4 sampleNative 0 ["int", "int"] "int" [64, 161, 4, 8] [0, 0, 0, 0]
      [.number 5]).calls = [⟨134521152, 0, [5]⟩] :=
  ⟨by decide, rfl, rfl⟩

/-- C14 (amended): `callTachyonFFI` fails, without invoking the native function,
whenever some argument value has no type tag, that is whenever the type
sequence has fewer entries than there are values; when the type sequence has
more entries than there are values the surplus entries are ignored. -/
theorem callTachyonFFI_type_count (W : Nat) (native : NativeCall → Int) (high : Nat)
    (types : List String) (retTy : String) (funcArr ctxArr : List Int)
    (rest : List JSValue) :
    (types.length < rest.length →
      ∃ e, (callTachyonFFI W native high types retTy funcArr ctxArr rest).result = .error e ∧
        (callTachyonFFI W native high types retTy funcArr ctxArr rest).calls = []) ∧
    (rest.length ≤ types.length →
      callTachyonFFI W native high types retTy funcArr ctxArr rest
        = callTachyonFFI W native high (types.take rest.length) retTy funcArr ctxArr rest) := by
  constructor
  · intro h
    obtain ⟨e, he⟩ := marshalArgs_short W types rest 0 (by omega) (by omega)
    exact callTachyonFFI_marshal_error W native high types retTy funcArr ctxArr rest e he
  · intro _
    unfold callTachyonFFI
    rw [marshalArgs_take W types rest 0 rest.length (by omega)]

theorem callTachyonFFI_type_count_witness :
    (["int"].length < [JSValue.number 5, JSValue.number 6].length ∧
      [JSValue.number 5].length ≤ ["int", "int"].length) ∧
    (∃ e, (callTachyonFFI 4 sampleNative 0 ["int"] "int" [64, 161, 4, 8] [0, 0, 0, 0]
        [.number 5, .number 6]).result = .error e ∧
      (callTachyonFFI 4 sampleNative 0 ["int"] "int" [64, 161, 4, 8] [0, 0, 0, 0]
        [.number 5, .number 6]).calls = []) ∧
    callTachyonFFI 4 sampleNative 0 ["int", "int"] "int" [64, 161, 4, 8] [0, 0, 0, 0]
        [.number 5]
      = callTachyonFFI 4 sampleNative 0 (["int", "int"].take [JSValue.number 5].length) "int"
        [64, 161, 4, 8] [0, 0, 0, 0] [.number 5] :=
  ⟨by decide,
    (callTachyonFFI_type_count 4 sampleNative 0 ["int"] "int" [64, 161, 4, 8] [0, 0, 0, 0]
      [.number 5, .number 6]).1 (by decide),
    (callTachyonFFI_type_count 4 sampleNative 0 ["int", "int"] "int" [64, 161, 4, 8]
      [0, 0, 0, 0] [.number 5]).2 (by decide)⟩

/-- C15 (counterexample): the type tag made of "int", a NUL character and the
letter x is none of "int", "void*", "char*", and with a number as value the call
does not fail: the tag is taken for "int" and the native function is invoked. -/
theorem callTachyonFFI_accepts_nul_suffixed_tag :
    nulSuffixed "int" ≠ "int" ∧ nulSuffixed "int" ≠ "void*" ∧ nulSuffixed "int" ≠ "char*" ∧
    (callTachyonFFI 4 sampleNative 0 [nulSuffixed "int"] "int" [64, 161, 4, 8] [0, 0, 0, 0]
      [.number 5]).result = .ok (.number 5) ∧
    (callTachyonFFI 4 sampleNative 0 [nulSuffixed "int"] "int" [64, 161, 4, 8] [0, 0, 0, 0]
      [.number 5]).calls = [⟨134521152, 0, [5]⟩] :=
  ⟨by decide, by decide, by decide, rfl, rfl⟩

/-- C15 (amended): at every argument position, with the type tag read as a C
string (its characters up to the first NUL character): a declared integer
argument whose value is not a number fails, a declared pointer argument whose
value is not an array (a number for example) fails, and a type tag other than
"int", "void*" and "char*" fails; in each case the native function is not
invoked.  For a tag without NUL character the tag itself is compared. -/
theorem callTachyonFFI_argument_mismatch (W : Nat) (native : NativeCall → Int) (high : Nat)
    (types : List String) (retTy : String) (funcArr ctxArr : List Int) (rest : List JSValue)
    (i : Nat) (t : String) (arg : JSValue) (ht : types[i]? = some t)
    (harg : rest[i]? = some arg) :
    (((strcmpIsZero t "int" ∧ ∀ n, arg ≠ .number n) ∨
      ((strcmpIsZero t "void*" ∨ strcmpIsZero t "char*") ∧ ∀ elems, arg ≠ .array elems) ∨
      (¬ strcmpIsZero t "int" ∧ ¬ strcmpIsZero t "void*" ∧ ¬ strcmpIsZero t "char*")) →
      ∃ e, (callTachyonFFI W native high types retTy funcArr ctxArr rest).result = .error e ∧
        (callTachyonFFI W native high types retTy funcArr ctxArr rest).calls = []) ∧
    (Char.ofNat 0 ∉ t.toList →
      ((t = "int" ∧ ∀ n, arg ≠ .number n) ∨
        ((t = "void*" ∨ t = "char*") ∧ ∀ elems, arg ≠ .array elems) ∨
        (t ≠ "int" ∧ t ≠ "void*" ∧ t ≠ "char*")) →
      ∃ e, (callTachyonFFI W native high types retTy funcArr ctxArr rest).result = .error e ∧
        (callTachyonFFI W native high types retTy funcArr ctxArr rest).calls = []) := by
  have hmain : ((strcmpIsZero t "int" ∧ ∀ n, arg ≠ .number n) ∨
      ((strcmpIsZero t "void*" ∨ strcmpIsZero t "char*") ∧ ∀ elems, arg ≠ .array elems) ∨
      (¬ strcmpIsZero t "int" ∧ ¬ strcmpIsZero t "void*" ∧ ¬ strcmpIsZero t "char*")) →
      ∃ e, (callTachyonFFI W native high types retTy funcArr ctxArr rest).result = .error e ∧
        (callTachyonFFI W native high types retTy funcArr ctxArr rest).calls = [] := by
    intro hbad
    have hone : ∃ e, marshalArg W t arg = .error e := by
      rcases hbad with ⟨h1, h2⟩ | ⟨h1, h2⟩ | ⟨h1, h2, h3⟩
      · exact ⟨_, marshalArg_int_not_number W t arg h1 h2⟩
      · exact ⟨_, marshalArg_ptr_not_array W t arg h1 h2⟩
      · exact ⟨_, marshalArg_unsupported W t arg h1 h2 h3⟩
    obtain ⟨e, he⟩ := marshalArgs_bad W types rest 0 i t arg harg
      (by rw [Nat.zero_add]; exact ht) hone
    exact callTachyonFFI_marshal_error W native high types retTy funcArr ctxArr rest e he
  refine ⟨hmain, ?_⟩
  intro hnul hbad
  have e1 := strcmpIsZero_iff_eq t "int" hnul (by decide)
  have e2 := strcmpIsZero_iff_eq t "void*" hnul (by decide)
  have e3 := strcmpIsZero_iff_eq t "char*" hnul (by decide)
  apply hmain
  rw [e1, e2, e3]
  exact hbad

theorem callTachyonFFI_argument_mismatch_witness :
    (["int", "void*"][1]? = some "void*" ∧
      [JSValue.number 5, JSValue.number 6][1]? = some (JSValue.number 6) ∧
      Char.ofNat 0 ∉ "void*".toList) ∧
    ∃ e, (callTachyonFFI 4 sampleNative 0 ["int", "void*"] "int" [64, 161, 4, 8] [0, 0, 0, 0]
        [.number 5, .number 6]).result = .error e ∧
      (callTachyonFFI 4 sampleNative 0 ["int", "void*"] "int" [64, 161, 4, 8] [0, 0, 0, 0]
        [.number 5, .number 6]).calls = [] :=
  ⟨⟨rfl, rfl, by decide⟩,
    (callTachyonFFI_argument_mismatch 4 sampleNative 0 ["int", "void*"] "int" [64, 161, 4, 8]
      [0, 0, 0, 0] [.number 5, .number 6] 1 "void*" (.number 6) rfl rfl).2 (by decide)
      (Or.inr (Or.inl ⟨Or.inl rfl, fun _ h => by cases h⟩))⟩

/-- C16: for every `n` in 0..6, every context pointer `c` and every list of `n`
integer arguments declared "int" with return type "int", `callTachyonFFI`
invokes the native function exactly once with the argument list
`(c, a_1, ..., a_n)` in that order and returns its result as a number; for a
native function returning `a + b + c` on `(ctx, a, b, c)` the result is
`a + b + c`. -/
theorem callTachyonFFI_int_call (W : Nat) (native : NativeCall → Int) (high : Nat)
    (types : List String) (funcArr ctxArr : List Int) (f c : Nat) (as : List Int)
    (hf : arrayToVal W funcArr = .ok f) (hc : arrayToVal W ctxArr = .ok c)
    (hn : as.length ≤ 6) (hty : ∀ j, j < as.length → types[j]? = some "int")
    (hint : ∀ a ∈ as, isInt32 a) :
    callTachyonFFI W native high types "int" funcArr ctxArr (as.map JSValue.number)
      = ⟨[⟨f, c, as⟩], .ok (.number (native ⟨f, c, as⟩))⟩ ∧
    (∀ x y z : Int, as = [x, y, z] → native ⟨f, c, [x, y, z]⟩ = x + y + z →
      (callTachyonFFI W native high types "int" funcArr ctxArr
        (as.map JSValue.number)).result = .ok (.number (x + y + z))) := by
  have hm := marshalArgs_ints W types as 0 (fun j hj => by
    rw [Nat.zero_add]
    exact hty j hj)
  have hmap : (as.map (fun a => TachVal.intVal (Int32Value a))).map TachVal.readIntVal = as := by
    rw [List.map_map]
    conv => rhs; rw [← List.map_id as]
    apply List.map_congr_left
    intro a ha
    simp only [Function.comp, TachVal.readIntVal, id]
    exact Int32Value_of_isInt32 a (hint a ha)
  have hmain : callTachyonFFI W native high types "int" funcArr ctxArr (as.map JSValue.number)
      = ⟨[⟨f, c, as⟩], .ok (.number (native ⟨f, c, as⟩))⟩ := by
    rw [callTachyonFFI_call W native high types "int" funcArr ctxArr _ f c _ hf hc hm
      (by simpa using hn), hmap, if_pos (strcmpIsZero_self "int")]
  refine ⟨hmain, ?_⟩
  intro x y z has hsum
  rw [hmain, has, hsum]

theorem callTachyonFFI_int_call_witness :
    (arrayToVal 4 [64, 161, 4, 8] = .ok 134521152 ∧ arrayToVal 4 [0, 0, 0, 0] = .ok 0 ∧
      [(1 : Int), 2, 3].length ≤ 6) ∧
    callTachyonFFI 4 sumNative 0 ["int", "int", "int"] "int"
        [64, 161, 4, 8] [0, 0, 0, 0] ([(1 : Int), 2, 3].map JSValue.number)
      = ⟨[⟨134521152, 0, [1, 2, 3]⟩], .ok (.number 6)⟩ :=
  ⟨⟨rfl, rfl, by decide⟩,
    (callTachyonFFI_int_call 4 sumNative 0 ["int", "int", "int"]
      [64, 161, 4, 8] [0, 0, 0, 0] 134521152 0 [1, 2, 3] rfl rfl (by decide)
      (by decide) (by decide)).1⟩

/-- C17 (counterexample): in the end-to-end scenario on the sample layout the
call does not return 12. -/
theorem sum2IntsScenario_not_twelve :
    (sum2IntsScenario 4 sampleSymbols sampleNative 0).result ≠ .ok (.number 12) := by
  rw [sum2IntsScenario_eq 4 sampleSymbols sampleNative 0 (by decide) (by decide)
    (fun call h => if_pos h)]
  intro h
  cases h

/-- C17 (amended): calling `callTachyonFFI` with the function address obtained
from `getFuncAddr("sum2Ints")`, an all-zero context pointer, argument types
`["int", "int"]`, return type "int" and values 5 and 7 invokes `sum2Ints` once
with the argument list `(0, 5, 7)` and returns the numeric value 5: the context
pointer 0 is the first native argument, so `sum2Ints` adds it to the value 5. -/
theorem sum2IntsScenario_returns_five (W : Nat) (syms : NativeSymbols)
    (native : NativeCall → Int) (high : Nat) (hnn : syms.sum2Ints ≠ 0)
    (haddr : isAddr W syms.sum2Ints)
    (hnat : ∀ call, call.funcPtr = syms.sum2Ints → native call = sum2IntsEntry call) :
    (sum2IntsScenario W syms native high).calls = [⟨syms.sum2Ints, 0, [5, 7]⟩] ∧
    (sum2IntsScenario W syms native high).result = .ok (.number 5) := by
  rw [sum2IntsScenario_eq W syms native high hnn haddr hnat]
  exact ⟨rfl, rfl⟩

theorem sum2IntsScenario_returns_five_witness :
    (sampleSymbols.sum2Ints ≠ 0 ∧ isAddr 4 sampleSymbols.sum2Ints ∧
      ∀ call, call.funcPtr = sampleSymbols.sum2Ints → sampleNative call = sum2IntsEntry call) ∧
    (sum2IntsScenario 4 sampleSymbols sampleNative 0).calls
      = [⟨sampleSymbols.sum2Ints, 0, [5, 7]⟩] ∧
    (sum2IntsScenario 4 sampleSymbols sampleNative 0).result = .ok (.number 5) :=
  ⟨⟨by decide, by decide, fun _ h => if_pos h⟩,
    sum2IntsScenario_returns_five 4 sampleSymbols sampleNative 0 (by decide) (by decide)
      (fun _ h => if_pos h)⟩

/-- C18 (counterexample): the return tag made of "int", a NUL character and the
letter x is none of "int", "void*", "char*", and the call is not fatal: the
native return value comes back as a number.  And with 8-byte pointers the array
returned for "void*" holds, above the four bytes of the native return value 0,
the bytes that were in the union before: it decodes to `2 ^ 32`, not to 0. -/
theorem return_tag_counterexamples :
    (nulSuffixed "int" ≠ "int" ∧ nulSuffixed "int" ≠ "void*" ∧ nulSuffixed "int" ≠ "char*" ∧
      (callTachyonFFI 4 sampleNative 0 ["int"] (nulSuffixed "int") [64, 161, 4, 8] [0, 0, 0, 0]
        [.number 5]).result = .ok (.number 5)) ∧
    (sampleNative ⟨1, 0, [5]⟩ = 0 ∧
      callTachyonFFI 8 sampleNative 1 ["int"] "void*" [1, 0, 0, 0, 0, 0, 0, 0]
          [0, 0, 0, 0, 0, 0, 0, 0] [.number 5]
        = ⟨[⟨1, 0, [5]⟩], .ok (.array [0, 0, 0, 0, 1, 0, 0, 0])⟩ ∧
      arrayToVal 8 [0, 0, 0, 0, 1, 0, 0, 0] = .ok 4294967296) :=
  ⟨⟨by decide, by decide, by decide, rfl⟩, rfl, rfl, rfl⟩

/-- C18 (amended): the result of `callTachyonFFI` is determined by the
return-type tag read as a C string (its characters up to the first NUL
character): "int" yields the number equal to the native return value, "void*"
or "char*" yields the byte sequence of `sizeof(pointer)` bytes read from the
return union, which with 4-byte pointers encodes the native return value as an
address, and every other tag is the fatal unsupported-return-type error.  For a
tag without NUL character the tag itself is compared. -/
theorem callTachyonFFI_return (W : Nat) (native : NativeCall → Int) (high : Nat)
    (types : List String) (retTy : String) (funcArr ctxArr : List Int) (rest : List JSValue)
    (f c : Nat) (hf : arrayToVal W funcArr = .ok f) (hc : arrayToVal W ctxArr = .ok c)
    (hwt : wellTypedArgs W types rest) (hn : rest.length ≤ 6) :
    ∃ call : NativeCall, call.funcPtr = f ∧ call.ctxPtr = c ∧
      (callTachyonFFI W native high types retTy funcArr ctxArr rest).calls = [call] ∧
      (strcmpIsZero retTy "int" →
        (callTachyonFFI W native high types retTy funcArr ctxArr rest).result
          = .ok (.number (native call))) ∧
      (strcmpIsZero retTy "void*" ∨ strcmpIsZero retTy "char*" →
        (callTachyonFFI W native high types retTy funcArr ctxArr rest).result
          = .ok (.array (valToArray W
            ((toBits 4 (native call) + 4294967296 * high) % wordMod W))) ∧
        (valToArray W ((toBits 4 (native call) + 4294967296 * high) % wordMod W)).length
          = W) ∧
      (W = 4 → strcmpIsZero retTy "void*" ∨ strcmpIsZero retTy "char*" →
        (callTachyonFFI W native high types retTy funcArr ctxArr rest).result
          = .ok (.array (valToArray W (toBits W (native call)))) ∧
        (valToArray W (toBits W (native call))).length = W ∧
        arrayToVal W (valToArray W (toBits W (native call))) = .ok (toBits W (native call))) ∧
      (¬ strcmpIsZero retTy "int" → ¬ strcmpIsZero retTy "void*" →
        ¬ strcmpIsZero retTy "char*" →
        (callTachyonFFI W native high types retTy funcArr ctxArr rest).result
          = .error (.unsupportedReturnType retTy)) ∧
      (Char.ofNat 0 ∉ retTy.toList → retTy ≠ "int" → retTy ≠ "void*" → retTy ≠ "char*" →
        (callTachyonFFI W native high types retTy funcArr ctxArr rest).result
          = .error (.unsupportedReturnType retTy)) := by
  obtain ⟨tachArgs, hm⟩ := marshalArgs_of_wellTypedArgs W types rest hwt
  have heq := callTachyonFFI_call W native high types retTy funcArr ctxArr rest f c tachArgs
    hf hc hm hn
  have hother : ¬ strcmpIsZero retTy "int" → ¬ strcmpIsZero retTy "void*" →
      ¬ strcmpIsZero retTy "char*" →
      (callTachyonFFI W native high types retTy funcArr ctxArr rest).result
        = .error (.unsupportedReturnType retTy) := by
    intro h1 h2 h3
    rw [heq, if_neg h1, if_neg (by simp [h2, h3])]
  refine ⟨⟨f, c, tachArgs.map TachVal.readIntVal⟩, rfl, rfl, ?_, ?_, ?_, ?_, hother, ?_⟩
  · rw [heq]
    split
    · rfl
    · split <;> rfl
  · intro h
    rw [heq, if_pos h]
  · intro h
    rw [heq, if_neg (ptr_tag_not_int retTy h), if_pos h]
    exact ⟨rfl, valToArray_length _ _⟩
  · intro hW h
    subst hW
    have hlow : (toBits 4 (native ⟨f, c, tachArgs.map TachVal.readIntVal⟩) + 4294967296 * high)
        % wordMod 4 = toBits 4 (native ⟨f, c, tachArgs.map TachVal.readIntVal⟩) := by
      have hlt := toBits_lt 4 (native ⟨f, c, tachArgs.map TachVal.readIntVal⟩)
      rw [wordMod_four] at hlt ⊢
      omega
    rw [heq, if_neg (ptr_tag_not_int retTy h), if_pos h, hlow]
    exact ⟨rfl, valToArray_length _ _, decode_encode_addr 4 _ (toBits_lt 4 _)⟩
  · intro hnul h1 h2 h3
    exact hother (fun h => h1 ((strcmpIsZero_iff_eq retTy "int" hnul (by decide)).mp h))
      (fun h => h2 ((strcmpIsZero_iff_eq retTy "void*" hnul (by decide)).mp h))
      (fun h => h3 ((strcmpIsZero_iff_eq retTy "char*" hnul (by decide)).mp h))

theorem callTachyonFFI_return_witness :
    (arrayToVal 4 [64, 161, 4, 8] = .ok 134521152 ∧ arrayToVal 4 [0, 0, 0, 0] = .ok 0 ∧
      wellTypedArgs 4 ["int"] [.number 5] ∧ [JSValue.number 5].length ≤ 6) ∧
    ∃ call : NativeCall, call.funcPtr = 134521152 ∧ call.ctxPtr = 0 ∧
      (callTachyonFFI 4 sampleNative 0 ["int"] "void*" [64, 161, 4, 8] [0, 0, 0, 0]
        [.number 5]).calls = [call] ∧
      ((4 : Nat) = 4 → strcmpIsZero "void*" "void*" ∨ strcmpIsZero "void*" "char*" →
        (callTachyonFFI 4 sampleNative 0 ["int"] "void*" [64, 161, 4, 8] [0, 0, 0, 0]
          [.number 5]).result = .ok (.array (valToArray 4 (toBits 4 (sampleNative call))))) :=
  have hw : wellTypedArgs 4 ["int"] [.number 5] :=
    wellTypedArgs_cons 4 "int" [] (.number 5) [] rfl (wellTypedArgs_nil 4 [])
  have h := callTachyonFFI_return 4 sampleNative 0 ["int"] "void*" [64, 161, 4, 8]
    [0, 0, 0, 0] [.number 5] 134521152 0 rfl rfl hw (by decide)
  ⟨⟨rfl, rfl, hw, by decide⟩,
    h.elim fun call hcall =>
      ⟨call, hcall.1, hcall.2.1, hcall.2.2.1, fun h4 hp => (hcall.2.2.2.2.2.1 h4 hp).1⟩⟩

/-! ## The visit hooks -/

/-- C19: for every object kind, every box `obj` and every heap `m`,
`visit_<kind>(obj)` leaves the heap unchanged and yields no references. -/
theorem visit_noop (m : Mem) (obj : Int) :
    visit_hashtbl m obj = (m, []) ∧ visit_obj m obj = (m, []) ∧
    visit_arrtbl m obj = (m, []) ∧ visit_arr m obj = (m, []) ∧
    visit_str m obj = (m, []) ∧ visit_strtbl m obj = (m, []) ∧
    visit_clos m obj = (m, []) ∧ visit_cell m obj = (m, []) ∧
    visit_memblock m obj = (m, []) :=
  ⟨rfl, rfl, rfl, rfl, rfl, rfl, rfl, rfl, rfl⟩

/-! ## Re-boxing -/

/-- C20: for every box `b` (aligned or not, any tag), re-boxing its parts gives
it back: `boxRef(unboxRef(b), getRefTag(b))` equals `b`, and `unboxRef(b)` is a
multiple of 8 with `getRefTag(b)` in 0..7. -/
theorem boxRef_unboxRef_getRefTag (W : Nat) (b : Int) (hW : 0 < W) (hb : isPint W b) :
    boxRef W (unboxRef W b) (getRefTag W b) = b ∧ unboxRef W b % 8 = 0 ∧
      0 ≤ getRefTag W b ∧ getRefTag W b ≤ 7 := by
  have hlt := toBits_lt W b
  have hge := wordMod_ge W hW
  have hu := unboxRef_eq W hW b
  have ht := getRefTag_eq W hW b
  refine ⟨?_, by omega, by omega, by omega⟩
  have htag : toBits W (getRefTag W b) = toBits W b % 8 := by
    rw [ht, toBits_of_nonneg_lt W _ (by omega) (by omega)]
    omega
  unfold boxRef pintOr castPint
  rw [toBits_toPint, htag, hu, Nat.mod_eq_of_lt (by omega),
    or_tag _ _ (Nat.mod_lt _ (by decide))]
  have hsum : 8 * (toBits W b / 8) + toBits W b % 8 = toBits W b := by omega
  rw [hsum]
  exact toPint_toBits W hW b hb

theorem boxRef_unboxRef_getRefTag_witness :
    (0 < 4 ∧ isPint 4 (-3)) ∧
      boxRef 4 (unboxRef 4 (-3)) (getRefTag 4 (-3)) = -3 ∧ unboxRef 4 (-3) % 8 = 0 ∧
      0 ≤ getRefTag 4 (-3) ∧ getRefTag 4 (-3) ≤ 7 :=
  ⟨by decide, boxRef_unboxRef_getRefTag 4 (-3) (by decide) (by decide)⟩


/-! ## Accessors by address -/

theorem fixed_offset (W : Nat) (p : Nat) (b : Int) :
    ptrAdd W p (pintAdd W 0 b) = ptrAdd W p b := by
  apply ptrAdd_congr
  have h := pintAdd_modEq W 0 b 0 b rfl rfl
  rw [Int.zero_add] at h
  exact h

theorem get_hashtbl_size_addr (W : Nat) (m : Mem) (obj : Int) :
    get_hashtbl_size W m obj = loadPint W m (ptrAdd W (unboxRef W obj) 4) := by
  unfold get_hashtbl_size
  simp only [fixed_offset]

theorem set_hashtbl_size_addr (W : Nat) (m : Mem) (obj : Int) (val : Int) :
    set_hashtbl_size W m obj val = storePint W m (ptrAdd W (unboxRef W obj) 4) val := by
  unfold set_hashtbl_size
  simp only [fixed_offset]

theorem get_obj_proto_addr (W : Nat) (m : Mem) (obj : Int) :
    get_obj_proto W m obj = loadPint W m (ptrAdd W (unboxRef W obj) 4) := by
  unfold get_obj_proto
  simp only [fixed_offset]

theorem set_obj_proto_addr (W : Nat) (m : Mem) (obj : Int) (val : Int) :
    set_obj_proto W m obj val = storePint W m (ptrAdd W (unboxRef W obj) 4) val := by
  unfold set_obj_proto
  simp only [fixed_offset]

theorem get_obj_tbl_addr (W : Nat) (m : Mem) (obj : Int) :
    get_obj_tbl W m obj = loadPint W m (ptrAdd W (unboxRef W obj) 8) := by
  unfold get_obj_tbl
  simp only [fixed_offset]

theorem set_obj_tbl_addr (W : Nat) (m : Mem) (obj : Int) (val : Int) :
    set_obj_tbl W m obj val = storePint W m (ptrAdd W (unboxRef W obj) 8) val := by
  unfold set_obj_tbl
  simp only [fixed_offset]

theorem get_arrtbl_size_addr (W : Nat) (m : Mem) (obj : Int) :
    get_arrtbl_size W m obj = loadPint W m (ptrAdd W (unboxRef W obj) 4) := by
  unfold get_arrtbl_size
  simp only [fixed_offset]

theorem set_arrtbl_size_addr (W : Nat) (m : Mem) (obj : Int) (val : Int) :
    set_arrtbl_size W m obj val = storePint W m (ptrAdd W (unboxRef W obj) 4) val := by
  unfold set_arrtbl_size
  simp only [fixed_offset]

theorem get_arr_proto_addr (W : Nat) (m : Mem) (obj : Int) :
    get_arr_proto W m obj = loadPint W m (ptrAdd W (unboxRef W obj) 4) := by
  unfold get_arr_proto
  simp only [fixed_offset]

theorem set_arr_proto_addr (W : Nat) (m : Mem) (obj : Int) (val : Int) :
    set_arr_proto W m obj val = storePint W m (ptrAdd W (unboxRef W obj) 4) val := by
  unfold set_arr_proto
  simp only [fixed_offset]

theorem get_arr_tbl_addr (W : Nat) (m : Mem) (obj : Int) :
    get_arr_tbl W m obj = loadPint W m (ptrAdd W (unboxRef W obj) 8) := by
  unfold get_arr_tbl
  simp only [fixed_offset]

theorem set_arr_tbl_addr (W : Nat) (m : Mem) (obj : Int) (val : Int) :
    set_arr_tbl W m obj val = storePint W m (ptrAdd W (unboxRef W obj) 8) val := by
  unfold set_arr_tbl
  simp only [fixed_offset]

theorem get_arr_arr_addr (W : Nat) (m : Mem) (obj : Int) :
    get_arr_arr W m obj = loadPint W m (ptrAdd W (unboxRef W obj) 16) := by
  unfold get_arr_arr
  simp only [fixed_offset]

theorem set_arr_arr_addr (W : Nat) (m : Mem) (obj : Int) (val : Int) :
    set_arr_arr W m obj val = storePint W m (ptrAdd W (unboxRef W obj) 16) val := by
  unfold set_arr_arr
  simp only [fixed_offset]

theorem get_str_size_addr (W : Nat) (m : Mem) (obj : Int) :
    get_str_size W m obj = loadPint W m (ptrAdd W (unboxRef W obj) 8) := by
  unfold get_str_size
  simp only [fixed_offset]

theorem set_str_size_addr (W : Nat) (m : Mem) (obj : Int) (val : Int) :
    set_str_size W m obj val = storePint W m (ptrAdd W (unboxRef W obj) 8) val := by
  unfold set_str_size
  simp only [fixed_offset]

theorem get_strtbl_size_addr (W : Nat) (m : Mem) (obj : Int) :
    get_strtbl_size W m obj = loadPint W m (ptrAdd W (unboxRef W obj) 8) := by
  unfold get_strtbl_size
  simp only [fixed_offset]

theorem set_strtbl_size_addr (W : Nat) (m : Mem) (obj : Int) (val : Int) :
    set_strtbl_size W m obj val = storePint W m (ptrAdd W (unboxRef W obj) 8) val := by
  unfold set_strtbl_size
  simp only [fixed_offset]

theorem get_clos_proto_addr (W : Nat) (m : Mem) (obj : Int) :
    get_clos_proto W m obj = loadPint W m (ptrAdd W (unboxRef W obj) 4) := by
  unfold get_clos_proto
  simp only [fixed_offset]

theorem set_clos_proto_addr (W : Nat) (m : Mem) (obj : Int) (val : Int) :
    set_clos_proto W m obj val = storePint W m (ptrAdd W (unboxRef W obj) 4) val := by
  unfold set_clos_proto
  simp only [fixed_offset]

theorem get_clos_tbl_addr (W : Nat) (m : Mem) (obj : Int) :
    get_clos_tbl W m obj = loadPint W m (ptrAdd W (unboxRef W obj) 8) := by
  unfold get_clos_tbl
  simp only [fixed_offset]

theorem set_clos_tbl_addr (W : Nat) (m : Mem) (obj : Int) (val : Int) :
    set_clos_tbl W m obj val = storePint W m (ptrAdd W (unboxRef W obj) 8) val := by
  unfold set_clos_tbl
  simp only [fixed_offset]

theorem get_clos_funcptr_addr (W : Nat) (m : Mem) (obj : Int) :
    get_clos_funcptr W m obj = loadPtr W m (ptrAdd W (unboxRef W obj) 16) := by
  unfold get_clos_funcptr
  simp only [fixed_offset]

theorem set_clos_funcptr_addr (W : Nat) (m : Mem) (obj : Int) (val : Nat) :
    set_clos_funcptr W m obj val = storePtr W m (ptrAdd W (unboxRef W obj) 16) val := by
  unfold set_clos_funcptr
  simp only [fixed_offset]

theorem get_clos_size_addr (W : Nat) (m : Mem) (obj : Int) :
    get_clos_size W m obj = loadPint W m (ptrAdd W (unboxRef W obj) 20) := by
  unfold get_clos_size
  simp only [fixed_offset]

theorem set_clos_size_addr (W : Nat) (m : Mem) (obj : Int) (val : Int) :
    set_clos_size W m obj val = storePint W m (ptrAdd W (unboxRef W obj) 20) val := by
  unfold set_clos_size
  simp only [fixed_offset]

theorem get_cell_val_addr (W : Nat) (m : Mem) (obj : Int) :
    get_cell_val W m obj = loadPint W m (ptrAdd W (unboxRef W obj) 4) := by
  unfold get_cell_val
  simp only [fixed_offset]

theorem set_cell_val_addr (W : Nat) (m : Mem) (obj : Int) (val : Int) :
    set_cell_val W m obj val = storePint W m (ptrAdd W (unboxRef W obj) 4) val := by
  unfold set_cell_val
  simp only [fixed_offset]

theorem get_memblock_ptr_addr (W : Nat) (m : Mem) (obj : Int) :
    get_memblock_ptr W m obj = loadPtr W m (ptrAdd W (unboxRef W obj) 4) := by
  unfold get_memblock_ptr
  simp only [fixed_offset]

theorem set_memblock_ptr_addr (W : Nat) (m : Mem) (obj : Int) (val : Nat) :
    set_memblock_ptr W m obj val = storePtr W m (ptrAdd W (unboxRef W obj) 4) val := by
  unfold set_memblock_ptr
  simp only [fixed_offset]

theorem get_hashtbl_tbl_key_addr (W : Nat) (m : Mem) (obj idx0 : Int) :
    get_hashtbl_tbl_key W m obj idx0 = loadPint W m (ptrAdd W (unboxRef W obj) (8 + 8 * idx0 + 0)) := by
  unfold get_hashtbl_tbl_key
  simp only [tail_offset3]

theorem set_hashtbl_tbl_key_addr (W : Nat) (m : Mem) (obj idx0 val : Int) :
    set_hashtbl_tbl_key W m obj idx0 val = storePint W m (ptrAdd W (unboxRef W obj) (8 + 8 * idx0 + 0)) val := by
  unfold set_hashtbl_tbl_key
  simp only [tail_offset3]

theorem get_hashtbl_tbl_val_addr (W : Nat) (m : Mem) (obj idx0 : Int) :
    get_hashtbl_tbl_val W m obj idx0 = loadPint W m (ptrAdd W (unboxRef W obj) (8 + 8 * idx0 + 4)) := by
  unfold get_hashtbl_tbl_val
  simp only [tail_offset3]

theorem set_hashtbl_tbl_val_addr (W : Nat) (m : Mem) (obj idx0 val : Int) :
    set_hashtbl_tbl_val W m obj idx0 val = storePint W m (ptrAdd W (unboxRef W obj) (8 + 8 * idx0 + 4)) val := by
  unfold set_hashtbl_tbl_val
  simp only [tail_offset3]

theorem get_arrtbl_tbl_addr (W : Nat) (m : Mem) (obj idx0 : Int) :
    get_arrtbl_tbl W m obj idx0 = loadPint W m (ptrAdd W (unboxRef W obj) (8 + 4 * idx0)) := by
  unfold get_arrtbl_tbl
  simp only [tail_offset2]

theorem set_arrtbl_tbl_addr (W : Nat) (m : Mem) (obj idx0 val : Int) :
    set_arrtbl_tbl W m obj idx0 val = storePint W m (ptrAdd W (unboxRef W obj) (8 + 4 * idx0)) val := by
  unfold set_arrtbl_tbl
  simp only [tail_offset2]

theorem get_strtbl_tbl_addr (W : Nat) (m : Mem) (obj idx0 : Int) :
    get_strtbl_tbl W m obj idx0 = loadPint W m (ptrAdd W (unboxRef W obj) (12 + 4 * idx0)) := by
  unfold get_strtbl_tbl
  simp only [tail_offset2]

theorem set_strtbl_tbl_addr (W : Nat) (m : Mem) (obj idx0 val : Int) :
    set_strtbl_tbl W m obj idx0 val = storePint W m (ptrAdd W (unboxRef W obj) (12 + 4 * idx0)) val := by
  unfold set_strtbl_tbl
  simp only [tail_offset2]

theorem get_clos_cells_addr (W : Nat) (m : Mem) (obj idx0 : Int) :
    get_clos_cells W m obj idx0 = loadPint W m (ptrAdd W (unboxRef W obj) (24 + 4 * idx0)) := by
  unfold get_clos_cells
  simp only [tail_offset2]

theorem set_clos_cells_addr (W : Nat) (m : Mem) (obj idx0 val : Int) :
    set_clos_cells W m obj idx0 val = storePint W m (ptrAdd W (unboxRef W obj) (24 + 4 * idx0)) val := by
  unfold set_clos_cells
  simp only [tail_offset2]

/-! ## Disjoint words with 4-byte words -/

theorem loadBytes_storeBytes_disjoint (k : Nat) (m : Mem) (a1 a2 n : Nat)
    (h : a2 + k ≤ a1 ∨ a1 + k ≤ a2) :
    loadBytes (storeBytes m a1 n k) a2 k = loadBytes m a2 k := by
  apply loadBytes_congr
  intro x hx1 hx2
  exact storeBytes_outside k m a1 n x (by omega)

theorem ptrAdd_four_disjoint (p : Nat) (o1 o2 : Int) (hp : p % 4 = 0) (h1 : o1 % 4 = 0)
    (h2 : o2 % 4 = 0) (hne : (o1 - o2) % 4294967296 ≠ 0) :
    ptrAdd 4 p o2 + 4 ≤ ptrAdd 4 p o1 ∨ ptrAdd 4 p o1 + 4 ≤ ptrAdd 4 p o2 := by
  unfold ptrAdd
  rw [wordMod_four]
  push_cast
  omega

theorem unboxRef_four_aligned (obj : Int) : unboxRef 4 obj % 4 = 0 := by
  rw [unboxRef_eq 4 (by decide)]
  omega

/-- With 4-byte words, a word written at offset `o1` of an object leaves the
word at offset `o2` as it was, when both offsets are multiples of 4 and differ
modulo `2 ^ 32`. -/
theorem frame_four (m : Mem) (obj : Int) (o1 o2 : Int) (n : Nat) (h1 : o1 % 4 = 0)
    (h2 : o2 % 4 = 0) (hne : (o1 - o2) % 4294967296 ≠ 0) :
    loadBytes (storeBytes m (ptrAdd 4 (unboxRef 4 obj) o1) n 4) (ptrAdd 4 (unboxRef 4 obj) o2) 4
      = loadBytes m (ptrAdd 4 (unboxRef 4 obj) o2) 4 :=
  loadBytes_storeBytes_disjoint 4 m _ _ n
    (ptrAdd_four_disjoint _ o1 o2 (unboxRef_four_aligned obj) h1 h2 hne)

/-! ## Dependence on the object argument -/

/-- C21: every accessor and size function depends on its object argument only
through `unboxRef`: for all boxes `b1`, `b2` with `unboxRef(b1) = unboxRef(b2)`
(same address, different tags), every getter and `sizeof_<kind>` returns the
same value on `b1` and `b2`, and every setter produces the same heap. -/
theorem accessors_depend_on_unboxRef (W : Nat) (m : Mem) (b1 b2 : Int) (v i : Int) (p : Nat)
    (h : unboxRef W b1 = unboxRef W b2) :
    get_hashtbl_size W m b1 = get_hashtbl_size W m b2 ∧
    set_hashtbl_size W m b1 v = set_hashtbl_size W m b2 v ∧
    get_obj_proto W m b1 = get_obj_proto W m b2 ∧
    set_obj_proto W m b1 v = set_obj_proto W m b2 v ∧
    get_obj_tbl W m b1 = get_obj_tbl W m b2 ∧
    set_obj_tbl W m b1 v = set_obj_tbl W m b2 v ∧
    get_arrtbl_size W m b1 = get_arrtbl_size W m b2 ∧
    set_arrtbl_size W m b1 v = set_arrtbl_size W m b2 v ∧
    get_arr_proto W m b1 = get_arr_proto W m b2 ∧
    set_arr_proto W m b1 v = set_arr_proto W m b2 v ∧
    get_arr_tbl W m b1 = get_arr_tbl W m b2 ∧
    set_arr_tbl W m b1 v = set_arr_tbl W m b2 v ∧
    get_arr_arr W m b1 = get_arr_arr W m b2 ∧
    set_arr_arr W m b1 v = set_arr_arr W m b2 v ∧
    get_str_size W m b1 = get_str_size W m b2 ∧
    set_str_size W m b1 v = set_str_size W m b2 v ∧
    get_strtbl_size W m b1 = get_strtbl_size W m b2 ∧
    set_strtbl_size W m b1 v = set_strtbl_size W m b2 v ∧
    get_clos_proto W m b1 = get_clos_proto W m b2 ∧
    set_clos_proto W m b1 v = set_clos_proto W m b2 v ∧
    get_clos_tbl W m b1 = get_clos_tbl W m b2 ∧
    set_clos_tbl W m b1 v = set_clos_tbl W m b2 v ∧
    get_clos_funcptr W m b1 = get_clos_funcptr W m b2 ∧
    set_clos_funcptr W m b1 p = set_clos_funcptr W m b2 p ∧
    get_clos_size W m b1 = get_clos_size W m b2 ∧
    set_clos_size W m b1 v = set_clos_size W m b2 v ∧
    get_cell_val W m b1 = get_cell_val W m b2 ∧
    set_cell_val W m b1 v = set_cell_val W m b2 v ∧
    get_memblock_ptr W m b1 = get_memblock_ptr W m b2 ∧
    set_memblock_ptr W m b1 p = set_memblock_ptr W m b2 p ∧
    get_hashtbl_tbl_key W m b1 i = get_hashtbl_tbl_key W m b2 i ∧
    set_hashtbl_tbl_key W m b1 i v = set_hashtbl_tbl_key W m b2 i v ∧
    get_hashtbl_tbl_val W m b1 i = get_hashtbl_tbl_val W m b2 i ∧
    set_hashtbl_tbl_val W m b1 i v = set_hashtbl_tbl_val W m b2 i v ∧
    get_arrtbl_tbl W m b1 i = get_arrtbl_tbl W m b2 i ∧
    set_arrtbl_tbl W m b1 i v = set_arrtbl_tbl W m b2 i v ∧
    get_strtbl_tbl W m b1 i = get_strtbl_tbl W m b2 i ∧
    set_strtbl_tbl W m b1 i v = set_strtbl_tbl W m b2 i v ∧
    get_clos_cells W m b1 i = get_clos_cells W m b2 i ∧
    set_clos_cells W m b1 i v = set_clos_cells W m b2 i v ∧
    sizeof_hashtbl W m b1 = sizeof_hashtbl W m b2 ∧
    sizeof_arrtbl W m b1 = sizeof_arrtbl W m b2 ∧
    sizeof_str W m b1 = sizeof_str W m b2 ∧
    sizeof_strtbl W m b1 = sizeof_strtbl W m b2 ∧
    sizeof_clos W m b1 = sizeof_clos W m b2 ∧
    sizeof_obj W b1 = sizeof_obj W b2 ∧
    sizeof_arr W b1 = sizeof_arr W b2 ∧
    sizeof_cell W b1 = sizeof_cell W b2 ∧
    sizeof_memblock W b1 = sizeof_memblock W b2 := by
  refine ⟨?_, ?_, ?_, ?_, ?_, ?_, ?_, ?_, ?_, ?_, ?_, ?_, ?_, ?_, ?_, ?_, ?_, ?_, ?_, ?_, ?_, ?_, ?_, ?_, ?_, ?_, ?_, ?_, ?_, ?_, ?_, ?_, ?_, ?_, ?_, ?_, ?_, ?_, ?_, ?_, ?_, ?_, ?_, ?_, ?_, ?_, ?_, ?_, ?_⟩
  · rw [get_hashtbl_size_addr, get_hashtbl_size_addr, h]
  · rw [set_hashtbl_size_addr, set_hashtbl_size_addr, h]
  · rw [get_obj_proto_addr, get_obj_proto_addr, h]
  · rw [set_obj_proto_addr, set_obj_proto_addr, h]
  · rw [get_obj_tbl_addr, get_obj_tbl_addr, h]
  · rw [set_obj_tbl_addr, set_obj_tbl_addr, h]
  · rw [get_arrtbl_size_addr, get_arrtbl_size_addr, h]
  · rw [set_arrtbl_size_addr, set_arrtbl_size_addr, h]
  · rw [get_arr_proto_addr, get_arr_proto_addr, h]
  · rw [set_arr_proto_addr, set_arr_proto_addr, h]
  · rw [get_arr_tbl_addr, get_arr_tbl_addr, h]
  · rw [set_arr_tbl_addr, set_arr_tbl_addr, h]
  · rw [get_arr_arr_addr, get_arr_arr_addr, h]
  · rw [set_arr_arr_addr, set_arr_arr_addr, h]
  · rw [get_str_size_addr, get_str_size_addr, h]
  · rw [set_str_size_addr, set_str_size_addr, h]
  · rw [get_strtbl_size_addr, get_strtbl_size_addr, h]
  · rw [set_strtbl_size_addr, set_strtbl_size_addr, h]
  · rw [get_clos_proto_addr, get_clos_proto_addr, h]
  · rw [set_clos_proto_addr, set_clos_proto_addr, h]
  · rw [get_clos_tbl_addr, get_clos_tbl_addr, h]
  · rw [set_clos_tbl_addr, set_clos_tbl_addr, h]
  · rw [get_clos_funcptr_addr, get_clos_funcptr_addr, h]
  · rw [set_clos_funcptr_addr, set_clos_funcptr_addr, h]
  · rw [get_clos_size_addr, get_clos_size_addr, h]
  · rw [set_clos_size_addr, set_clos_size_addr, h]
  · rw [get_cell_val_addr, get_cell_val_addr, h]
  · rw [set_cell_val_addr, set_cell_val_addr, h]
  · rw [get_memblock_ptr_addr, get_memblock_ptr_addr, h]
  · rw [set_memblock_ptr_addr, set_memblock_ptr_addr, h]
  · rw [get_hashtbl_tbl_key_addr, get_hashtbl_tbl_key_addr, h]
  · rw [set_hashtbl_tbl_key_addr, set_hashtbl_tbl_key_addr, h]
  · rw [get_hashtbl_tbl_val_addr, get_hashtbl_tbl_val_addr, h]
  · rw [set_hashtbl_tbl_val_addr, set_hashtbl_tbl_val_addr, h]
  · rw [get_arrtbl_tbl_addr, get_arrtbl_tbl_addr, h]
  · rw [set_arrtbl_tbl_addr, set_arrtbl_tbl_addr, h]
  · rw [get_strtbl_tbl_addr, get_strtbl_tbl_addr, h]
  · rw [set_strtbl_tbl_addr, set_strtbl_tbl_addr, h]
  · rw [get_clos_cells_addr, get_clos_cells_addr, h]
  · rw [set_clos_cells_addr, set_clos_cells_addr, h]
  · unfold sizeof_hashtbl
    rw [get_hashtbl_size_addr, get_hashtbl_size_addr, h]
  · unfold sizeof_arrtbl
    rw [get_arrtbl_size_addr, get_arrtbl_size_addr, h]
  · unfold sizeof_str
    rw [get_str_size_addr, get_str_size_addr, h]
  · unfold sizeof_strtbl
    rw [get_strtbl_size_addr, get_strtbl_size_addr, h]
  · unfold sizeof_clos
    rw [get_clos_size_addr, get_clos_size_addr, h]
  · rfl
  · rfl
  · rfl
  · rfl

theorem accessors_depend_on_unboxRef_witness :
    unboxRef 4 19 = unboxRef 4 21 ∧
    get_hashtbl_size 4 onesHeap 19 = get_hashtbl_size 4 onesHeap 21 ∧
    set_hashtbl_size 4 onesHeap 19 7 = set_hashtbl_size 4 onesHeap 21 7 ∧
    get_obj_proto 4 onesHeap 19 = get_obj_proto 4 onesHeap 21 ∧
    set_obj_proto 4 onesHeap 19 7 = set_obj_proto 4 onesHeap 21 7 ∧
    get_obj_tbl 4 onesHeap 19 = get_obj_tbl 4 onesHeap 21 ∧
    set_obj_tbl 4 onesHeap 19 7 = set_obj_tbl 4 onesHeap 21 7 ∧
    get_arrtbl_size 4 onesHeap 19 = get_arrtbl_size 4 onesHeap 21 ∧
    set_arrtbl_size 4 onesHeap 19 7 = set_arrtbl_size 4 onesHeap 21 7 ∧
    get_arr_proto 4 onesHeap 19 = get_arr_proto 4 onesHeap 21 ∧
    set_arr_proto 4 onesHeap 19 7 = set_arr_proto 4 onesHeap 21 7 ∧
    get_arr_tbl 4 onesHeap 19 = get_arr_tbl 4 onesHeap 21 ∧
    set_arr_tbl 4 onesHeap 19 7 = set_arr_tbl 4 onesHeap 21 7 ∧
    get_arr_arr 4 onesHeap 19 = get_arr_arr 4 onesHeap 21 ∧
    set_arr_arr 4 onesHeap 19 7 = set_arr_arr 4 onesHeap 21 7 ∧
    get_str_size 4 onesHeap 19 = get_str_size 4 onesHeap 21 ∧
    set_str_size 4 onesHeap 19 7 = set_str_size 4 onesHeap 21 7 ∧
    get_strtbl_size 4 onesHeap 19 = get_strtbl_size 4 onesHeap 21 ∧
    set_strtbl_size 4 onesHeap 19 7 = set_strtbl_size 4 onesHeap 21 7 ∧
    get_clos_proto 4 onesHeap 19 = get_clos_proto 4 onesHeap 21 ∧
    set_clos_proto 4 onesHeap 19 7 = set_clos_proto 4 onesHeap 21 7 ∧
    get_clos_tbl 4 onesHeap 19 = get_clos_tbl 4 onesHeap 21 ∧
    set_clos_tbl 4 onesHeap 19 7 = set_clos_tbl 4 onesHeap 21 7 ∧
    get_clos_funcptr 4 onesHeap 19 = get_clos_funcptr 4 onesHeap 21 ∧
    set_clos_funcptr 4 onesHeap 19 4096 = set_clos_funcptr 4 onesHeap 21 4096 ∧
    get_clos_size 4 onesHeap 19 = get_clos_size 4 onesHeap 21 ∧
    set_clos_size 4 onesHeap 19 7 = set_clos_size 4 onesHeap 21 7 ∧
    get_cell_val 4 onesHeap 19 = get_cell_val 4 onesHeap 21 ∧
    set_cell_val 4 onesHeap 19 7 = set_cell_val 4 onesHeap 21 7 ∧
    get_memblock_ptr 4 onesHeap 19 = get_memblock_ptr 4 onesHeap 21 ∧
    set_memblock_ptr 4 onesHeap 19 4096 = set_memblock_ptr 4 onesHeap 21 4096 ∧
    get_hashtbl_tbl_key 4 onesHeap 19 2 = get_hashtbl_tbl_key 4 onesHeap 21 2 ∧
    set_hashtbl_tbl_key 4 onesHeap 19 2 7 = set_hashtbl_tbl_key 4 onesHeap 21 2 7 ∧
    get_hashtbl_tbl_val 4 onesHeap 19 2 = get_hashtbl_tbl_val 4 onesHeap 21 2 ∧
    set_hashtbl_tbl_val 4 onesHeap 19 2 7 = set_hashtbl_tbl_val 4 onesHeap 21 2 7 ∧
    get_arrtbl_tbl 4 onesHeap 19 2 = get_arrtbl_tbl 4 onesHeap 21 2 ∧
    set_arrtbl_tbl 4 onesHeap 19 2 7 = set_arrtbl_tbl 4 onesHeap 21 2 7 ∧
    get_strtbl_tbl 4 onesHeap 19 2 = get_strtbl_tbl 4 onesHeap 21 2 ∧
    set_strtbl_tbl 4 onesHeap 19 2 7 = set_strtbl_tbl 4 onesHeap 21 2 7 ∧
    get_clos_cells 4 onesHeap 19 2 = get_clos_cells 4 onesHeap 21 2 ∧
    set_clos_cells 4 onesHeap 19 2 7 = set_clos_cells 4 onesHeap 21 2 7 ∧
    sizeof_hashtbl 4 onesHeap 19 = sizeof_hashtbl 4 onesHeap 21 ∧
    sizeof_arrtbl 4 onesHeap 19 = sizeof_arrtbl 4 onesHeap 21 ∧
    sizeof_str 4 onesHeap 19 = sizeof_str 4 onesHeap 21 ∧
    sizeof_strtbl 4 onesHeap 19 = sizeof_strtbl 4 onesHeap 21 ∧
    sizeof_clos 4 onesHeap 19 = sizeof_clos 4 onesHeap 21 ∧
    sizeof_obj 4 19 = sizeof_obj 4 21 ∧
    sizeof_arr 4 19 = sizeof_arr 4 21 ∧
    sizeof_cell 4 19 = sizeof_cell 4 21 ∧
    sizeof_memblock 4 19 = sizeof_memblock 4 21 :=
  ⟨by decide, accessors_depend_on_unboxRef 4 onesHeap 19 21 7 2 4096 (by decide)⟩


/-! ## Slots of one object with 4-byte words -/

/-- C22 (counterexample): with 4-byte words the tail elements 0 and `2 ^ 30` of
an arrtbl are the same word, `4 * 2 ^ 30` being 0 in native-word arithmetic:
writing element 0 changes what is read at index `2 ^ 30`. -/
theorem tail_elements_alias :
    (0 : Int) ≠ 1073741824 ∧ isPint 4 1073741824 ∧
    get_arrtbl_tbl 4 (set_arrtbl_tbl 4 zeroHeap 19 0 7) 19 1073741824 = 7 ∧
    get_arrtbl_tbl 4 zeroHeap 19 1073741824 = 0 := by
  decide

/-- C22 (amended): with 4-byte words, distinct slots of one object do not
overlap: within each kind, setting one fixed field leaves every other fixed
field of that object unchanged; setting tail element `i` leaves tail element `j`
unchanged for every `j` that is not congruent to `i` modulo `2 ^ 30` (modulo
`2 ^ 29` for hashtbl, whose stride is 8), in particular for all distinct `i`,
`j` from 0 up to `2 ^ 29 - 1`; and setting a hashtbl key leaves every hashtbl
value unchanged, the one at the same index included, and conversely. -/
theorem slots_do_not_overlap (m : Mem) (obj v i j : Int) (p : Nat) :
    get_obj_tbl 4 (set_obj_proto 4 m obj v) obj = get_obj_tbl 4 m obj ∧
    get_obj_proto 4 (set_obj_tbl 4 m obj v) obj = get_obj_proto 4 m obj ∧
    get_arr_tbl 4 (set_arr_proto 4 m obj v) obj = get_arr_tbl 4 m obj ∧
    get_arr_arr 4 (set_arr_proto 4 m obj v) obj = get_arr_arr 4 m obj ∧
    get_arr_proto 4 (set_arr_tbl 4 m obj v) obj = get_arr_proto 4 m obj ∧
    get_arr_arr 4 (set_arr_tbl 4 m obj v) obj = get_arr_arr 4 m obj ∧
    get_arr_proto 4 (set_arr_arr 4 m obj v) obj = get_arr_proto 4 m obj ∧
    get_arr_tbl 4 (set_arr_arr 4 m obj v) obj = get_arr_tbl 4 m obj ∧
    get_clos_tbl 4 (set_clos_proto 4 m obj v) obj = get_clos_tbl 4 m obj ∧
    get_clos_funcptr 4 (set_clos_proto 4 m obj v) obj = get_clos_funcptr 4 m obj ∧
    get_clos_size 4 (set_clos_proto 4 m obj v) obj = get_clos_size 4 m obj ∧
    get_clos_proto 4 (set_clos_tbl 4 m obj v) obj = get_clos_proto 4 m obj ∧
    get_clos_funcptr 4 (set_clos_tbl 4 m obj v) obj = get_clos_funcptr 4 m obj ∧
    get_clos_size 4 (set_clos_tbl 4 m obj v) obj = get_clos_size 4 m obj ∧
    get_clos_proto 4 (set_clos_funcptr 4 m obj p) obj = get_clos_proto 4 m obj ∧
    get_clos_tbl 4 (set_clos_funcptr 4 m obj p) obj = get_clos_tbl 4 m obj ∧
    get_clos_size 4 (set_clos_funcptr 4 m obj p) obj = get_clos_size 4 m obj ∧
    get_clos_proto 4 (set_clos_size 4 m obj v) obj = get_clos_proto 4 m obj ∧
    get_clos_tbl 4 (set_clos_size 4 m obj v) obj = get_clos_tbl 4 m obj ∧
    get_clos_funcptr 4 (set_clos_size 4 m obj v) obj = get_clos_funcptr 4 m obj ∧
    (i % 536870912 ≠ j % 536870912 →
      get_hashtbl_tbl_key 4 (set_hashtbl_tbl_key 4 m obj i v) obj j = get_hashtbl_tbl_key 4 m obj j) ∧
    (i % 536870912 ≠ j % 536870912 →
      get_hashtbl_tbl_val 4 (set_hashtbl_tbl_val 4 m obj i v) obj j = get_hashtbl_tbl_val 4 m obj j) ∧
    (i % 1073741824 ≠ j % 1073741824 →
      get_arrtbl_tbl 4 (set_arrtbl_tbl 4 m obj i v) obj j = get_arrtbl_tbl 4 m obj j) ∧
    (i % 1073741824 ≠ j % 1073741824 →
      get_strtbl_tbl 4 (set_strtbl_tbl 4 m obj i v) obj j = get_strtbl_tbl 4 m obj j) ∧
    (i % 1073741824 ≠ j % 1073741824 →
      get_clos_cells 4 (set_clos_cells 4 m obj i v) obj j = get_clos_cells 4 m obj j) ∧
    get_hashtbl_tbl_val 4 (set_hashtbl_tbl_key 4 m obj i v) obj j = get_hashtbl_tbl_val 4 m obj j ∧
    get_hashtbl_tbl_key 4 (set_hashtbl_tbl_val 4 m obj i v) obj j = get_hashtbl_tbl_key 4 m obj j ∧
    get_hashtbl_tbl_val 4 (set_hashtbl_tbl_key 4 m obj i v) obj i = get_hashtbl_tbl_val 4 m obj i ∧
    get_hashtbl_tbl_key 4 (set_hashtbl_tbl_val 4 m obj i v) obj i = get_hashtbl_tbl_key 4 m obj i ∧
    (i ≠ j → 0 ≤ i → i < 536870912 → 0 ≤ j → j < 536870912 →
      get_hashtbl_tbl_key 4 (set_hashtbl_tbl_key 4 m obj i v) obj j = get_hashtbl_tbl_key 4 m obj j ∧
      get_hashtbl_tbl_val 4 (set_hashtbl_tbl_val 4 m obj i v) obj j = get_hashtbl_tbl_val 4 m obj j ∧
      get_arrtbl_tbl 4 (set_arrtbl_tbl 4 m obj i v) obj j = get_arrtbl_tbl 4 m obj j ∧
      get_strtbl_tbl 4 (set_strtbl_tbl 4 m obj i v) obj j = get_strtbl_tbl 4 m obj j ∧
      get_clos_cells 4 (set_clos_cells 4 m obj i v) obj j = get_clos_cells 4 m obj j) := by
  have ht1 : i % 536870912 ≠ j % 536870912 →
      get_hashtbl_tbl_key 4 (set_hashtbl_tbl_key 4 m obj i v) obj j = get_hashtbl_tbl_key 4 m obj j := by
    intro hij
    simp only [get_hashtbl_tbl_key_addr, set_hashtbl_tbl_key_addr, loadPint, storePint]
    rw [frame_four m obj _ _ _ (by omega) (by omega) (by omega)]
  have ht2 : i % 536870912 ≠ j % 536870912 →
      get_hashtbl_tbl_val 4 (set_hashtbl_tbl_val 4 m obj i v) obj j = get_hashtbl_tbl_val 4 m obj j := by
    intro hij
    simp only [get_hashtbl_tbl_val_addr, set_hashtbl_tbl_val_addr, loadPint, storePint]
    rw [frame_four m obj _ _ _ (by omega) (by omega) (by omega)]
  have ht3 : i % 1073741824 ≠ j % 1073741824 →
      get_arrtbl_tbl 4 (set_arrtbl_tbl 4 m obj i v) obj j = get_arrtbl_tbl 4 m obj j := by
    intro hij
    simp only [get_arrtbl_tbl_addr, set_arrtbl_tbl_addr, loadPint, storePint]
    rw [frame_four m obj _ _ _ (by omega) (by omega) (by omega)]
  have ht4 : i % 1073741824 ≠ j % 1073741824 →
      get_strtbl_tbl 4 (set_strtbl_tbl 4 m obj i v) obj j = get_strtbl_tbl 4 m obj j := by
    intro hij
    simp only [get_strtbl_tbl_addr, set_strtbl_tbl_addr, loadPint, storePint]
    rw [frame_four m obj _ _ _ (by omega) (by omega) (by omega)]
  have ht5 : i % 1073741824 ≠ j % 1073741824 →
      get_clos_cells 4 (set_clos_cells 4 m obj i v) obj j = get_clos_cells 4 m obj j := by
    intro hij
    simp only [get_clos_cells_addr, set_clos_cells_addr, loadPint, storePint]
    rw [frame_four m obj _ _ _ (by omega) (by omega) (by omega)]
  refine ⟨?_, ?_, ?_, ?_, ?_, ?_, ?_, ?_, ?_, ?_, ?_, ?_, ?_, ?_, ?_, ?_, ?_, ?_, ?_, ?_, ?_, ?_, ?_, ?_, ?_, ?_, ?_, ?_, ?_, ?_⟩
  · simp only [get_obj_tbl_addr, set_obj_proto_addr, loadPint, storePint, loadPtr, storePtr]
    rw [frame_four m obj _ _ _ (by omega) (by omega) (by omega)]
  · simp only [get_obj_proto_addr, set_obj_tbl_addr, loadPint, storePint, loadPtr, storePtr]
    rw [frame_four m obj _ _ _ (by omega) (by omega) (by omega)]
  · simp only [get_arr_tbl_addr, set_arr_proto_addr, loadPint, storePint, loadPtr, storePtr]
    rw [frame_four m obj _ _ _ (by omega) (by omega) (by omega)]
  · simp only [get_arr_arr_addr, set_arr_proto_addr, loadPint, storePint, loadPtr, storePtr]
    rw [frame_four m obj _ _ _ (by omega) (by omega) (by omega)]
  · simp only [get_arr_proto_addr, set_arr_tbl_addr, loadPint, storePint, loadPtr, storePtr]
    rw [frame_four m obj _ _ _ (by omega) (by omega) (by omega)]
  · simp only [get_arr_arr_addr, set_arr_tbl_addr, loadPint, storePint, loadPtr, storePtr]
    rw [frame_four m obj _ _ _ (by omega) (by omega) (by omega)]
  · simp only [get_arr_proto_addr, set_arr_arr_addr, loadPint, storePint, loadPtr, storePtr]
    rw [frame_four m obj _ _ _ (by omega) (by omega) (by omega)]
  · simp only [get_arr_tbl_addr, set_arr_arr_addr, loadPint, storePint, loadPtr, storePtr]
    rw [frame_four m obj _ _ _ (by omega) (by omega) (by omega)]
  · simp only [get_clos_tbl_addr, set_clos_proto_addr, loadPint, storePint, loadPtr, storePtr]
    rw [frame_four m obj _ _ _ (by omega) (by omega) (by omega)]
  · simp only [get_clos_funcptr_addr, set_clos_proto_addr, loadPint, storePint, loadPtr, storePtr]
    rw [frame_four m obj _ _ _ (by omega) (by omega) (by omega)]
  · simp only [get_clos_size_addr, set_clos_proto_addr, loadPint, storePint, loadPtr, storePtr]
    rw [frame_four m obj _ _ _ (by omega) (by omega) (by omega)]
  · simp only [get_clos_proto_addr, set_clos_tbl_addr, loadPint, storePint, loadPtr, storePtr]
    rw [frame_four m obj _ _ _ (by omega) (by omega) (by omega)]
  · simp only [get_clos_funcptr_addr, set_clos_tbl_addr, loadPint, storePint, loadPtr, storePtr]
    rw [frame_four m obj _ _ _ (by omega) (by omega) (by omega)]
  · simp only [get_clos_size_addr, set_clos_tbl_addr, loadPint, storePint, loadPtr, storePtr]
    rw [frame_four m obj _ _ _ (by omega) (by omega) (by omega)]
  · simp only [get_clos_proto_addr, set_clos_funcptr_addr, loadPint, storePint, loadPtr, storePtr]
    rw [frame_four m obj _ _ _ (by omega) (by omega) (by omega)]
  · simp only [get_clos_tbl_addr, set_clos_funcptr_addr, loadPint, storePint, loadPtr, storePtr]
    rw [frame_four m obj _ _ _ (by omega) (by omega) (by omega)]
  · simp only [get_clos_size_addr, set_clos_funcptr_addr, loadPint, storePint, loadPtr, storePtr]
    rw [frame_four m obj _ _ _ (by omega) (by omega) (by omega)]
  · simp only [get_clos_proto_addr, set_clos_size_addr, loadPint, storePint, loadPtr, storePtr]
    rw [frame_four m obj _ _ _ (by omega) (by omega) (by omega)]
  · simp only [get_clos_tbl_addr, set_clos_size_addr, loadPint, storePint, loadPtr, storePtr]
    rw [frame_four m obj _ _ _ (by omega) (by omega) (by omega)]
  · simp only [get_clos_funcptr_addr, set_clos_size_addr, loadPint, storePint, loadPtr, storePtr]
    rw [frame_four m obj _ _ _ (by omega) (by omega) (by omega)]
  · exact ht1
  · exact ht2
  · exact ht3
  · exact ht4
  · exact ht5
  · simp only [get_hashtbl_tbl_val_addr, set_hashtbl_tbl_key_addr, loadPint, storePint]
    rw [frame_four m obj _ _ _ (by omega) (by omega) (by omega)]
  · simp only [get_hashtbl_tbl_key_addr, set_hashtbl_tbl_val_addr, loadPint, storePint]
    rw [frame_four m obj _ _ _ (by omega) (by omega) (by omega)]
  · simp only [get_hashtbl_tbl_val_addr, set_hashtbl_tbl_key_addr, loadPint, storePint]
    rw [frame_four m obj _ _ _ (by omega) (by omega) (by omega)]
  · simp only [get_hashtbl_tbl_key_addr, set_hashtbl_tbl_val_addr, loadPint, storePint]
    rw [frame_four m obj _ _ _ (by omega) (by omega) (by omega)]
  · intro hne hi0 hi1 hj0 hj1
    exact ⟨ht1 (by omega), ht2 (by omega), ht3 (by omega), ht4 (by omega), ht5 (by omega)⟩

theorem slots_do_not_overlap_witness :
    ((2 : Int) % 1073741824 ≠ 3 % 1073741824 ∧ (2 : Int) % 536870912 ≠ 3 % 536870912) ∧
    get_obj_tbl 4 (set_obj_proto 4 onesHeap 19 7) 19 = get_obj_tbl 4 onesHeap 19 ∧
    get_obj_proto 4 (set_obj_tbl 4 onesHeap 19 7) 19 = get_obj_proto 4 onesHeap 19 ∧
    get_arr_tbl 4 (set_arr_proto 4 onesHeap 19 7) 19 = get_arr_tbl 4 onesHeap 19 ∧
    get_arr_arr 4 (set_arr_proto 4 onesHeap 19 7) 19 = get_arr_arr 4 onesHeap 19 ∧
    get_arr_proto 4 (set_arr_tbl 4 onesHeap 19 7) 19 = get_arr_proto 4 onesHeap 19 ∧
    get_arr_arr 4 (set_arr_tbl 4 onesHeap 19 7) 19 = get_arr_arr 4 onesHeap 19 ∧
    get_arr_proto 4 (set_arr_arr 4 onesHeap 19 7) 19 = get_arr_proto 4 onesHeap 19 ∧
    get_arr_tbl 4 (set_arr_arr 4 onesHeap 19 7) 19 = get_arr_tbl 4 onesHeap 19 ∧
    get_clos_tbl 4 (set_clos_proto 4 onesHeap 19 7) 19 = get_clos_tbl 4 onesHeap 19 ∧
    get_clos_funcptr 4 (set_clos_proto 4 onesHeap 19 7) 19 = get_clos_funcptr 4 onesHeap 19 ∧
    get_clos_size 4 (set_clos_proto 4 onesHeap 19 7) 19 = get_clos_size 4 onesHeap 19 ∧
    get_clos_proto 4 (set_clos_tbl 4 onesHeap 19 7) 19 = get_clos_proto 4 onesHeap 19 ∧
    get_clos_funcptr 4 (set_clos_tbl 4 onesHeap 19 7) 19 = get_clos_funcptr 4 onesHeap 19 ∧
    get_clos_size 4 (set_clos_tbl 4 onesHeap 19 7) 19 = get_clos_size 4 onesHeap 19 ∧
    get_clos_proto 4 (set_clos_funcptr 4 onesHeap 19 4096) 19 = get_clos_proto 4 onesHeap 19 ∧
    get_clos_tbl 4 (set_clos_funcptr 4 onesHeap 19 4096) 19 = get_clos_tbl 4 onesHeap 19 ∧
    get_clos_size 4 (set_clos_funcptr 4 onesHeap 19 4096) 19 = get_clos_size 4 onesHeap 19 ∧
    get_clos_proto 4 (set_clos_size 4 onesHeap 19 7) 19 = get_clos_proto 4 onesHeap 19 ∧
    get_clos_tbl 4 (set_clos_size 4 onesHeap 19 7) 19 = get_clos_tbl 4 onesHeap 19 ∧
    get_clos_funcptr 4 (set_clos_size 4 onesHeap 19 7) 19 = get_clos_funcptr 4 onesHeap 19 ∧
    get_hashtbl_tbl_key 4 (set_hashtbl_tbl_key 4 onesHeap 19 2 7) 19 3 = get_hashtbl_tbl_key 4 onesHeap 19 3 ∧
    get_hashtbl_tbl_val 4 (set_hashtbl_tbl_val 4 onesHeap 19 2 7) 19 3 = get_hashtbl_tbl_val 4 onesHeap 19 3 ∧
    get_arrtbl_tbl 4 (set_arrtbl_tbl 4 onesHeap 19 2 7) 19 3 = get_arrtbl_tbl 4 onesHeap 19 3 ∧
    get_strtbl_tbl 4 (set_strtbl_tbl 4 onesHeap 19 2 7) 19 3 = get_strtbl_tbl 4 onesHeap 19 3 ∧
    get_clos_cells 4 (set_clos_cells 4 onesHeap 19 2 7) 19 3 = get_clos_cells 4 onesHeap 19 3 ∧
    get_hashtbl_tbl_val 4 (set_hashtbl_tbl_key 4 onesHeap 19 2 7) 19 3 = get_hashtbl_tbl_val 4 onesHeap obj j ∧
    get_hashtbl_tbl_key 4 (set_hashtbl_tbl_val 4 onesHeap 19 2 7) 19 3 = get_hashtbl_tbl_key 4 onesHeap obj j ∧
    get_hashtbl_tbl_val 4 (set_hashtbl_tbl_key 4 onesHeap 19 2 7) 19 2 = get_hashtbl_tbl_val 4 onesHeap obj i ∧
    get_hashtbl_tbl_key 4 (set_hashtbl_tbl_val 4 onesHeap 19 2 7) 19 2 = get_hashtbl_tbl_key 4 onesHeap obj i :=
  have h := slots_do_not_overlap onesHeap 19 7 2 3 4096
  ⟨by decide, h.1, h.2.1, h.2.2.1, h.2.2.2.1, h.2.2.2.2.1, h.2.2.2.2.2.1, h.2.2.2.2.2.2.1, h.2.2.2.2.2.2.2.1, h.2.2.2.2.2.2.2.2.1, h.2.2.2.2.2.2.2.2.2.1, h.2.2.2.2.2.2.2.2.2.2.1, h.2.2.2.2.2.2.2.2.2.2.2.1, h.2.2.2.2.2.2.2.2.2.2.2.2.1, h.2.2.2.2.2.2.2.2.2.2.2.2.2.1, h.2.2.2.2.2.2.2.2.2.2.2.2.2.2.1, h.2.2.2.2.2.2.2.2.2.2.2.2.2.2.2.1, h.2.2.2.2.2.2.2.2.2.2.2.2.2.2.2.2.1, h.2.2.2.2.2.2.2.2.2.2.2.2.2.2.2.2.2.1, h.2.2.2.2.2.2.2.2.2.2.2.2.2.2.2.2.2.2.1, h.2.2.2.2.2.2.2.2.2.2.2.2.2.2.2.2.2.2.2.1,
    h.2.2.2.2.2.2.2.2.2.2.2.2.2.2.2.2.2.2.2.2.1 (by decide), h.2.2.2.2.2.2.2.2.2.2.2.2.2.2.2.2.2.2.2.2.2.1 (by decide), h.2.2.2.2.2.2.2.2.2.2.2.2.2.2.2.2.2.2.2.2.2.2.1 (by decide), h.2.2.2.2.2.2.2.2.2.2.2.2.2.2.2.2.2.2.2.2.2.2.2.1 (by decide), h.2.2.2.2.2.2.2.2.2.2.2.2.2.2.2.2.2.2.2.2.2.2.2.2.1 (by decide),
    h.2.2.2.2.2.2.2.2.2.2.2.2.2.2.2.2.2.2.2.2.2.2.2.2.2.1, h.2.2.2.2.2.2.2.2.2.2.2.2.2.2.2.2.2.2.2.2.2.2.2.2.2.2.1, h.2.2.2.2.2.2.2.2.2.2.2.2.2.2.2.2.2.2.2.2.2.2.2.2.2.2.2.1, h.2.2.2.2.2.2.2.2.2.2.2.2.2.2.2.2.2.2.2.2.2.2.2.2.2.2.2.2.1⟩

/-! ## Extent of an object with 4-byte words -/

/-- C23 (counterexample): with 4-byte words and the stored count `2 ^ 29`, the
size of an arrtbl is `8 + 4 * 2 ^ 29` in native-word arithmetic, a negative
number: the word of element 0 does not lie below it. -/
theorem tail_word_outside_wrapped_size :
    (0 : Int) ≤ 536870912 ∧ isPint 4 536870912 ∧ (0 : Int) ≤ 0 ∧ (0 : Int) < 536870912 ∧
    get_arrtbl_size 4 (set_arrtbl_size 4 zeroHeap 19 536870912) 19 = 536870912 ∧
    sizeof_arrtbl 4 (set_arrtbl_size 4 zeroHeap 19 536870912) 19 = -2147483640 ∧
    ¬ (8 + 4 * 0 + 4 ≤ sizeof_arrtbl 4 (set_arrtbl_size 4 zeroHeap 19 536870912) 19) := by
  decide

/-- C23 (amended): with 4-byte words, for every variable-tail kind (hashtbl,
arrtbl, strtbl, clos), every stored count `n ≥ 0` for which
`baseSize + elementStride * n` fits the signed native word, and every index `i`
with `0 ≤ i < n`, the whole word accessed by the tail accessor lies inside the
object: `tailBaseOffset + elementStride * i + subFieldOffset + 4` is at most
`sizeof_<kind>(obj)`; and the fixed header fields lie below `baseSize`. -/
theorem tail_word_inside_object (m : Mem) (obj n i v : Int) (_hn : 0 ≤ n) (hi0 : 0 ≤ i)
    (hin : i < n) :
    (get_hashtbl_size 4 m obj = n → isPint 4 (8 + 8 * n) →
      get_hashtbl_tbl_key 4 m obj i = loadPint 4 m (ptrAdd 4 (unboxRef 4 obj) (8 + 8 * i + 0)) ∧
      set_hashtbl_tbl_key 4 m obj i v = storePint 4 m (ptrAdd 4 (unboxRef 4 obj) (8 + 8 * i + 0)) v ∧
      (0 ≤ 8 + 8 * i + 0 ∧ 8 + 8 * i + 0 + 4 ≤ sizeof_hashtbl 4 m obj) ∧
      get_hashtbl_tbl_val 4 m obj i = loadPint 4 m (ptrAdd 4 (unboxRef 4 obj) (8 + 8 * i + 4)) ∧
      set_hashtbl_tbl_val 4 m obj i v = storePint 4 m (ptrAdd 4 (unboxRef 4 obj) (8 + 8 * i + 4)) v ∧
      (0 ≤ 8 + 8 * i + 4 ∧ 8 + 8 * i + 4 + 4 ≤ sizeof_hashtbl 4 m obj)) ∧
    (get_arrtbl_size 4 m obj = n → isPint 4 (8 + 4 * n) →
      get_arrtbl_tbl 4 m obj i = loadPint 4 m (ptrAdd 4 (unboxRef 4 obj) (8 + 4 * i)) ∧
      set_arrtbl_tbl 4 m obj i v = storePint 4 m (ptrAdd 4 (unboxRef 4 obj) (8 + 4 * i)) v ∧
      (0 ≤ 8 + 4 * i ∧ 8 + 4 * i + 4 ≤ sizeof_arrtbl 4 m obj)) ∧
    (get_strtbl_size 4 m obj = n → isPint 4 (12 + 4 * n) →
      get_strtbl_tbl 4 m obj i = loadPint 4 m (ptrAdd 4 (unboxRef 4 obj) (12 + 4 * i)) ∧
      set_strtbl_tbl 4 m obj i v = storePint 4 m (ptrAdd 4 (unboxRef 4 obj) (12 + 4 * i)) v ∧
      (0 ≤ 12 + 4 * i ∧ 12 + 4 * i + 4 ≤ sizeof_strtbl 4 m obj)) ∧
    (get_clos_size 4 m obj = n → isPint 4 (24 + 4 * n) →
      get_clos_cells 4 m obj i = loadPint 4 m (ptrAdd 4 (unboxRef 4 obj) (24 + 4 * i)) ∧
      set_clos_cells 4 m obj i v = storePint 4 m (ptrAdd 4 (unboxRef 4 obj) (24 + 4 * i)) v ∧
      (0 ≤ 24 + 4 * i ∧ 24 + 4 * i + 4 ≤ sizeof_clos 4 m obj)) ∧
    (get_hashtbl_size 4 m obj = loadPint 4 m (ptrAdd 4 (unboxRef 4 obj) 4) ∧
      4 + 4 ≤ comp_size_hashtbl 4 0) ∧
    (get_arrtbl_size 4 m obj = loadPint 4 m (ptrAdd 4 (unboxRef 4 obj) 4) ∧
      4 + 4 ≤ comp_size_arrtbl 4 0) ∧
    (get_strtbl_size 4 m obj = loadPint 4 m (ptrAdd 4 (unboxRef 4 obj) 8) ∧
      8 + 4 ≤ comp_size_strtbl 4 0) ∧
    (get_clos_proto 4 m obj = loadPint 4 m (ptrAdd 4 (unboxRef 4 obj) 4) ∧
      4 + 4 ≤ comp_size_clos 4 0) ∧
    (get_clos_tbl 4 m obj = loadPint 4 m (ptrAdd 4 (unboxRef 4 obj) 8) ∧
      8 + 4 ≤ comp_size_clos 4 0) ∧
    (get_clos_funcptr 4 m obj = loadPtr 4 m (ptrAdd 4 (unboxRef 4 obj) 16) ∧
      16 + 4 ≤ comp_size_clos 4 0) ∧
    (get_clos_size 4 m obj = loadPint 4 m (ptrAdd 4 (unboxRef 4 obj) 20) ∧
      20 + 4 ≤ comp_size_clos 4 0) := by
  refine ⟨?_, ?_, ?_, ?_, ?_, ?_, ?_, ?_, ?_, ?_, ?_⟩
  · intro hcount hfit
    have hsz : sizeof_hashtbl 4 m obj = 8 + 8 * n := by
      unfold sizeof_hashtbl comp_size_hashtbl
      simp only [hcount, pintAdd_pintMul]
      exact wrapPint_of_isPint 4 (by decide) _ hfit
    rw [hsz]
    refine ⟨?_, ?_, ?_, ?_, ?_, ?_⟩
    · exact get_hashtbl_tbl_key_addr 4 m obj i
    · exact set_hashtbl_tbl_key_addr 4 m obj i v
    · omega
    · exact get_hashtbl_tbl_val_addr 4 m obj i
    · exact set_hashtbl_tbl_val_addr 4 m obj i v
    · omega
  · intro hcount hfit
    have hsz : sizeof_arrtbl 4 m obj = 8 + 4 * n := by
      unfold sizeof_arrtbl comp_size_arrtbl
      simp only [hcount, pintAdd_pintMul]
      exact wrapPint_of_isPint 4 (by decide) _ hfit
    rw [hsz]
    refine ⟨?_, ?_, ?_⟩
    · exact get_arrtbl_tbl_addr 4 m obj i
    · exact set_arrtbl_tbl_addr 4 m obj i v
    · omega
  · intro hcount hfit
    have hsz : sizeof_strtbl 4 m obj = 12 + 4 * n := by
      unfold sizeof_strtbl comp_size_strtbl
      simp only [hcount, pintAdd_pintMul]
      exact wrapPint_of_isPint 4 (by decide) _ hfit
    rw [hsz]
    refine ⟨?_, ?_, ?_⟩
    · exact get_strtbl_tbl_addr 4 m obj i
    · exact set_strtbl_tbl_addr 4 m obj i v
    · omega
  · intro hcount hfit
    have hsz : sizeof_clos 4 m obj = 24 + 4 * n := by
      unfold sizeof_clos comp_size_clos
      simp only [hcount, pintAdd_pintMul]
      exact wrapPint_of_isPint 4 (by decide) _ hfit
    rw [hsz]
    refine ⟨?_, ?_, ?_⟩
    · exact get_clos_cells_addr 4 m obj i
    · exact set_clos_cells_addr 4 m obj i v
    · omega
  · exact ⟨get_hashtbl_size_addr 4 m obj, by decide⟩
  · exact ⟨get_arrtbl_size_addr 4 m obj, by decide⟩
  · exact ⟨get_strtbl_size_addr 4 m obj, by decide⟩
  · exact ⟨get_clos_proto_addr 4 m obj, by decide⟩
  · exact ⟨get_clos_tbl_addr 4 m obj, by decide⟩
  · exact ⟨get_clos_funcptr_addr 4 m obj, by decide⟩
  · exact ⟨get_clos_size_addr 4 m obj, by decide⟩

theorem tail_word_inside_object_witness :
    ((0 : Int) ≤ 16843009 ∧ (0 : Int) ≤ 2 ∧ (2 : Int) < 16843009 ∧
      get_hashtbl_size 4 onesHeap 19 = 16843009 ∧ isPint 4 (8 + 8 * 16843009) ∧
      get_arrtbl_size 4 onesHeap 19 = 16843009 ∧ isPint 4 (8 + 4 * 16843009) ∧
      get_strtbl_size 4 onesHeap 19 = 16843009 ∧ isPint 4 (12 + 4 * 16843009) ∧
      get_clos_size 4 onesHeap 19 = 16843009 ∧ isPint 4 (24 + 4 * 16843009)) ∧
    (get_hashtbl_tbl_key 4 onesHeap 19 2 = loadPint 4 onesHeap (ptrAdd 4 (unboxRef 4 19) (8 + 8 * 2 + 0)) ∧
      set_hashtbl_tbl_key 4 onesHeap 19 2 7 = storePint 4 onesHeap (ptrAdd 4 (unboxRef 4 19) (8 + 8 * 2 + 0)) 7 ∧
      ((0 : Int) ≤ 8 + 8 * 2 + 0 ∧ 8 + 8 * 2 + 0 + 4 ≤ sizeof_hashtbl 4 onesHeap 19) ∧
      get_hashtbl_tbl_val 4 onesHeap 19 2 = loadPint 4 onesHeap (ptrAdd 4 (unboxRef 4 19) (8 + 8 * 2 + 4)) ∧
      set_hashtbl_tbl_val 4 onesHeap 19 2 7 = storePint 4 onesHeap (ptrAdd 4 (unboxRef 4 19) (8 + 8 * 2 + 4)) 7 ∧
      ((0 : Int) ≤ 8 + 8 * 2 + 4 ∧ 8 + 8 * 2 + 4 + 4 ≤ sizeof_hashtbl 4 onesHeap 19)) ∧
    (get_arrtbl_tbl 4 onesHeap 19 2 = loadPint 4 onesHeap (ptrAdd 4 (unboxRef 4 19) (8 + 4 * 2)) ∧
      set_arrtbl_tbl 4 onesHeap 19 2 7 = storePint 4 onesHeap (ptrAdd 4 (unboxRef 4 19) (8 + 4 * 2)) 7 ∧
      ((0 : Int) ≤ 8 + 4 * 2 ∧ 8 + 4 * 2 + 4 ≤ sizeof_arrtbl 4 onesHeap 19)) ∧
    (get_strtbl_tbl 4 onesHeap 19 2 = loadPint 4 onesHeap (ptrAdd 4 (unboxRef 4 19) (12 + 4 * 2)) ∧
      set_strtbl_tbl 4 onesHeap 19 2 7 = storePint 4 onesHeap (ptrAdd 4 (unboxRef 4 19) (12 + 4 * 2)) 7 ∧
      ((0 : Int) ≤ 12 + 4 * 2 ∧ 12 + 4 * 2 + 4 ≤ sizeof_strtbl 4 onesHeap 19)) ∧
    (get_clos_cells 4 onesHeap 19 2 = loadPint 4 onesHeap (ptrAdd 4 (unboxRef 4 19) (24 + 4 * 2)) ∧
      set_clos_cells 4 onesHeap 19 2 7 = storePint 4 onesHeap (ptrAdd 4 (unboxRef 4 19) (24 + 4 * 2)) 7 ∧
      ((0 : Int) ≤ 24 + 4 * 2 ∧ 24 + 4 * 2 + 4 ≤ sizeof_clos 4 onesHeap 19)) ∧
    (get_hashtbl_size 4 onesHeap 19 = loadPint 4 onesHeap (ptrAdd 4 (unboxRef 4 19) 4) ∧
      4 + 4 ≤ comp_size_hashtbl 4 0) ∧
    (get_arrtbl_size 4 onesHeap 19 = loadPint 4 onesHeap (ptrAdd 4 (unboxRef 4 19) 4) ∧
      4 + 4 ≤ comp_size_arrtbl 4 0) ∧
    (get_strtbl_size 4 onesHeap 19 = loadPint 4 onesHeap (ptrAdd 4 (unboxRef 4 19) 8) ∧
      8 + 4 ≤ comp_size_strtbl 4 0) ∧
    (get_clos_proto 4 onesHeap 19 = loadPint 4 onesHeap (ptrAdd 4 (unboxRef 4 19) 4) ∧
      4 + 4 ≤ comp_size_clos 4 0) ∧
    (get_clos_tbl 4 onesHeap 19 = loadPint 4 onesHeap (ptrAdd 4 (unboxRef 4 19) 8) ∧
      8 + 4 ≤ comp_size_clos 4 0) ∧
    (get_clos_funcptr 4 onesHeap 19 = loadPtr 4 onesHeap (ptrAdd 4 (unboxRef 4 19) 16) ∧
      16 + 4 ≤ comp_size_clos 4 0) ∧
    (get_clos_size 4 onesHeap 19 = loadPint 4 onesHeap (ptrAdd 4 (unboxRef 4 19) 20) ∧
      20 + 4 ≤ comp_size_clos 4 0) :=
  have h := tail_word_inside_object onesHeap 19 16843009 2 7 (by decide) (by decide) (by decide)
  ⟨by decide, h.1 (by decide) (by decide), h.2.1 (by decide) (by decide),
    h.2.2.1 (by decide) (by decide), h.2.2.2.1 (by decide) (by decide), h.2.2.2.2⟩


/-! ## The count field under tail writes, with 4-byte words -/

/-- C24 (counterexample): with 4-byte words the index `2 ^ 30 - 1` is not
negative and `set_arrtbl_tbl` at that index writes the count field, the offset
`8 + 4 * (2 ^ 30 - 1)` being 4 in native-word arithmetic: the count and the
size of the object change. -/
theorem tail_write_changes_count :
    (0 : Int) ≤ 1073741823 ∧ isPint 4 1073741823 ∧
    get_arrtbl_size 4 zeroHeap 19 = 0 ∧
    get_arrtbl_size 4 (set_arrtbl_tbl 4 zeroHeap 19 1073741823 7) 19 = 7 ∧
    sizeof_arrtbl 4 zeroHeap 19 = 8 ∧
    sizeof_arrtbl 4 (set_arrtbl_tbl 4 zeroHeap 19 1073741823 7) 19 = 36 := by
  decide

/-- C24 (amended): with 4-byte words, writing a tail element at an index `i ≥ 0`
never changes the count field of the object, so `sizeof_<kind>(obj)` is the
same before and after `set_hashtbl_tbl_key`, `set_hashtbl_tbl_val`,
`set_arrtbl_tbl`, `set_strtbl_tbl` and `set_clos_cells`, provided `i` is not
congruent to -1 modulo `2 ^ 30` (modulo `2 ^ 29` for `set_hashtbl_tbl_val`; no
proviso for `set_hashtbl_tbl_key`), which holds for every `i` from 0 up to
`2 ^ 29 - 2`; for a negative index this can fail: `set_arrtbl_tbl(obj, -1, v)`
overwrites the size field. -/
theorem tail_write_keeps_count (m : Mem) (obj i v : Int) (hi0 : 0 ≤ i) :
    (get_hashtbl_size 4 (set_hashtbl_tbl_key 4 m obj i v) obj = get_hashtbl_size 4 m obj ∧
      sizeof_hashtbl 4 (set_hashtbl_tbl_key 4 m obj i v) obj = sizeof_hashtbl 4 m obj) ∧
    ((i + 1) % 536870912 ≠ 0 →
      get_hashtbl_size 4 (set_hashtbl_tbl_val 4 m obj i v) obj = get_hashtbl_size 4 m obj ∧
      sizeof_hashtbl 4 (set_hashtbl_tbl_val 4 m obj i v) obj = sizeof_hashtbl 4 m obj) ∧
    ((i + 1) % 1073741824 ≠ 0 →
      get_arrtbl_size 4 (set_arrtbl_tbl 4 m obj i v) obj = get_arrtbl_size 4 m obj ∧
      sizeof_arrtbl 4 (set_arrtbl_tbl 4 m obj i v) obj = sizeof_arrtbl 4 m obj) ∧
    ((i + 1) % 1073741824 ≠ 0 →
      get_strtbl_size 4 (set_strtbl_tbl 4 m obj i v) obj = get_strtbl_size 4 m obj ∧
      sizeof_strtbl 4 (set_strtbl_tbl 4 m obj i v) obj = sizeof_strtbl 4 m obj) ∧
    ((i + 1) % 1073741824 ≠ 0 →
      get_clos_size 4 (set_clos_cells 4 m obj i v) obj = get_clos_size 4 m obj ∧
      sizeof_clos 4 (set_clos_cells 4 m obj i v) obj = sizeof_clos 4 m obj) ∧
    (i < 536870911 → (i + 1) % 536870912 ≠ 0 ∧ (i + 1) % 1073741824 ≠ 0) ∧
    (get_arrtbl_size 4 zeroHeap 19 = 0 ∧
      get_arrtbl_size 4 (set_arrtbl_tbl 4 zeroHeap 19 (-1) 7) 19 = 7) := by
  refine ⟨?_, ?_, ?_, ?_, ?_, ?_, by decide⟩
  · have hcount : get_hashtbl_size 4 (set_hashtbl_tbl_key 4 m obj i v) obj = get_hashtbl_size 4 m obj := by
      simp only [get_hashtbl_size_addr, set_hashtbl_tbl_key_addr, loadPint, storePint]
      rw [frame_four m obj _ _ _ (by omega) (by omega) (by omega)]
    refine ⟨hcount, ?_⟩
    unfold sizeof_hashtbl
    rw [hcount]
  · intro hi
    have hcount : get_hashtbl_size 4 (set_hashtbl_tbl_val 4 m obj i v) obj = get_hashtbl_size 4 m obj := by
      simp only [get_hashtbl_size_addr, set_hashtbl_tbl_val_addr, loadPint, storePint]
      rw [frame_four m obj _ _ _ (by omega) (by omega) (by omega)]
    refine ⟨hcount, ?_⟩
    unfold sizeof_hashtbl
    rw [hcount]
  · intro hi
    have hcount : get_arrtbl_size 4 (set_arrtbl_tbl 4 m obj i v) obj = get_arrtbl_size 4 m obj := by
      simp only [get_arrtbl_size_addr, set_arrtbl_tbl_addr, loadPint, storePint]
      rw [frame_four m obj _ _ _ (by omega) (by omega) (by omega)]
    refine ⟨hcount, ?_⟩
    unfold sizeof_arrtbl
    rw [hcount]
  · intro hi
    have hcount : get_strtbl_size 4 (set_strtbl_tbl 4 m obj i v) obj = get_strtbl_size 4 m obj := by
      simp only [get_strtbl_size_addr, set_strtbl_tbl_addr, loadPint, storePint]
      rw [frame_four m obj _ _ _ (by omega) (by omega) (by omega)]
    refine ⟨hcount, ?_⟩
    unfold sizeof_strtbl
    rw [hcount]
  · intro hi
    have hcount : get_clos_size 4 (set_clos_cells 4 m obj i v) obj = get_clos_size 4 m obj := by
      simp only [get_clos_size_addr, set_clos_cells_addr, loadPint, storePint]
      rw [frame_four m obj _ _ _ (by omega) (by omega) (by omega)]
    refine ⟨hcount, ?_⟩
    unfold sizeof_clos
    rw [hcount]
  · intro h
    omega

theorem tail_write_keeps_count_witness :
    ((0 : Int) ≤ 2 ∧ ((2 : Int) + 1) % 536870912 ≠ 0 ∧ ((2 : Int) + 1) % 1073741824 ≠ 0) ∧
    (get_hashtbl_size 4 (set_hashtbl_tbl_key 4 onesHeap 19 2 7) 19 = get_hashtbl_size 4 onesHeap 19 ∧
      sizeof_hashtbl 4 (set_hashtbl_tbl_key 4 onesHeap 19 2 7) 19 = sizeof_hashtbl 4 onesHeap 19) ∧
    (get_hashtbl_size 4 (set_hashtbl_tbl_val 4 onesHeap 19 2 7) 19 = get_hashtbl_size 4 onesHeap 19 ∧
      sizeof_hashtbl 4 (set_hashtbl_tbl_val 4 onesHeap 19 2 7) 19 = sizeof_hashtbl 4 onesHeap 19) ∧
    (get_arrtbl_size 4 (set_arrtbl_tbl 4 onesHeap 19 2 7) 19 = get_arrtbl_size 4 onesHeap 19 ∧
      sizeof_arrtbl 4 (set_arrtbl_tbl 4 onesHeap 19 2 7) 19 = sizeof_arrtbl 4 onesHeap 19) ∧
    (get_strtbl_size 4 (set_strtbl_tbl 4 onesHeap 19 2 7) 19 = get_strtbl_size 4 onesHeap 19 ∧
      sizeof_strtbl 4 (set_strtbl_tbl 4 onesHeap 19 2 7) 19 = sizeof_strtbl 4 onesHeap 19) ∧
    (get_clos_size 4 (set_clos_cells 4 onesHeap 19 2 7) 19 = get_clos_size 4 onesHeap 19 ∧
      sizeof_clos 4 (set_clos_cells 4 onesHeap 19 2 7) 19 = sizeof_clos 4 onesHeap 19) :=
  have h := tail_write_keeps_count onesHeap 19 2 7 (by decide)
  ⟨by decide, h.1, h.2.1 (by decide), h.2.2.1 (by decide), h.2.2.2.1 (by decide),
    h.2.2.2.2.1 (by decide)⟩

/-! ## The return type of the bridge -/

/-- C25 (counterexample): the return tag made of "char*", a NUL character and
the letter x is none of "int", "void*", "char*", and the call does not fail: the
native function is invoked and the pointer array is returned. -/
theorem return_tag_nul_suffixed_not_rejected :
    nulSuffixed "char*" ≠ "int" ∧ nulSuffixed "char*" ≠ "void*" ∧
    nulSuffixed "char*" ≠ "char*" ∧
    callTachyonFFI 4 sampleNative 0 ["int"] (nulSuffixed "char*") [64, 161, 4, 8] [0, 0, 0, 0]
        [.number 5]
      = ⟨[⟨134521152, 0, [5]⟩], .ok (.array [5, 0, 0, 0])⟩ :=
  ⟨by decide, by decide, by decide, rfl⟩

/-- C25 (amended): in `callTachyonFFI` the return-type tag is validated only
after the dispatch: for every call with 0 to 6 well-typed arguments and a
return-type tag that, read as a C string (its characters up to the first NUL
character), is none of "int", "void*", "char*", the native function is invoked
exactly once before the call fails with the unsupported-return-type error.  For
a tag without NUL character the tag itself is compared. -/
theorem return_type_checked_after_call (W : Nat) (native : NativeCall → Int)
    (high : Nat) (types : List String) (retTy : String) (funcArr ctxArr : List Int)
    (rest : List JSValue) (f c : Nat) (hf : arrayToVal W funcArr = .ok f)
    (hc : arrayToVal W ctxArr = .ok c) (hwt : wellTypedArgs W types rest)
    (hn : rest.length ≤ 6) :
    (¬ strcmpIsZero retTy "int" → ¬ strcmpIsZero retTy "void*" →
      ¬ strcmpIsZero retTy "char*" →
      ∃ passed, passed.length = rest.length ∧
        callTachyonFFI W native high types retTy funcArr ctxArr rest
          = ⟨[⟨f, c, passed⟩], .error (.unsupportedReturnType retTy)⟩) ∧
    (Char.ofNat 0 ∉ retTy.toList → retTy ≠ "int" → retTy ≠ "void*" → retTy ≠ "char*" →
      ∃ passed, passed.length = rest.length ∧
        callTachyonFFI W native high types retTy funcArr ctxArr rest
          = ⟨[⟨f, c, passed⟩], .error (.unsupportedReturnType retTy)⟩) := by
  obtain ⟨tachArgs, hm⟩ := marshalArgs_of_wellTypedArgs W types rest hwt
  have hmain : ¬ strcmpIsZero retTy "int" → ¬ strcmpIsZero retTy "void*" →
      ¬ strcmpIsZero retTy "char*" →
      ∃ passed, passed.length = rest.length ∧
        callTachyonFFI W native high types retTy funcArr ctxArr rest
          = ⟨[⟨f, c, passed⟩], .error (.unsupportedReturnType retTy)⟩ := by
    intro h1 h2 h3
    refine ⟨tachArgs.map TachVal.readIntVal, ?_, ?_⟩
    · rw [List.length_map]
      exact marshalArgs_length W types rest 0 tachArgs hm
    · rw [callTachyonFFI_call W native high types retTy funcArr ctxArr rest f c tachArgs
        hf hc hm hn, if_neg h1, if_neg (by simp [h2, h3])]
  refine ⟨hmain, ?_⟩
  intro hnul h1 h2 h3
  exact hmain (fun h => h1 ((strcmpIsZero_iff_eq retTy "int" hnul (by decide)).mp h))
    (fun h => h2 ((strcmpIsZero_iff_eq retTy "void*" hnul (by decide)).mp h))
    (fun h => h3 ((strcmpIsZero_iff_eq retTy "char*" hnul (by decide)).mp h))

theorem return_type_checked_after_call_witness :
    (arrayToVal 4 [64, 161, 4, 8] = .ok 134521152 ∧ arrayToVal 4 [0, 0, 0, 0] = .ok 0 ∧
      wellTypedArgs 4 ["int"] [.number 5] ∧ [JSValue.number 5].length ≤ 6 ∧
      Char.ofNat 0 ∉ "float".toList ∧ "float" ≠ "int" ∧ "float" ≠ "void*" ∧
      "float" ≠ "char*") ∧
    ∃ passed, passed.length = [JSValue.number 5].length ∧
      callTachyonFFI 4 sampleNative 0 ["int"] "float" [64, 161, 4, 8] [0, 0, 0, 0] [.number 5]
        = ⟨[⟨134521152, 0, passed⟩], .error (.unsupportedReturnType "float")⟩ :=
  have hw : wellTypedArgs 4 ["int"] [.number 5] :=
    wellTypedArgs_cons 4 "int" [] (.number 5) [] rfl (wellTypedArgs_nil 4 [])
  ⟨⟨rfl, rfl, hw, by decide, by decide, by decide, by decide, by decide⟩,
    (return_type_checked_after_call 4 sampleNative 0 ["int"] "float" [64, 161, 4, 8]
      [0, 0, 0, 0] [.number 5] 134521152 0 rfl rfl hw (by decide)).2 (by decide) (by decide)
      (by decide) (by decide)⟩

end Tachyon
